import Mathlib

/-!
Dx8SoundManager: a shallow embedding.

The development follows `src/DxSoundManager.cpp` and `src/Dx8SoundManager.cpp`.

* The gain and pan conversions (`FloatToDb`, `DbToFloat`, `FloatPanningToDb`,
  `DbPanningToFloat`) are embedded over the reals: a `float` is the real number it
  denotes and the cast `(long)x` is truncation toward zero.  The `float` sums of the pan
  conversions (`1.0f - panning`, `1.0f + panning`, `1.0f - g`, `-1.0f + g`) are rounded
  to the nearest `float` (`roundToFloat`); `log10` and `pow` are the exact functions, the
  error of the library routines is not modelled.
* The manager is a record of its fields, together with the device objects it created and
  a trace of every call that leaves the manager (device calls, host callbacks, console
  output, critical-section brackets).  Methods are functions from the record to a result
  and a new record.
* DirectSound and the host context are external.  What they answer is an input of each
  call (a record of result codes and returned objects), so every theorem holds for every
  behaviour of the device and of the host.
* `OnCKInit` and `OnCKEnd` are embedded as compiled for the plugin (`CK_LIB` undefined),
  the configuration whose entry points are `CreateNewManager` and `RemoveManager`.
-/

namespace Dx8

/-! ## Gain and pan conversions (`src/DxSoundManager.cpp`, lines 73-122) -/

/-- The C cast `(long)x` of a real number: truncation toward zero. -/
noncomputable def truncToLong (x : ℝ) : ℤ :=
  if 0 ≤ x then ⌊x⌋ else ⌈x⌉

/-- Source function `long FloatToDb(float f)`: linear gain to hundredths of a decibel. -/
noncomputable def FloatToDb (f : ℝ) : ℤ :=
  if f ≤ 0 then -10000
  else if 1 ≤ f then 0
  else truncToLong (2000 * Real.logb 10 f)

/-- Source function `float DbToFloat(long d)`: hundredths of a decibel to linear gain. -/
noncomputable def DbToFloat (d : ℤ) : ℝ :=
  if d ≤ -10000 then 0
  else if 0 ≤ d then 1
  else (10 : ℝ) ^ ((d : ℝ) / 2000)

/-- The `float` nearest to a real number: IEEE 754 binary32, round to nearest, ties to
even (24 significant bits, gradual underflow below `2 ^ (-126)`).  Overflow is not
modelled: the conversions round numbers between `-1` and `1` only. -/
noncomputable def roundToFloat (x : ℝ) : ℝ :=
  let e : ℤ := max (Int.log 2 |x|) (-126)
  let ulp : ℝ := (2 : ℝ) ^ (e - 23)
  let y : ℝ := x / ulp
  let n : ℤ := ⌊y⌋
  let r : ℤ :=
    if y - n < 1 / 2 then n
    else if 1 / 2 < y - n then n + 1
    else if n % 2 = 0 then n else n + 1
  r * ulp

/-- Source function `long FloatPanningToDb(float panning)`.  The sums `1.0f - panning`
and `1.0f + panning` are `float` operations: their result is rounded to a `float`. -/
noncomputable def FloatPanningToDb (panning : ℝ) : ℤ :=
  if panning = 0 then 0
  else
    let p1 := if panning < -1 then -1 else panning
    let p2 := if 1 < p1 then 1 else p1
    if 0 < p2 then -FloatToDb (roundToFloat (1 - p2)) else FloatToDb (roundToFloat (1 + p2))

/-- Source function `float DbPanningToFloat(long d)`, with the two `float` sums rounded
to a `float`. -/
noncomputable def DbPanningToFloat (d : ℤ) : ℝ :=
  if 0 < d then roundToFloat (1 - DbToFloat (-d))
  else if d < 0 then roundToFloat (-1 + DbToFloat d)
  else 0

/-! ## Vocabulary of the host and of DirectSound -/

/-- Host object identifier (`CK_ID`); `0` is the null id. -/
abbrev CK_ID := Nat

/-- Identity of a device object behind an interface pointer.  A pointer field of the
manager is an `Option Handle`, with `none` for `NULL`. -/
abbrev Handle := Nat

/-- A DirectSound result code, read as a signed 32-bit integer. -/
abbrev HRESULT := Int

/-- The macro `SUCCEEDED(hr)`. -/
def SUCCEEDED (hr : HRESULT) : Bool := decide (0 ≤ hr)

/-- The macro `FAILED(hr)`. -/
def FAILED (hr : HRESULT) : Bool := decide (hr < 0)

def S_OK : HRESULT := 0
/-- Code `DSERR_OUTOFMEMORY` is `E_OUTOFMEMORY`, `0x8007000E`. -/
def DSERR_OUTOFMEMORY : HRESULT := 0x8007000E - 0x100000000
/-- Code `DSERR_INVALIDPARAM` is `E_INVALIDARG`, `0x80070057`. -/
def DSERR_INVALIDPARAM : HRESULT := 0x80070057 - 0x100000000
/-- Code `DSERR_BADFORMAT` is `MAKE_DSHRESULT(100)`, `0x88780064`. -/
def DSERR_BADFORMAT : HRESULT := 0x88780064 - 0x100000000
/-- The generic failure code `E_FAIL`, `0x80004005`. -/
def E_FAIL : HRESULT := 0x80004005 - 0x100000000

/-- Code `DSERR_BUFFERLOST` is `MAKE_DSHRESULT(150)`, `0x88780096`. -/
def DSERR_BUFFERLOST : HRESULT := 0x88780096 - 0x100000000

/-- The host error codes the manager returns. -/
inductive CKERROR
  | CK_OK
  | CKERR_INVALIDPARAMETER
  | CKERR_OUTOFMEMORY
  | CKERR_INVALIDFILE
  | CKERR_INVALIDOPERATION
  | CKERR_GENERIC
  deriving DecidableEq, Repr

open CKERROR

/-- Enumeration `CK_WAVESOUND_TYPE`: the two kinds of source (values of the host SDK). -/
def CK_WAVESOUND_BACKGROUND : Nat := 1
def CK_WAVESOUND_POINT : Nat := 2

/-! Buffer capability flags of `dsound.h`. -/

def DSBCAPS_PRIMARYBUFFER : Nat := 0x1
def DSBCAPS_LOCHARDWARE : Nat := 0x4
def DSBCAPS_LOCSOFTWARE : Nat := 0x8
def DSBCAPS_CTRL3D : Nat := 0x10
def DSBCAPS_CTRLFREQUENCY : Nat := 0x20
def DSBCAPS_CTRLPAN : Nat := 0x40
def DSBCAPS_CTRLVOLUME : Nat := 0x80
def DSBCAPS_GLOBALFOCUS : Nat := 0x8000
def DSBCAPS_GETCURRENTPOSITION2 : Nat := 0x10000
def DSBCAPS_LOCDEFER : Nat := 0x40000
def DSBSTATUS_PLAYING : Nat := 0x1

def DEFAULT_SAMPLE_RATE : Nat := 22050
def DEFAULT_CHANNELS : Nat := 2
def DEFAULT_BITS_PER_SAMPLE : Nat := 16

/-- Type `VxVector`, with exact rational coordinates. -/
structure VxVector where
  x : ℚ
  y : ℚ
  z : ℚ
  deriving DecidableEq, Repr

/-- Operator `operator-` of `VxVector`. -/
def VxVector.sub (a b : VxVector) : VxVector :=
  ⟨a.x - b.x, a.y - b.y, a.z - b.z⟩

/-- Type `CKWaveFormat` (laid out as `WAVEFORMATEX`). -/
structure CKWaveFormat where
  wFormatTag : Nat
  nChannels : Nat
  nSamplesPerSec : Nat
  nAvgBytesPerSec : Nat
  nBlockAlign : Nat
  wBitsPerSample : Nat
  cbSize : Nat
  deriving DecidableEq, Repr

/-- Type `SoundMinion` of the host SDK: a detached playback instance. -/
structure SoundMinion where
  m_Source : Option Handle
  m_OriginalSound : CK_ID
  m_Entity : CK_ID
  m_Position : VxVector
  m_Direction : VxVector
  m_OldPosition : VxVector
  deriving DecidableEq, Repr

/-- Type `DS3DBUFFER` of `dsound.h` (all 3D parameters of a buffer), without `dwSize`. -/
structure DS3DBUFFER where
  vPosition : VxVector
  vVelocity : VxVector
  dwInsideConeAngle : Nat
  dwOutsideConeAngle : Nat
  vConeOrientation : VxVector
  lConeOutsideVolume : Int
  flMinDistance : ℚ
  flMaxDistance : ℚ
  dwMode : Nat
  deriving DecidableEq, Repr

/-- What the device keeps for a sound buffer it created.  The audio data are the bytes
of the buffer, first byte first. -/
structure SoundBuffer where
  dwFlags : Nat
  dwBufferBytes : Nat
  frequency : Nat
  volume : Int
  pan : Int
  format : CKWaveFormat
  params3D : DS3DBUFFER
  data : List Nat
  deriving DecidableEq, Repr

/-- The 3D parameters DirectSound gives a new buffer. -/
def DS3DBUFFER.initial : DS3DBUFFER :=
  { vPosition := ⟨0, 0, 0⟩
    vVelocity := ⟨0, 0, 0⟩
    dwInsideConeAngle := 360
    dwOutsideConeAngle := 360
    vConeOrientation := ⟨0, 0, 1⟩
    lConeOutsideVolume := 0
    flMinDistance := 1
    flMaxDistance := 1000000000
    dwMode := 0 }

/-- A buffer as the device creates it: full volume, centred, playing at the rate of its
format, default 3D parameters, silent data. -/
def SoundBuffer.create (dwFlags dwBufferBytes : Nat) (format : CKWaveFormat) : SoundBuffer :=
  { dwFlags := dwFlags
    dwBufferBytes := dwBufferBytes
    frequency := format.nSamplesPerSec
    volume := 0
    pan := 0
    format := format
    params3D := DS3DBUFFER.initial
    data := List.replicate dwBufferBytes 0 }

/-- One call that leaves the manager.  `deferred` is the commit mode of a 3D write:
`true` for `DS3D_DEFERRED`, `false` for `DS3D_IMMEDIATE`. -/
inductive Event
  | registerNewManager
  | enterCriticalSection
  | leaveCriticalSection
  | outputToConsole (msg : String)
  | messageBox (text : String)
  | registerAttribute
  | wsRecreate (id : CK_ID)
  | wsRelease (id : CK_ID)
  | wsInternalStop (id : CK_ID)
  | wsWriteDataFromReader (id : CK_ID)
  | wsUpdateFade (id : CK_ID)
  | wsUpdatePosition (id : CK_ID) (deltaTime : ℚ)
  | directSoundCreate (hr : HRESULT)
  | setCooperativeLevel (root : Handle) (hr : HRESULT)
  | createSoundBuffer (root : Handle) (dwFlags : Nat) (dwBufferBytes : Nat) (hr : HRESULT)
  | queryInterfaceListener (buffer : Handle) (hr : HRESULT)
  | queryInterface3DBuffer (buffer : Handle) (hr : HRESULT)
  | getVolume (buffer : Handle) (hr : HRESULT)
  | setVolume (buffer : Handle) (volume : Int) (hr : HRESULT)
  | setFormat (buffer : Handle) (hr : HRESULT)
  | setFrequency (buffer : Handle) (frequency : Nat) (hr : HRESULT)
  | getCaps (buffer : Handle) (hr : HRESULT)
  | getStatus (buffer : Handle) (hr : HRESULT)
  | play (buffer : Handle) (looping : Bool)
  | stop (buffer : Handle)
  | release (object : Handle)
  | release3DBuffer (buffer : Handle)
  | commitDeferredSettings (listener : Handle)
  | listenerSetPosition (listener : Handle) (v : VxVector) (deferred : Bool)
  | listenerSetVelocity (listener : Handle) (v : VxVector) (deferred : Bool)
  | listenerSetOrientation (listener : Handle) (front top : VxVector) (deferred : Bool)
  | setPosition (buffer : Handle) (v : VxVector) (deferred : Bool)
  | setVelocity (buffer : Handle) (v : VxVector) (deferred : Bool)
  | setConeOrientation (buffer : Handle) (v : VxVector) (deferred : Bool)
  | wsPause (id : CK_ID)
  | wsStop (id : CK_ID)
  | baseSequenceToBeDeleted (objids : List CK_ID) (count : Int)
  | duplicateSoundBuffer (root : Handle) (source : Handle) (hr : HRESULT)
  | allocFormat (size : Nat)
  | freeFormat
  | getFormat (buffer : Handle) (sizeAllocated : Nat) (hr : HRESULT)
  | getPan (buffer : Handle) (hr : HRESULT)
  | setPan (buffer : Handle) (pan : Int) (hr : HRESULT)
  | getFrequency (buffer : Handle) (hr : HRESULT)
  | getAllParameters (buffer : Handle) (hr : HRESULT)
  | setAllParameters (buffer : Handle) (params : DS3DBUFFER) (deferred : Bool) (hr : HRESULT)
  | lock (buffer : Handle) (hr : HRESULT)
  | unlock (buffer : Handle)
  | setCurrentPosition (buffer : Handle) (position : Nat)
  | listenerSetDistanceFactor (listener : Handle) (v : ℚ) (deferred : Bool)
  | listenerSetDopplerFactor (listener : Handle) (v : ℚ) (deferred : Bool)
  | listenerSetRolloffFactor (listener : Handle) (v : ℚ) (deferred : Bool)
  | listenerGetFactor (listener : Handle) (factor : String) (hr : HRESULT)
  | wsResume (id : CK_ID)
  | pauseMinions
  | resumeMinions
  | basePostClearAll
  | setConeAngles (buffer : Handle) (inside outside : Nat) (deferred : Bool)
  | setConeOutsideVolume (buffer : Handle) (volume : Int) (deferred : Bool)
  | setMinDistance (buffer : Handle) (distance : ℚ) (deferred : Bool)
  | setMaxDistance (buffer : Handle) (distance : ℚ) (deferred : Bool)
  | setMode (buffer : Handle) (mode : Nat) (deferred : Bool)
  | get3DParameter (buffer : Handle) (parameter : String) (hr : HRESULT)
  deriving Repr

/-- Result of a device call that returns an object through an out-pointer. -/
structure OutParam where
  /-- the result code -/
  hr : HRESULT
  /-- the object handed out when the call succeeds (never `NULL`) -/
  obj : Handle
  /-- what the out-pointer holds after a failed call -/
  onFail : Option Handle

/-- The pointer the caller finds in the out-parameter after the call. -/
def OutParam.written (r : OutParam) : Option Handle :=
  if SUCCEEDED r.hr then some r.obj else r.onFail

/-- A host object as the manager sees it through `CKContext::GetObject`: the answers of
the `CKObject`, `CKWaveSound` and `CK3dEntity` methods the manager calls. -/
structure CKObject where
  /-- answer of `IsToBeDeleted()` -/
  toBeDeleted : Bool
  /-- answer of `IsInScene(scene)`, the scene given by its id -/
  inScene : CK_ID → Bool
  /-- answer of `CKWaveSound::IsPlaying()` -/
  isPlaying : Bool
  /-- answer of `CKWaveSound::GetFileStreaming()` -/
  fileStreaming : Bool
  /-- value of `GetState() & CK_WAVESOUND_STREAMFULLYLOADED` -/
  streamFullyLoaded : Bool
  /-- answer of `CKWaveSound::GetType()` -/
  soundType : Nat
  /-- whether `CKWaveSound::m_Source` is not `NULL` -/
  hasSource : Bool
  /-- method `CK3dEntity::Transform` -/
  transform : VxVector → VxVector
  /-- method `CK3dEntity::TransformVector` -/
  transformVector : VxVector → VxVector
  /-- rows 1, 2 and 3 of `CK3dEntity::GetWorldMatrix()` -/
  worldUp : VxVector
  worldDir : VxVector
  worldPos : VxVector

/-- The answers of the host context during one call of the manager. -/
structure CKContext where
  /-- value of `GetStartOptions() & CK_CONFIG_DISABLEDSOUND` -/
  disabledSound : Bool
  /-- value of `GetStartOptions() & CK_CONFIG_DOWARN` -/
  doWarn : Bool
  /-- answer of `IsInInterfaceMode()` -/
  interfaceMode : Bool
  /-- answer of `GetObjectsListByClassID(CKCID_WAVESOUND)`; its length is the count -/
  waveSounds : List CK_ID
  /-- answer of `GetObject(id)` -/
  getObject : CK_ID → Option CKObject
  /-- answer of `GetTimeManager()->GetLastDeltaTime()` -/
  lastDeltaTime : ℚ
  /-- answer of `CKSoundManager::GetListener()` -/
  listener : Option CKObject

/-- The manager: the fields of `DX8SoundManager` and of its bases that the code under
`src/` uses, the two globals of `DxSoundManager.cpp`, the buffers the device holds and
the trace of outgoing calls. -/
structure DX8SoundManager where
  m_Root : Option Handle
  m_Primary : Option Handle
  m_Listener : Option Handle
  m_bInitialized : Bool
  m_LastListenerPosition : VxVector
  m_bCriticalSectionInitialized : Bool
  /-- field `DXSoundManager::m_SoundsPlaying` -/
  m_SoundsPlaying : List CK_ID
  /-- field `CKSoundManager::m_Minions`; an entry may be a null pointer -/
  m_Minions : List (Option SoundMinion)
  g_InitialVolume : Int
  g_InitialVolumeChanged : Bool
  /-- the sound buffers alive in the device, most recent first -/
  buffers : List (Handle × SoundBuffer)
  /-- every outgoing call so far, oldest first -/
  trace : List Event

/-- The device's answers to the calls of one `OnCKInit`. -/
structure InitDevice where
  /-- answer of `DirectSoundCreate(NULL, &m_Root, NULL)` -/
  create : OutParam
  /-- result of `SetCooperativeLevel` -/
  cooperativeLevel : HRESULT
  /-- answer of `CreateSoundBuffer(&dsbdesc, &m_Primary, NULL)` -/
  primary : OutParam
  /-- volume of the primary buffer when it is created -/
  primaryVolume : Int
  /-- result of `m_Primary->GetVolume` -/
  getVolume : HRESULT
  /-- answer of `QueryInterface(IID_IDirectSound3DListener, &m_Listener)` -/
  listener : OutParam
  /-- result of `m_Primary->SetFormat` -/
  setFormat : HRESULT

/-- The device's answers to the calls of one `OnCKReset`. -/
structure ResetDevice where
  /-- result of `m_Primary->SetVolume` -/
  setVolume : HRESULT

/-- The device's answers during one `PostProcess`. -/
structure FrameDevice where
  /-- answer of `GetStatus` on a buffer: result code and status word -/
  getStatus : Handle → HRESULT × Nat
  /-- result of `QueryInterface(IID_IDirectSound3DBuffer)` on a buffer -/
  query3D : Handle → HRESULT

/-- The device's answers to the calls of one `CreateSource`. -/
structure CreateDevice where
  /-- answer of `m_Root->CreateSoundBuffer(&dsbd, &buffer, NULL)` -/
  create : OutParam
  /-- whether the device places the buffer in hardware memory -/
  locHardware : Bool
  /-- result of `buffer->SetFrequency` -/
  setFrequency : HRESULT

/-- The device's answer to a `Lock` with `DSBLOCK_ENTIREBUFFER`: the result code and the
two segments, each given by where it starts in the buffer (`none` for a null pointer)
and its length in bytes. -/
structure LockAnswer where
  hr : HRESULT
  ptr1 : Option Nat
  bytes1 : Nat
  ptr2 : Option Nat
  bytes2 : Nat

/-- The device's answers to the calls of one `DuplicateSource`, and the content of the one
local variable the method hands to the device without having written it. -/
structure DuplicateDevice where
  /-- answer of `m_Root->DuplicateSoundBuffer(srcBuffer, &newBuffer)` -/
  duplicate : OutParam
  /-- answer of the first `GetFormat`: result code and the size it reports -/
  getFormat : HRESULT × Nat
  /-- whether `new BYTE[formatSize]` returns null -/
  allocFails : Bool
  /-- result of the second `GetFormat` -/
  getFormatRetry : HRESULT
  /-- result of `srcBuffer->GetCaps` -/
  getCaps : HRESULT
  /-- answer of `m_Root->CreateSoundBuffer(&dsbd, &newBuffer, NULL)` -/
  create : OutParam
  /-- whether the device places the new buffer in hardware memory -/
  locHardware : Bool
  getVolume : HRESULT
  setVolume : HRESULT
  getPan : HRESULT
  setPan : HRESULT
  getFrequency : HRESULT
  setFrequency : HRESULT
  /-- result of `QueryInterface(IID_IDirectSound3DBuffer)` on the source -/
  query3DSource : HRESULT
  /-- result of `QueryInterface(IID_IDirectSound3DBuffer)` on the new buffer -/
  query3DNew : HRESULT
  /-- what the field `buffer3D.dwSize` holds when `GetAllParameters` is called: the local
  `buffer3D` is declared at line 225 and the method never assigns its `dwSize`, so the
  value is whatever the stack held -/
  buffer3DSize : Nat
  /-- result of `src3D->GetAllParameters(&buffer3D)`, for the `dwSize` the structure
  carries -/
  getAllParameters : Nat → HRESULT
  setAllParameters : HRESULT
  lockSource : LockAnswer
  lockNew : LockAnswer

/-- The selection `settingsoptions & CK_LISTENERSETTINGS_...` of `UpdateListenerSettings`,
one flag for each bit the method tests. -/
structure ListenerOptions where
  distance : Bool
  doppler : Bool
  rolloff : Bool
  gain : Bool

/-- Type `CKListenerSettings`.  The gain is a real, as the conversions are. -/
structure CKListenerSettings where
  m_DistanceFactor : ℚ
  m_DopplerFactor : ℚ
  m_RollOff : ℚ
  m_GlobalGain : ℝ

/-- The device's answers to the calls of one `UpdateListenerSettings`. -/
structure ListenerDevice where
  getDistanceFactor : HRESULT × ℚ
  getDopplerFactor : HRESULT × ℚ
  getRolloffFactor : HRESULT × ℚ
  /-- result of `m_Primary->GetVolume` -/
  getVolume : HRESULT
  /-- result of `m_Primary->SetVolume` -/
  setVolume : HRESULT

/-! ## The manager's methods (`src/Dx8SoundManager.cpp`) -/

/-- Append one outgoing call to the trace. -/
def emit (e : Event) (s : DX8SoundManager) : DX8SoundManager :=
  { s with trace := s.trace ++ [e] }

/-- The constructor `DX8SoundManager::DX8SoundManager` (lines 31-42).  The vector
`m_LastListenerPosition` is not assigned there, so its value is an argument. -/
def DX8SoundManager.construct (lastListenerPosition : VxVector) : DX8SoundManager :=
  { m_Root := none
    m_Primary := none
    m_Listener := none
    m_bInitialized := false
    m_LastListenerPosition := lastListenerPosition
    m_bCriticalSectionInitialized := true
    m_SoundsPlaying := []
    m_Minions := []
    g_InitialVolume := -600
    g_InitialVolumeChanged := false
    buffers := []
    trace := [Event.registerNewManager] }

/-- Method `EnterCriticalSection` (lines 71-76). -/
def EnterCriticalSection (s : DX8SoundManager) : DX8SoundManager :=
  if s.m_bCriticalSectionInitialized then emit Event.enterCriticalSection s else s

/-- Method `LeaveCriticalSection` (lines 78-83). -/
def LeaveCriticalSection (s : DX8SoundManager) : DX8SoundManager :=
  if s.m_bCriticalSectionInitialized then emit Event.leaveCriticalSection s else s

/-- Method `IsInitialized` (lines 107-114): the answer and the manager after the call. -/
def IsInitialized (s : DX8SoundManager) : Bool × DX8SoundManager :=
  let s1 := EnterCriticalSection s
  let result := s1.m_bInitialized && s1.m_Root.isSome && s1.m_Primary.isSome
  (result, LeaveCriticalSection s1)

/-- Method `ValidateSource` (lines 120-123). -/
def ValidateSource (source : Option Handle) : Bool := source.isSome

/-- Method `ValidateDirectSound` (lines 125-128). -/
def ValidateDirectSound (s : DX8SoundManager) : Bool :=
  s.m_Root.isSome && s.m_Primary.isSome

/-- The text `%08X` prints for a 32-bit result code. -/
def hex8 (hr : HRESULT) : String :=
  let ds := (Nat.toDigits 16 (hr % 0x100000000).toNat).map Char.toUpper
  String.mk (List.replicate (8 - ds.length) '0' ++ ds)

/-- Method `HandleDirectSoundError` (lines 130-146). -/
def HandleDirectSoundError (ctx : CKContext) (hr : HRESULT) (operation : String)
    (s : DX8SoundManager) : CKERROR × DX8SoundManager :=
  if SUCCEEDED hr then (CK_OK, s)
  else
    let s1 :=
      if ctx.interfaceMode then
        emit (Event.outputToConsole ("DirectSound Error in " ++ operation ++ ": 0x" ++ hex8 hr)) s
      else s
    if hr = DSERR_OUTOFMEMORY then (CKERR_OUTOFMEMORY, s1)
    else if hr = DSERR_INVALIDPARAM then (CKERR_INVALIDPARAMETER, s1)
    else if hr = DSERR_BADFORMAT then (CKERR_INVALIDFILE, s1)
    else (CKERR_INVALIDOPERATION, s1)

/-- The device forgets a buffer whose last reference is released. -/
def dropBuffer (b : Handle) (s : DX8SoundManager) : DX8SoundManager :=
  { s with buffers := s.buffers.filter (fun e => e.1 != b) }

/-- Method `CleanupDirectSoundResources` (lines 1035-1055). -/
def CleanupDirectSoundResources (s : DX8SoundManager) : DX8SoundManager :=
  let s1 :=
    match s.m_Listener with
    | some l => { emit (Event.release l) s with m_Listener := none }
    | none => s
  let s2 :=
    match s1.m_Primary with
    | some p =>
      { dropBuffer p (emit (Event.release p) (emit (Event.stop p) s1)) with m_Primary := none }
    | none => s1
  match s2.m_Root with
  | some r => { emit (Event.release r) s2 with m_Root := none }
  | none => s2

/-- The loop over `GetObjectsListByClassID(CKCID_WAVESOUND)` shared by `OnCKInit`
(lines 994-1003) and `StopAllPlayingSounds`: `act id` is the host method called on every
sound that `GetObject` resolves. -/
def forEachWaveSound (ctx : CKContext) (act : CK_ID → Event) :
    List CK_ID → DX8SoundManager → DX8SoundManager
  | [], s => s
  | id :: rest, s =>
    match ctx.getObject id with
    | some _ => forEachWaveSound ctx act rest (emit (act id) s)
    | none => forEachWaveSound ctx act rest s

/-- Method `StopAllPlayingSounds` (lines 1057-1074). -/
def StopAllPlayingSounds (ctx : CKContext) (s : DX8SoundManager) : DX8SoundManager :=
  forEachWaveSound ctx Event.wsRelease ctx.waveSounds s

/-- The block every failing step of `OnCKInit` runs (lines 900-913, 918-931, 939-952,
959-972): clean up, warn when asked to, leave the critical section, map the code. -/
def initFailure (ctx : CKContext) (hr : HRESULT) (warning operation : String)
    (s : DX8SoundManager) : CKERROR × DX8SoundManager :=
  let s1 := CleanupDirectSoundResources s
  let s2 := if ctx.doWarn then emit (Event.messageBox warning) s1 else s1
  HandleDirectSoundError ctx hr operation (LeaveCriticalSection s2)

/-- The primary buffer description of `OnCKInit` (line 936). -/
def primaryFlags : Nat :=
  DSBCAPS_PRIMARYBUFFER ||| DSBCAPS_CTRLVOLUME ||| DSBCAPS_CTRL3D

/-- The format `OnCKInit` asks for the primary buffer (lines 975-981). -/
def preferredFormat : CKWaveFormat :=
  { wFormatTag := 1
    nChannels := DEFAULT_CHANNELS
    nSamplesPerSec := DEFAULT_SAMPLE_RATE
    nAvgBytesPerSec := DEFAULT_SAMPLE_RATE * (DEFAULT_BITS_PER_SAMPLE / 8 * DEFAULT_CHANNELS)
    nBlockAlign := DEFAULT_BITS_PER_SAMPLE / 8 * DEFAULT_CHANNELS
    wBitsPerSample := DEFAULT_BITS_PER_SAMPLE
    cbSize := 0 }

/-- The primary buffer as the device creates it, at the volume the device gives it. -/
def primaryBuffer (volume : Int) : SoundBuffer :=
  { dwFlags := primaryFlags
    dwBufferBytes := 0
    frequency := 0
    volume := volume
    pan := 0
    format := preferredFormat
    params3D := DS3DBUFFER.initial
    data := [] }

/-- Method `OnCKInit` (lines 849-1011), plugin build. -/
def OnCKInit (ctx : CKContext) (dev : InitDevice) (s : DX8SoundManager) :
    CKERROR × DX8SoundManager :=
  if ctx.disabledSound then (CK_OK, s)
  else
    let s1 := EnterCriticalSection s
    -- hr = DirectSoundCreate(NULL, &m_Root, NULL)
    let s2 := { emit (Event.directSoundCreate dev.create.hr) s1 with
                m_Root := dev.create.written }
    if FAILED dev.create.hr then
      initFailure ctx dev.create.hr "DirectX Sound Engine Initialization Failed"
        "DirectSoundCreate" s2
    else
      let root := dev.create.obj
      let s3 := emit (Event.setCooperativeLevel root dev.cooperativeLevel) s2
      if FAILED dev.cooperativeLevel then
        initFailure ctx dev.cooperativeLevel "DirectX Cooperative Level Failed"
          "SetCooperativeLevel" s3
      else
        -- hr = m_Root->CreateSoundBuffer(&dsbdesc, &m_Primary, NULL)
        let s4 := { emit (Event.createSoundBuffer root primaryFlags 0 dev.primary.hr) s3 with
                    m_Primary := dev.primary.written }
        if FAILED dev.primary.hr then
          initFailure ctx dev.primary.hr "DirectX Primary Buffer Failed"
            "CreateSoundBuffer(Primary)" s4
        else
          let primary := dev.primary.obj
          let s5 := { s4 with
                      buffers := (primary, primaryBuffer dev.primaryVolume) :: s4.buffers }
          -- m_Primary->GetVolume(&g_InitialVolume)
          let s6 := { emit (Event.getVolume primary dev.getVolume) s5 with
                      g_InitialVolume :=
                        if SUCCEEDED dev.getVolume then dev.primaryVolume
                        else s5.g_InitialVolume }
          -- hr = m_Primary->QueryInterface(IID_IDirectSound3DListener, &m_Listener)
          let s7 := { emit (Event.queryInterfaceListener primary dev.listener.hr) s6 with
                      m_Listener := dev.listener.written }
          if FAILED dev.listener.hr then
            initFailure ctx dev.listener.hr "DirectX Listener Failed"
              "QueryInterface(Listener)" s7
          else
            let s8 := emit (Event.setFormat primary dev.setFormat) s7
            let s9 :=
              if FAILED dev.setFormat && ctx.interfaceMode then
                emit (Event.outputToConsole "Warning: Could not set preferred audio format") s8
              else s8
            let s10 := emit Event.registerAttribute s9
            let s11 := forEachWaveSound ctx Event.wsRecreate ctx.waveSounds s10
            let s12 := emit (Event.play primary true) s11
            (CK_OK, LeaveCriticalSection { s12 with m_bInitialized := true })

/-- Method `OnCKEnd` (lines 1013-1033), plugin build. -/
def OnCKEnd (ctx : CKContext) (s : DX8SoundManager) : CKERROR × DX8SoundManager :=
  if ctx.disabledSound then (CK_OK, s)
  else
    let s1 := EnterCriticalSection s
    let s2 := StopAllPlayingSounds ctx s1
    let s3 := CleanupDirectSoundResources s2
    (CK_OK, LeaveCriticalSection { s3 with m_bInitialized := false })

/-- Method `ReleaseSource` (lines 357-366). -/
def ReleaseSource (source : Option Handle) (s : DX8SoundManager) : DX8SoundManager :=
  match source with
  | none => s
  | some b => dropBuffer b (emit (Event.release b) (emit (Event.stop b) s))

/-- Method `IsPlaying` (lines 454-468). -/
def IsPlaying (dev : FrameDevice) (source : Option Handle) (s : DX8SoundManager) :
    Bool × DX8SoundManager :=
  match source with
  | none => (false, s)
  | some b =>
    let r := dev.getStatus b
    let s1 := emit (Event.getStatus b r.1) s
    if SUCCEEDED r.1 then (r.2 &&& DSBSTATUS_PLAYING != 0, s1) else (false, s1)

/-- Method `PositionSource` (lines 792-828): the new value of `oldpos` and the manager. -/
def PositionSource (dev : FrameDevice) (psource : Option Handle) (ent : Option CKObject)
    (position direction oldpos : VxVector) (s : DX8SoundManager) :
    VxVector × DX8SoundManager :=
  match psource with
  | none => (oldpos, s)
  | some b =>
    let s1 := emit (Event.queryInterface3DBuffer b (dev.query3D b)) s
    if FAILED (dev.query3D b) then (oldpos, s1)
    else
      let pos := match ent with
        | some e => e.transform position
        | none => position
      let vel := pos.sub oldpos
      let dir := match ent with
        | some e => e.transformVector direction
        | none => direction
      let s2 := emit (Event.setPosition b pos false) s1
      let s3 := emit (Event.setVelocity b vel false) s2
      let s4 := emit (Event.setConeOrientation b dir false) s3
      (pos, emit (Event.release3DBuffer b) s4)

/-- Modelled from the spec: `CKSoundManager::ReleaseMinions` of the host SDK, which is
not under `src/`.  "Release all minions": the source of every minion is stopped and
released, and the pool is emptied. -/
def ReleaseMinions (s : DX8SoundManager) : DX8SoundManager :=
  let s1 := s.m_Minions.foldl
    (fun acc entry =>
      match entry with
      | some m => ReleaseSource m.m_Source acc
      | none => acc) s
  { s1 with m_Minions := [] }

/-- Modelled from the spec: the walk of `CKSoundManager::ProcessMinions` of the host SDK,
which is not under `src/`.  It "walks all minions, stops and releases any whose source
reports not-playing, and removes them". -/
def reapMinions (dev : FrameDevice) :
    List (Option SoundMinion) → DX8SoundManager → List (Option SoundMinion) × DX8SoundManager
  | [], s => ([], s)
  | none :: rest, s =>
    let r := reapMinions dev rest s
    (none :: r.1, r.2)
  | some m :: rest, s =>
    let p := IsPlaying dev m.m_Source s
    if p.1 then
      let r := reapMinions dev rest p.2
      (some m :: r.1, r.2)
    else reapMinions dev rest (ReleaseSource m.m_Source p.2)

/-- Modelled from the spec: `CKSoundManager::ProcessMinions` (see `reapMinions`). -/
def ProcessMinions (dev : FrameDevice) (s : DX8SoundManager) : DX8SoundManager :=
  let r := reapMinions dev s.m_Minions s
  let s1 := r.2
  { s1 with m_Minions := r.1 }

/-- The device records the volume a successful `SetVolume` gives a buffer. -/
def storeVolume (b : Handle) (volume : Int) (s : DX8SoundManager) : DX8SoundManager :=
  let update : Handle × SoundBuffer → Handle × SoundBuffer := fun e =>
    let old := e.2
    if e.1 = b then (e.1, { old with volume := volume }) else e
  { s with buffers := s.buffers.map update }

/-- Method `OnCKReset` (lines 1166-1198). -/
def OnCKReset (ctx : CKContext) (dev : ResetDevice) (s : DX8SoundManager) :
    CKERROR × DX8SoundManager :=
  if !ValidateDirectSound s then (CK_OK, s)
  else
    let s1 := EnterCriticalSection s
    let s2 := s1.m_SoundsPlaying.foldl
      (fun acc id =>
        match ctx.getObject id with
        | some ws => if ws.hasSource then emit (Event.wsInternalStop id) acc else acc
        | none => acc) s1
    let s3 := ReleaseMinions { s2 with m_SoundsPlaying := [] }
    let s4 :=
      match s3.m_Primary with
      | some p =>
        if s3.g_InitialVolumeChanged then
          let s3a := emit (Event.setVolume p s3.g_InitialVolume dev.setVolume) s3
          if SUCCEEDED dev.setVolume then storeVolume p s3.g_InitialVolume s3a else s3a
        else s3
      | none => s3
    let s5 :=
      match s4.m_Listener with
      | some l => emit (Event.commitDeferredSettings l) s4
      | none => s4
    (CK_OK, LeaveCriticalSection s5)

/-- The first loop of `PostProcess` (lines 1097-1119): the ids kept in the registry,
whether a sound that is not a background sound is playing, and the manager. -/
def sweepPlaying (ctx : CKContext) :
    List CK_ID → DX8SoundManager → List CK_ID × Bool × DX8SoundManager
  | [], s => ([], false, s)
  | id :: rest, s =>
    match ctx.getObject id with
    | some ws =>
      if ws.isPlaying then
        let s1 :=
          if ws.fileStreaming && !ws.streamFullyLoaded then
            emit (Event.wsWriteDataFromReader id) s
          else s
        let s2 := emit (Event.wsUpdateFade id) s1
        let in3D := (ws.soundType &&& CK_WAVESOUND_BACKGROUND) == 0
        let s3 := if in3D then emit (Event.wsUpdatePosition id ctx.lastDeltaTime) s2 else s2
        let r := sweepPlaying ctx rest s3
        (id :: r.1, in3D || r.2.1, r.2.2)
      else sweepPlaying ctx rest s
    | none => sweepPlaying ctx rest s

/-- The body of the second loop of `PostProcess` for a minion whose source is playing
(lines 1126-1132): the minion with its new `m_OldPosition`, and the manager. -/
def repositionMinion (ctx : CKContext) (dev : FrameDevice) (m : SoundMinion)
    (s : DX8SoundManager) : SoundMinion × DX8SoundManager :=
  if m.m_Entity != 0 then
    match ctx.getObject m.m_Entity with
    | some ent =>
      let r := PositionSource dev m.m_Source (some ent) m.m_Position m.m_Direction
        m.m_OldPosition s
      ({ m with m_OldPosition := r.1 }, r.2)
    | none => (m, s)
  else (m, s)

/-- The second loop of `PostProcess` (lines 1122-1134): the pool, whether the source of
a minion is playing, and the manager.  The loop reads `(*itm)->m_Source` of every entry,
so a null entry ends the call (`none`). -/
def sweepMinions (ctx : CKContext) (dev : FrameDevice) :
    List (Option SoundMinion) → DX8SoundManager →
      Option (List (Option SoundMinion) × Bool × DX8SoundManager)
  | [], s => some ([], false, s)
  | none :: _, _ => none
  | some m :: rest, s =>
    let p := IsPlaying dev m.m_Source s
    if p.1 then
      let q := repositionMinion ctx dev m p.2
      (sweepMinions ctx dev rest q.2).map (fun r => (some q.1 :: r.1, true, r.2.2))
    else
      (sweepMinions ctx dev rest p.2).map (fun r => (some m :: r.1, r.2.1, r.2.2))

/-- The listener update of `PostProcess` (lines 1137-1152).  With a listener entity the
code calls `m_Listener->SetPosition`, so a null `m_Listener` ends the call (`none`). -/
def updateListener (ctx : CKContext) (somethingIsPlayingIn3D : Bool) (s : DX8SoundManager) :
    Option DX8SoundManager :=
  if somethingIsPlayingIn3D then
    match ctx.listener with
    | some ent =>
      match s.m_Listener with
      | some l =>
        let velocity := ent.worldPos.sub s.m_LastListenerPosition
        let s1 := { s with m_LastListenerPosition := ent.worldPos }
        let s2 := emit (Event.listenerSetPosition l ent.worldPos true) s1
        let s3 := emit (Event.listenerSetVelocity l velocity true) s2
        some (emit (Event.listenerSetOrientation l ent.worldDir ent.worldUp true) s3)
      | none => none
    | none => some s
  else some s

/-- Method `PostProcess` (lines 1076-1164); `none` when the call dereferences a null
pointer. -/
def PostProcess (ctx : CKContext) (dev : FrameDevice) (s : DX8SoundManager) :
    Option (CKERROR × DX8SoundManager) :=
  if !ValidateDirectSound s then some (CK_OK, s)
  else
    let s1 := EnterCriticalSection s
    let r := sweepPlaying ctx s1.m_SoundsPlaying s1
    let s2 := { r.2.2 with m_SoundsPlaying := r.1 }
    match sweepMinions ctx dev s2.m_Minions s2 with
    | none => none
    | some q =>
      let s3 := { q.2.2 with m_Minions := q.1 }
      match updateListener ctx (r.2.1 || q.2.1) s3 with
      | none => none
      | some s4 =>
        let s5 :=
          match s4.m_Listener with
          | some l => emit (Event.commitDeferredSettings l) s4
          | none => s4
        some (CK_OK, LeaveCriticalSection (ProcessMinions dev s5))

/-- The flags `CreateSource` asks for (lines 177-190). -/
def sourceFlags (type : Nat) : Nat :=
  let common := DSBCAPS_CTRLFREQUENCY ||| DSBCAPS_CTRLVOLUME |||
    DSBCAPS_GETCURRENTPOSITION2 ||| DSBCAPS_GLOBALFOCUS
  if type = CK_WAVESOUND_BACKGROUND then common ||| DSBCAPS_CTRLPAN
  else common ||| DSBCAPS_CTRL3D

/-- Method `CreateSource` (lines 152-209): the returned pointer and the manager.  A buffer
the device creates reports the flags of its description and where it was placed. -/
def CreateSource (ctx : CKContext) (dev : CreateDevice) (type : Nat)
    (wf : Option CKWaveFormat) (bytes : Nat) (_streamed : Bool) (s : DX8SoundManager) :
    Option Handle × DX8SoundManager :=
  match wf with
  | none => (none, s)
  | some fmt =>
    if bytes = 0 then (none, s)
    else if ctx.disabledSound then
      (none,
        if ctx.interfaceMode then
          emit (Event.outputToConsole "Cannot create sound: Sound disabled") s
        else s)
    else
      match s.m_Root, s.m_Primary with
      | some root, some _ =>
        let s1 := emit (Event.createSoundBuffer root (sourceFlags type) bytes dev.create.hr) s
        if FAILED dev.create.hr then
          (none, (HandleDirectSoundError ctx dev.create.hr "CreateSoundBuffer" s1).2)
        else
          let buffer := dev.create.obj
          let placed := if dev.locHardware then DSBCAPS_LOCHARDWARE else DSBCAPS_LOCSOFTWARE
          let s2 := { s1 with
            buffers := (buffer, SoundBuffer.create (sourceFlags type ||| placed) bytes fmt)
              :: s1.buffers }
          let s3 := emit (Event.setFrequency buffer fmt.nSamplesPerSec dev.setFrequency) s2
          if FAILED dev.setFrequency then
            let s4 := dropBuffer buffer (emit (Event.release buffer) s3)
            (none, (HandleDirectSoundError ctx dev.setFrequency "SetFrequency" s4).2)
          else (some buffer, s3)
      | _, _ =>
        (none,
          if ctx.interfaceMode then
            emit (Event.outputToConsole "Cannot create sound: Sound manager not initialized") s
          else s)

/-- Method `GetType` (lines 566-582); `hr` is the result of `buffer->GetCaps`.  For a
buffer the device does not know, `caps` stays as `ZeroMemory` left it. -/
def GetType (hr : HRESULT) (source : Option Handle) (s : DX8SoundManager) :
    Nat × DX8SoundManager :=
  match source with
  | none => (0, s)
  | some b =>
    let s1 := emit (Event.getCaps b hr) s
    if SUCCEEDED hr then
      let dwFlags := match s.buffers.lookup b with
        | some buf => buf.dwFlags
        | none => 0
      (if dwFlags &&& DSBCAPS_CTRL3D != 0 then CK_WAVESOUND_POINT else CK_WAVESOUND_BACKGROUND,
        s1)
    else (CK_WAVESOUND_BACKGROUND, s1)

/-- The first device step of `OnCKInit` whose result code is a failure, with the name
the code gives that step; `none` when the four steps succeed. -/
def InitDevice.failingStep (dev : InitDevice) : Option (HRESULT × String) :=
  if FAILED dev.create.hr then some (dev.create.hr, "DirectSoundCreate")
  else if FAILED dev.cooperativeLevel then some (dev.cooperativeLevel, "SetCooperativeLevel")
  else if FAILED dev.primary.hr then some (dev.primary.hr, "CreateSoundBuffer(Primary)")
  else if FAILED dev.listener.hr then some (dev.listener.hr, "QueryInterface(Listener)")
  else none

/-- The record the device holds for a buffer; a buffer it does not know reads as an
empty one. -/
def deviceBuffer (s : DX8SoundManager) (b : Handle) : SoundBuffer :=
  (s.buffers.lookup b).getD (SoundBuffer.create 0 0 ⟨0, 0, 0, 0, 0, 0, 0⟩)

/-- The device applies `change` to the record of buffer `b`. -/
def updateBuffer (b : Handle) (change : SoundBuffer → SoundBuffer) (s : DX8SoundManager) :
    DX8SoundManager :=
  let update : Handle × SoundBuffer → Handle × SoundBuffer := fun e =>
    if e.1 = b then (e.1, change e.2) else e
  { s with buffers := s.buffers.map update }

/-- A call of `buffer->SetVolume(volume)` whose result is `hr`. -/
def bufferSetVolume (hr : HRESULT) (b : Handle) (volume : Int) (s : DX8SoundManager) :
    DX8SoundManager :=
  let s1 := emit (Event.setVolume b volume hr) s
  if SUCCEEDED hr then storeVolume b volume s1 else s1

/-- A call of `buffer->SetPan(pan)` whose result is `hr`. -/
def bufferSetPan (hr : HRESULT) (b : Handle) (pan : Int) (s : DX8SoundManager) :
    DX8SoundManager :=
  let s1 := emit (Event.setPan b pan hr) s
  if SUCCEEDED hr then updateBuffer b (fun old => { old with pan := pan }) s1 else s1

/-- A call of `buffer->SetFrequency(frequency)` whose result is `hr`. -/
def bufferSetFrequency (hr : HRESULT) (b : Handle) (frequency : Nat) (s : DX8SoundManager) :
    DX8SoundManager :=
  let s1 := emit (Event.setFrequency b frequency hr) s
  if SUCCEEDED hr then updateBuffer b (fun old => { old with frequency := frequency }) s1
  else s1

/-- A call of `SetAllParameters(&params, DS3D_IMMEDIATE)` whose result is `hr`. -/
def bufferSetAllParameters (hr : HRESULT) (b : Handle) (params : DS3DBUFFER)
    (s : DX8SoundManager) : DX8SoundManager :=
  let s1 := emit (Event.setAllParameters b params false hr) s
  if SUCCEEDED hr then updateBuffer b (fun old => { old with params3D := params }) s1
  else s1

/-- The call `memcpy(dst + dstOffset, src + srcOffset, n)` on the bytes of two buffers. -/
def memcpy (dst : List Nat) (dstOffset : Nat) (src : List Nat) (srcOffset n : Nat) :
    List Nat :=
  (List.range dst.length).map (fun i =>
    if dstOffset ≤ i ∧ i < dstOffset + n then src.getD (srcOffset + (i - dstOffset)) 0
    else dst.getD i 0)

/-- The size `sizeof(WAVEFORMATEX)` of the stack buffer `formatStack`. -/
def sizeofWAVEFORMATEX : Nat := 18

/-- The size `sizeof(DS3DBUFFER)`: two `DWORD`s for `dwSize` and `dwMode`, three vectors
of three `float`s, two cone angles, the cone volume and the two distances. -/
def sizeofDS3DBUFFER : Nat := 64

/-- The mask `~(DSBCAPS_LOCHARDWARE | DSBCAPS_LOCSOFTWARE | DSBCAPS_LOCDEFER)` as a
`DWORD`. -/
def locationCleared : Nat :=
  0xFFFFFFFF ^^^ (DSBCAPS_LOCHARDWARE ||| DSBCAPS_LOCSOFTWARE ||| DSBCAPS_LOCDEFER)

/-- The statement `delete [] (BYTE*)waveFormat` under `if (formatAllocated)`. -/
def freeFormat (formatAllocated : Bool) (s : DX8SoundManager) : DX8SoundManager :=
  if formatAllocated then emit Event.freeFormat s else s

/-- The format read of `DuplicateSource` (lines 246-265): the format and whether it was
heap-allocated, or `none` when the method returns `NULL` there. -/
def readSourceFormat (dev : DuplicateDevice) (src : Handle) (s : DX8SoundManager) :
    Option (CKWaveFormat × Bool) × DX8SoundManager :=
  let s1 := emit (Event.getFormat src sizeofWAVEFORMATEX dev.getFormat.1) s
  if dev.getFormat.1 = DSERR_INVALIDPARAM ∧ dev.getFormat.2 > sizeofWAVEFORMATEX then
    if dev.allocFails then (none, s1)
    else
      let s2 := emit (Event.allocFormat dev.getFormat.2) s1
      let s3 := emit (Event.getFormat src dev.getFormat.2 dev.getFormatRetry) s2
      if FAILED dev.getFormatRetry then (none, emit Event.freeFormat s3)
      else (some ((deviceBuffer s src).format, true), s3)
  else if FAILED dev.getFormat.1 then (none, s1)
  else (some ((deviceBuffer s src).format, false), s1)

/-- The copy of volume, pan and frequency in `DuplicateSource` (lines 296-304). -/
def copyProperties (dev : DuplicateDevice) (src d : Handle) (s : DX8SoundManager) :
    DX8SoundManager :=
  let s1 := emit (Event.getVolume src dev.getVolume) s
  let s2 :=
    if SUCCEEDED dev.getVolume then bufferSetVolume dev.setVolume d (deviceBuffer s1 src).volume s1
    else s1
  let s3 := emit (Event.getPan src dev.getPan) s2
  let s4 :=
    if SUCCEEDED dev.getPan then bufferSetPan dev.setPan d (deviceBuffer s3 src).pan s3
    else s3
  let s5 := emit (Event.getFrequency src dev.getFrequency) s4
  if SUCCEEDED dev.getFrequency then
    bufferSetFrequency dev.setFrequency d (deviceBuffer s5 src).frequency s5
  else s5

/-- The copy of the 3D parameters in `DuplicateSource` (lines 307-320).  The structure
`buffer3D` goes to `GetAllParameters` with the `dwSize` it happens to hold. -/
def copy3DParameters (dev : DuplicateDevice) (src d : Handle) (s : DX8SoundManager) :
    DX8SoundManager :=
  let s1 := emit (Event.queryInterface3DBuffer src dev.query3DSource) s
  if SUCCEEDED dev.query3DSource then
    let s2 := emit (Event.queryInterface3DBuffer d dev.query3DNew) s1
    let s3 :=
      if SUCCEEDED dev.query3DNew then
        let s2a :=
          emit (Event.getAllParameters src (dev.getAllParameters dev.buffer3DSize)) s2
        if SUCCEEDED (dev.getAllParameters dev.buffer3DSize) then
          bufferSetAllParameters dev.setAllParameters d (deviceBuffer s2a src).params3D s2a
        else s2a
      else s2
    let s4 := emit (Event.release3DBuffer src) s3
    if SUCCEEDED dev.query3DNew then emit (Event.release3DBuffer d) s4 else s4
  else s1

/-- One of the two guarded `memcpy` calls of `DuplicateSource` (lines 335-342). -/
def copySegment (src d : Handle) (srcData : Option Nat) (srcSize : Nat)
    (newData : Option Nat) (newSize : Nat) (s : DX8SoundManager) : DX8SoundManager :=
  match srcData, newData with
  | some srcOffset, some newOffset =>
    if srcSize > 0 then
      let bytes := (deviceBuffer s src).data
      updateBuffer d (fun old =>
        { old with data := memcpy old.data newOffset bytes srcOffset (min srcSize newSize) }) s
    else s
  | _, _ => s

/-- The copy of the buffer content in `DuplicateSource` (lines 323-354): the pointer the
method returns, and the manager. -/
def copyContent (dev : DuplicateDevice) (src d : Handle) (s : DX8SoundManager) :
    Option Handle × DX8SoundManager :=
  let s1 := emit (Event.lock src dev.lockSource.hr) s
  if SUCCEEDED dev.lockSource.hr then
    let s2 := emit (Event.lock d dev.lockNew.hr) s1
    let r : Option Handle × DX8SoundManager :=
      if SUCCEEDED dev.lockNew.hr then
        let s3 := copySegment src d dev.lockSource.ptr1 dev.lockSource.bytes1
          dev.lockNew.ptr1 dev.lockNew.bytes1 s2
        let s4 := copySegment src d dev.lockSource.ptr2 dev.lockSource.bytes2
          dev.lockNew.ptr2 dev.lockNew.bytes2 s3
        (some d, emit (Event.unlock d) s4)
      else (none, dropBuffer d (emit (Event.release d) s2))
    (r.1, emit (Event.unlock src) r.2)
  else (some d, s1)

/-- The manual duplication of `DuplicateSource` (lines 245-354), entered when
`DuplicateSoundBuffer` has failed. -/
def duplicateManually (dev : DuplicateDevice) (root src : Handle) (s : DX8SoundManager) :
    Option Handle × DX8SoundManager :=
  let f := readSourceFormat dev src s
  match f.1 with
  | none => (none, f.2)
  | some (waveFormat, formatAllocated) =>
    let s2 := emit (Event.getCaps src dev.getCaps) f.2
    if FAILED dev.getCaps then (none, freeFormat formatAllocated s2)
    else
      let caps := deviceBuffer s2 src
      let dwFlags := caps.dwFlags &&& locationCleared
      let s3 := emit (Event.createSoundBuffer root dwFlags caps.dwBufferBytes dev.create.hr) s2
      if FAILED dev.create.hr then (none, freeFormat formatAllocated s3)
      else
        let d := dev.create.obj
        let placed := if dev.locHardware then DSBCAPS_LOCHARDWARE else DSBCAPS_LOCSOFTWARE
        let created := SoundBuffer.create (dwFlags ||| placed) caps.dwBufferBytes waveFormat
        let s4 := { s3 with buffers := (d, created) :: s3.buffers }
        let s5 := freeFormat formatAllocated s4
        copyContent dev src d (copy3DParameters dev src d (copyProperties dev src d s5))

/-- Method `DuplicateSource` (lines 211-355): the returned pointer and the manager.  A
buffer from `DuplicateSoundBuffer` has the record of its source. -/
def DuplicateSource (dev : DuplicateDevice) (source : Option Handle) (s : DX8SoundManager) :
    Option Handle × DX8SoundManager :=
  match source, s.m_Root, s.m_Primary with
  | some src, some root, some _ =>
    let s1 := emit (Event.duplicateSoundBuffer root src dev.duplicate.hr) s
    if SUCCEEDED dev.duplicate.hr then
      (some dev.duplicate.obj,
        { s1 with buffers := (dev.duplicate.obj, deviceBuffer s1 src) :: s1.buffers })
    else duplicateManually dev root src s1
  | _, _, _ => (none, s)

/-- Method `UpdateListenerSettings` (lines 745-786): the settings after the call and the
manager.  A getter that fails leaves its field as it was. -/
noncomputable def UpdateListenerSettings (dev : ListenerDevice) (options : ListenerOptions)
    (settings : CKListenerSettings) (set : Bool) (s : DX8SoundManager) :
    CKListenerSettings × DX8SoundManager :=
  match s.m_Listener with
  | none => (settings, s)
  | some l =>
    if set then
      let s1 :=
        if options.distance then
          emit (Event.listenerSetDistanceFactor l settings.m_DistanceFactor false) s
        else s
      let s2 :=
        if options.doppler then
          emit (Event.listenerSetDopplerFactor l settings.m_DopplerFactor false) s1
        else s1
      let s3 :=
        if options.rolloff then
          emit (Event.listenerSetRolloffFactor l settings.m_RollOff false) s2
        else s2
      let s4 :=
        if options.gain then
          match s3.m_Primary with
          | some p =>
            let s3a := bufferSetVolume dev.setVolume p (FloatToDb settings.m_GlobalGain) s3
            { s3a with g_InitialVolumeChanged := true }
          | none => s3
        else s3
      (settings, s4)
    else
      let s1 :=
        if options.distance then emit (Event.listenerGetFactor l "Distance" dev.getDistanceFactor.1) s
        else s
      let m1 :=
        if options.distance ∧ SUCCEEDED dev.getDistanceFactor.1 then
          { settings with m_DistanceFactor := dev.getDistanceFactor.2 }
        else settings
      let s2 :=
        if options.doppler then emit (Event.listenerGetFactor l "Doppler" dev.getDopplerFactor.1) s1
        else s1
      let m2 :=
        if options.doppler ∧ SUCCEEDED dev.getDopplerFactor.1 then
          { m1 with m_DopplerFactor := dev.getDopplerFactor.2 }
        else m1
      let s3 :=
        if options.rolloff then emit (Event.listenerGetFactor l "Rolloff" dev.getRolloffFactor.1) s2
        else s2
      let m3 :=
        if options.rolloff ∧ SUCCEEDED dev.getRolloffFactor.1 then
          { m2 with m_RollOff := dev.getRolloffFactor.2 }
        else m2
      if options.gain then
        match s3.m_Primary with
        | some p =>
          let s4 := emit (Event.getVolume p dev.getVolume) s3
          if SUCCEEDED dev.getVolume then
            ({ m3 with m_GlobalGain := DbToFloat (deviceBuffer s3 p).volume }, s4)
          else (m3, s4)
        | none => (m3, s3)
      else (m3, s3)

/-- Method `InternalPause` (lines 372-380). -/
def InternalPause (source : Option Handle) (s : DX8SoundManager) : DX8SoundManager :=
  match source with
  | none => s
  | some b => emit (Event.stop b) s

/-- Method `Pause` (lines 418-426); `ws` is the id of the sound, `none` for `NULL`. -/
def Pause (_ws : Option CK_ID) (source : Option Handle) (s : DX8SoundManager) :
    DX8SoundManager :=
  match source with
  | none => s
  | some b => InternalPause (some b) s

/-- Method `SetPlayPosition` (lines 428-436). -/
def SetPlayPosition (source : Option Handle) (pos : Int) (s : DX8SoundManager) :
    DX8SoundManager :=
  match source with
  | none => s
  | some b => if pos < 0 then s else emit (Event.setCurrentPosition b pos.toNat) s

/-- Method `DXSoundManager::Stop` (`src/DxSoundManager.h`, lines 32-36). -/
def Stop (w : Option CK_ID) (source : Option Handle) (s : DX8SoundManager) :
    DX8SoundManager :=
  SetPlayPosition source 0 (Pause w source s)

/-! ## Scene changes and deletions (`src/DxSoundManager.cpp`, lines 188-271) -/

/-- The first loop of `PreLaunchScene` (lines 198-203): `Pause()` is called on every
registry sound that resolves and is not in the new scene. -/
def pauseOutsideScene (ctx : CKContext) (scene : CK_ID) :
    List CK_ID → DX8SoundManager → DX8SoundManager
  | [], s => s
  | id :: rest, s =>
    match ctx.getObject id with
    | some ws =>
      if !ws.inScene scene then pauseOutsideScene ctx scene rest (emit (Event.wsPause id) s)
      else pauseOutsideScene ctx scene rest s
    | none => pauseOutsideScene ctx scene rest s

/-- The second loop of `PreLaunchScene` (lines 206-222): the pool that remains, and the
manager. -/
def stopMinionsOutsideScene (ctx : CKContext) (scene : CK_ID) :
    List (Option SoundMinion) → DX8SoundManager → List (Option SoundMinion) × DX8SoundManager
  | [], s => ([], s)
  | none :: rest, s => stopMinionsOutsideScene ctx scene rest s
  | some m :: rest, s =>
    let keep : Bool :=
      match ctx.getObject m.m_OriginalSound with
      | some sceneObj => sceneObj.inScene scene
      | none => false
    if keep then
      let r := stopMinionsOutsideScene ctx scene rest s
      (some m :: r.1, r.2)
    else
      stopMinionsOutsideScene ctx scene rest
        (ReleaseSource m.m_Source (Stop none m.m_Source s))

/-- Method `DXSoundManager::PreLaunchScene` (lines 188-225); a scene is given by its id,
`none` for a null pointer. -/
def PreLaunchScene (ctx : CKContext) (_oldScene : Option CK_ID) (newScene : Option CK_ID)
    (s : DX8SoundManager) : CKERROR × DX8SoundManager :=
  match newScene with
  | none => (CKERR_INVALIDPARAMETER, s)
  | some scene =>
    let s1 := pauseOutsideScene ctx scene s.m_SoundsPlaying s
    let r := stopMinionsOutsideScene ctx scene s1.m_Minions s1
    let s2 := r.2
    (CK_OK, { s2 with m_Minions := r.1 })

/-- The test `!ws || ws->IsToBeDeleted()` of `SequenceToBeDeleted` (line 243), negated:
the id resolves to an object that is not flagged for deletion. -/
def CKContext.alive (ctx : CKContext) (id : CK_ID) : Bool :=
  match ctx.getObject id with
  | some o => !o.toBeDeleted
  | none => false

/-- The first loop of `SequenceToBeDeleted` (lines 241-251): the registry that remains,
and the manager. -/
def purgePlaying (ctx : CKContext) :
    List CK_ID → DX8SoundManager → List CK_ID × DX8SoundManager
  | [], s => ([], s)
  | id :: rest, s =>
    match ctx.getObject id with
    | some ws =>
      if ws.toBeDeleted then purgePlaying ctx rest (emit (Event.wsStop id) s)
      else
        let r := purgePlaying ctx rest s
        (id :: r.1, r.2)
    | none => purgePlaying ctx rest s

/-- The body of the second loop of `SequenceToBeDeleted` (lines 255-267) for one entry
of the pool. -/
def severMinion (ctx : CKContext) : Option SoundMinion → Option SoundMinion
  | none => none
  | some m =>
    let original : CK_ID :=
      match ctx.getObject m.m_OriginalSound with
      | some ws => if ws.toBeDeleted then 0 else m.m_OriginalSound
      | none => m.m_OriginalSound
    let entity : CK_ID :=
      match ctx.getObject m.m_Entity with
      | some e => if e.toBeDeleted then 0 else m.m_Entity
      | none => 0
    some { m with m_OriginalSound := original, m_Entity := entity }

/-- Method `DXSoundManager::SequenceToBeDeleted` (lines 227-271).  The array `objids` is
`none` for a null pointer.  The base handler `CKSoundManager::SequenceToBeDeleted` is
host SDK code: it is recorded in the trace and `baseResult` is the code it returns. -/
def SequenceToBeDeleted (ctx : CKContext) (baseResult : CKERROR)
    (objids : Option (List CK_ID)) (count : Int) (s : DX8SoundManager) :
    CKERROR × DX8SoundManager :=
  match objids with
  | none => (CKERR_INVALIDPARAMETER, s)
  | some ids =>
    if count ≤ 0 then (CKERR_INVALIDPARAMETER, s)
    else
      let s1 := emit (Event.baseSequenceToBeDeleted ids count) s
      let r := purgePlaying ctx s1.m_SoundsPlaying s1
      let s2 := r.2
      (baseResult,
        { s2 with m_SoundsPlaying := r.1, m_Minions := s2.m_Minions.map (severMinion ctx) })

/-! ## Buffer access, playback and settings (`src/Dx8SoundManager.cpp`) -/

/-- Method `SetWaveFormat` (lines 474-484); `hr` is the result of `buffer->SetFormat`.  A
format the device accepts becomes the format of the buffer. -/
def SetWaveFormat (ctx : CKContext) (hr : HRESULT) (source : Option Handle)
    (wf : CKWaveFormat) (s : DX8SoundManager) : CKERROR × DX8SoundManager :=
  match source with
  | none => (CKERR_INVALIDPARAMETER, s)
  | some b =>
    let s1 := emit (Event.setFormat b hr) s
    let s2 := if SUCCEEDED hr then updateBuffer b (fun old => { old with format := wf }) s1 else s1
    HandleDirectSoundError ctx hr "SetWaveFormat" s2

/-- Method `GetWaveFormat` (lines 486-496): the code, the value of `wf` after the call and
the manager; `hr` is the result of `buffer->GetFormat`.  The type `CKWaveFormat` is
declared in the host SDK, so `sizeofCKWaveFormat` is an argument. -/
def GetWaveFormat (ctx : CKContext) (sizeofCKWaveFormat : Nat) (hr : HRESULT)
    (source : Option Handle) (wf : CKWaveFormat) (s : DX8SoundManager) :
    CKERROR × CKWaveFormat × DX8SoundManager :=
  match source with
  | none => (CKERR_INVALIDPARAMETER, wf, s)
  | some b =>
    let s1 := emit (Event.getFormat b sizeofCKWaveFormat hr) s
    let r := HandleDirectSoundError ctx hr "GetWaveFormat" s1
    (r.1, if SUCCEEDED hr then (deviceBuffer s b).format else wf, r.2)

/-- Method `Lock` (lines 520-538); `hr` is the result of `buffer->Lock`.  An out-parameter
is given by its address, `none` for a null pointer; the other arguments go to the device
as they are. -/
def Lock (ctx : CKContext) (hr : HRESULT) (source : Option Handle)
    (_dwWriteCursor _dwNumBytes : Nat) (pvAudioPtr1 dwAudioBytes1 : Option Nat)
    (_pvAudioPtr2 _dwAudioBytes2 : Option Nat) (_dwFlags : Nat) (s : DX8SoundManager) :
    CKERROR × DX8SoundManager :=
  match source, pvAudioPtr1, dwAudioBytes1 with
  | some b, some _, some _ => HandleDirectSoundError ctx hr "Lock" (emit (Event.lock b hr) s)
  | _, _, _ => (CKERR_INVALIDPARAMETER, s)

/-- Method `Unlock` (lines 540-551); `hr` is the result of `buffer->Unlock`. -/
def Unlock (ctx : CKContext) (hr : HRESULT) (source : Option Handle)
    (_pvAudioPtr1 : Option Nat) (_dwNumBytes1 : Nat) (_pvAudioPtr2 : Option Nat)
    (_dwAudioBytes2 : Nat) (s : DX8SoundManager) : CKERROR × DX8SoundManager :=
  match source with
  | none => (CKERR_INVALIDPARAMETER, s)
  | some b => HandleDirectSoundError ctx hr "Unlock" (emit (Event.unlock b) s)

/-- Method `InternalPlay` (lines 382-392). -/
def InternalPlay (source : Option Handle) (loop : Bool) (s : DX8SoundManager) :
    DX8SoundManager :=
  match source with
  | none => s
  | some b => emit (Event.play b loop) s

/-- Modelled from the spec: `XObjectArray::AddIfNotHere` of the host SDK, which is not
under `src/`.  The registry is an "ordered set" with the operation "addIfAbsent", and
"ordering is insertion order": an id that is absent is appended, one that is present is
not added again. -/
def AddIfNotHere (id : CK_ID) (ids : List CK_ID) : List CK_ID :=
  if id ∈ ids then ids else ids ++ [id]

/-- Method `Play` (lines 394-416).  The sound `ws` is given by its id (`ws->GetID()`),
`none` for `NULL`.  With a null `ws` the code reads `source` as a `SoundMinion*`;
`minionSource` is the `m_Source` it finds there. -/
def Play (ws : Option CK_ID) (source : Option Handle) (minionSource : Option Handle)
    (loop : Bool) (s : DX8SoundManager) : DX8SoundManager :=
  match source with
  | none => s
  | some b =>
    match ws with
    | some id =>
      InternalPlay (some b) loop { s with m_SoundsPlaying := AddIfNotHere id s.m_SoundsPlaying }
    | none =>
      match minionSource with
      | some buffer => InternalPlay (some buffer) loop s
      | none => s

/-- Type `CKWaveSoundSettings`: the fields `UpdateSettings` uses. -/
structure CKWaveSoundSettings where
  m_Gain : ℝ
  m_Pitch : ℝ
  m_Pan : ℝ

/-- The tests `settingsoptions & CK_WAVESOUND_SETTINGS_...` of `UpdateSettings`. -/
structure WaveSoundOptions where
  gain : Bool
  pitch : Bool
  pan : Bool

/-- The device's answers to the calls of one `UpdateSettings`. -/
structure SettingsDevice where
  setVolume : HRESULT
  getFormat : HRESULT
  setFrequency : HRESULT
  /-- result of the `GetCaps` of `GetType` -/
  getCaps : HRESULT
  setPan : HRESULT
  getVolume : HRESULT
  getFrequency : HRESULT
  getPan : HRESULT

/-- The C cast `(DWORD)x` of a real number, for a value in the range of `DWORD`. -/
noncomputable def truncToDword (x : ℝ) : Nat :=
  (truncToLong x).toNat % 4294967296

/-- Method `UpdateSettings` (lines 588-639): the settings after the call and the
manager. -/
noncomputable def UpdateSettings (dev : SettingsDevice) (source : Option Handle)
    (options : WaveSoundOptions) (settings : CKWaveSoundSettings) (set : Bool)
    (s : DX8SoundManager) : CKWaveSoundSettings × DX8SoundManager :=
  match source with
  | none => (settings, s)
  | some b =>
    if set then
      let s1 :=
        if options.gain then bufferSetVolume dev.setVolume b (FloatToDb settings.m_Gain) s
        else s
      let s2 :=
        if options.pitch then
          let s1a := emit (Event.getFormat b sizeofWAVEFORMATEX dev.getFormat) s1
          if SUCCEEDED dev.getFormat then
            let newFreq := truncToDword ((deviceBuffer s1 b).format.nSamplesPerSec * settings.m_Pitch)
            bufferSetFrequency dev.setFrequency b newFreq s1a
          else s1a
        else s1
      let s3 :=
        if options.pan then
          let t := GetType dev.getCaps (some b) s2
          if t.1 = CK_WAVESOUND_BACKGROUND then
            bufferSetPan dev.setPan b (FloatPanningToDb settings.m_Pan) t.2
          else t.2
        else s2
      (settings, s3)
    else
      let s1 := if options.gain then emit (Event.getVolume b dev.getVolume) s else s
      let m1 :=
        if options.gain ∧ SUCCEEDED dev.getVolume then
          { settings with m_Gain := DbToFloat (deviceBuffer s b).volume }
        else settings
      let s2 :=
        if options.pitch then
          let s1a := emit (Event.getFormat b sizeofWAVEFORMATEX dev.getFormat) s1
          if SUCCEEDED dev.getFormat then emit (Event.getFrequency b dev.getFrequency) s1a
          else s1a
        else s1
      let m2 :=
        if options.pitch ∧ SUCCEEDED dev.getFormat ∧ SUCCEEDED dev.getFrequency then
          { m1 with
            m_Pitch := ((deviceBuffer s b).frequency : ℝ) /
              ((deviceBuffer s b).format.nSamplesPerSec : ℝ) }
        else m1
      let s3 := if options.pan then emit (Event.getPan b dev.getPan) s2 else s2
      let m3 :=
        if options.pan ∧ SUCCEEDED dev.getPan then
          { m2 with m_Pan := DbPanningToFloat (deviceBuffer s b).pan }
        else m2
      (m3, s3)

/-- Type `CKWaveSound3DSettings`. -/
structure CKWaveSound3DSettings where
  m_HeadRelative : Nat
  m_Position : VxVector
  m_Velocity : VxVector
  m_OrientationDir : VxVector
  m_InAngle : ℝ
  m_OutAngle : ℝ
  m_OutsideGain : ℝ
  m_MinDistance : ℚ
  m_MaxDistance : ℚ

/-- The tests `settingsoptions & CK_WAVESOUND_3DSETTINGS_...` of `Update3DSettings`. -/
structure WaveSound3DOptions where
  cone : Bool
  minMaxDistance : Bool
  position : Bool
  velocity : Bool
  orientation : Bool
  headRelative : Bool

/-- The device's answers to the calls of one `Update3DSettings`: the result of
`QueryInterface`, and for each getter its result and what the out-parameter holds after
the call. -/
structure Settings3DDevice where
  query3D : HRESULT
  getConeAngles : HRESULT × Nat × Nat
  getConeOutsideVolume : HRESULT × Int
  getMinDistance : HRESULT × ℚ
  getMaxDistance : HRESULT × ℚ
  getMode : HRESULT × Nat
  getPosition : HRESULT × VxVector
  getVelocity : HRESULT × VxVector
  getConeOrientation : HRESULT × VxVector

/-- Constants `DS3DMODE_NORMAL` and `DS3DMODE_HEADRELATIVE` of `dsound.h`. -/
def DS3DMODE_NORMAL : Nat := 0
def DS3DMODE_HEADRELATIVE : Nat := 1

/-- The set branch of `Update3DSettings` (lines 665-695).  The code does not look at the
result of a setter; each is recorded as a call. -/
noncomputable def set3DSettings (b : Handle) (options : WaveSound3DOptions)
    (settings : CKWaveSound3DSettings) (s : DX8SoundManager) : DX8SoundManager :=
  let s1 :=
    if options.cone then
      emit (Event.setConeOutsideVolume b (FloatToDb settings.m_OutsideGain) false)
        (emit (Event.setConeAngles b (truncToDword settings.m_InAngle)
          (truncToDword settings.m_OutAngle) false) s)
    else s
  let s2 :=
    if options.minMaxDistance then
      emit (Event.setMaxDistance b settings.m_MaxDistance false)
        (emit (Event.setMinDistance b settings.m_MinDistance false) s1)
    else s1
  let s3 := if options.position then emit (Event.setPosition b settings.m_Position false) s2
    else s2
  let s4 := if options.velocity then emit (Event.setVelocity b settings.m_Velocity false) s3
    else s3
  let s5 :=
    if options.orientation then
      emit (Event.setConeOrientation b settings.m_OrientationDir false) s4
    else s4
  if options.headRelative then
    let mode := if settings.m_HeadRelative != 0 then DS3DMODE_HEADRELATIVE else DS3DMODE_NORMAL
    emit (Event.setMode b mode false) s5
  else s5

/-- The calls of the get branch of `Update3DSettings` (lines 697-736). -/
def get3DCalls (dev : Settings3DDevice) (b : Handle) (options : WaveSound3DOptions)
    (s : DX8SoundManager) : DX8SoundManager :=
  let s1 :=
    if options.cone then
      emit (Event.get3DParameter b "ConeOutsideVolume" dev.getConeOutsideVolume.1)
        (emit (Event.get3DParameter b "ConeAngles" dev.getConeAngles.1) s)
    else s
  let s2 :=
    if options.minMaxDistance then
      emit (Event.get3DParameter b "MaxDistance" dev.getMaxDistance.1)
        (emit (Event.get3DParameter b "MinDistance" dev.getMinDistance.1) s1)
    else s1
  let s3 := if options.headRelative then emit (Event.get3DParameter b "Mode" dev.getMode.1) s2
    else s2
  let s4 :=
    if options.position then emit (Event.get3DParameter b "Position" dev.getPosition.1) s3
    else s3
  let s5 :=
    if options.velocity then emit (Event.get3DParameter b "Velocity" dev.getVelocity.1) s4
    else s4
  if options.orientation then
    emit (Event.get3DParameter b "ConeOrientation" dev.getConeOrientation.1) s5
  else s5

/-- The settings after the get branch of `Update3DSettings` (lines 697-736).  The two
distance getters write into the settings themselves and their result is not tested; for
the others a failed call leaves the field as it was. -/
noncomputable def get3DSettings (dev : Settings3DDevice) (options : WaveSound3DOptions)
    (settings : CKWaveSound3DSettings) : CKWaveSound3DSettings :=
  let m1 :=
    if options.cone ∧ SUCCEEDED dev.getConeAngles.1 then
      { settings with
        m_InAngle := (dev.getConeAngles.2.1 : ℝ)
        m_OutAngle := (dev.getConeAngles.2.2 : ℝ) }
    else settings
  let m2 :=
    if options.cone ∧ SUCCEEDED dev.getConeOutsideVolume.1 then
      { m1 with m_OutsideGain := DbToFloat dev.getConeOutsideVolume.2 }
    else m1
  let m3 :=
    if options.minMaxDistance then
      { m2 with
        m_MinDistance := dev.getMinDistance.2
        m_MaxDistance := dev.getMaxDistance.2 }
    else m2
  let m4 :=
    if options.headRelative ∧ SUCCEEDED dev.getMode.1 then
      { m3 with m_HeadRelative := if dev.getMode.2 = DS3DMODE_HEADRELATIVE then 1 else 0 }
    else m3
  let m5 :=
    if options.position ∧ SUCCEEDED dev.getPosition.1 then
      { m4 with m_Position := dev.getPosition.2 }
    else m4
  let m6 :=
    if options.velocity ∧ SUCCEEDED dev.getVelocity.1 then
      { m5 with m_Velocity := dev.getVelocity.2 }
    else m5
  if options.orientation ∧ SUCCEEDED dev.getConeOrientation.1 then
    { m6 with m_OrientationDir := dev.getConeOrientation.2 }
  else m6

/-- Method `Update3DSettings` (lines 645-739): the settings after the call and the
manager. -/
noncomputable def Update3DSettings (dev : Settings3DDevice) (source : Option Handle)
    (options : WaveSound3DOptions) (settings : CKWaveSound3DSettings) (set : Bool)
    (s : DX8SoundManager) : CKWaveSound3DSettings × DX8SoundManager :=
  match source with
  | none => (settings, s)
  | some b =>
    let s1 := emit (Event.queryInterface3DBuffer b dev.query3D) s
    if FAILED dev.query3D then (settings, s1)
    else if set then
      (settings, emit (Event.release3DBuffer b) (set3DSettings b options settings s1))
    else
      (get3DSettings dev options settings,
        emit (Event.release3DBuffer b) (get3DCalls dev b options s1))

/-- The free function `Dx8PositionSource` (lines 1204-1240): the new value of `oldpos`
and the manager. -/
def Dx8PositionSource (dev : FrameDevice) (psource : Option Handle) (ent : Option CKObject)
    (position direction oldpos : VxVector) (s : DX8SoundManager) :
    VxVector × DX8SoundManager :=
  match psource with
  | none => (oldpos, s)
  | some b =>
    let s1 := emit (Event.queryInterface3DBuffer b (dev.query3D b)) s
    if FAILED (dev.query3D b) then (oldpos, s1)
    else
      let pos := match ent with
        | some e => e.transform position
        | none => position
      let vel := pos.sub oldpos
      let dir := match ent with
        | some e => e.transformVector direction
        | none => direction
      let s2 := emit (Event.setPosition b pos false) s1
      let s3 := emit (Event.setVelocity b vel false) s2
      let s4 := emit (Event.setConeOrientation b dir false) s3
      (pos, emit (Event.release3DBuffer b) s4)

/-! ## Host-wide callbacks of the base class and `PostClearAll` -/

/-- Method `DXSoundManager::OnCKPause` (`src/DxSoundManager.cpp`, lines 150-167).
`PauseMinions` is host SDK code, recorded as a call. -/
def OnCKPause (ctx : CKContext) (s : DX8SoundManager) : CKERROR × DX8SoundManager :=
  let s1 := forEachWaveSound ctx Event.wsPause s.m_SoundsPlaying s
  (CK_OK, emit Event.pauseMinions s1)

/-- Method `DXSoundManager::OnCKPlay` (`src/DxSoundManager.cpp`, lines 169-186).
`ResumeMinions` is host SDK code, recorded as a call. -/
def OnCKPlay (ctx : CKContext) (s : DX8SoundManager) : CKERROR × DX8SoundManager :=
  let s1 := forEachWaveSound ctx Event.wsResume s.m_SoundsPlaying s
  (CK_OK, emit Event.resumeMinions s1)

/-- Method `DX8SoundManager::PostClearAll` (lines 834-847).  The base handler
`CKSoundManager::PostClearAll` is host SDK code: it is recorded as a call and
`baseResult` is the code it returns. -/
def PostClearAll (baseResult : CKERROR) (s : DX8SoundManager) : CKERROR × DX8SoundManager :=
  let s1 := EnterCriticalSection s
  let s2 := emit Event.basePostClearAll s1
  let s3 := ReleaseMinions { s2 with m_SoundsPlaying := [] }
  let s4 := emit Event.registerAttribute s3
  (baseResult, LeaveCriticalSection s4)

/-! ## Sequences of host callbacks -/

/-- One of the lifecycle callbacks, with what the host and the device answer during it. -/
inductive LifecycleCall
  | onCKInit (ctx : CKContext) (dev : InitDevice)
  | onCKEnd (ctx : CKContext)
  | onCKReset (ctx : CKContext) (dev : ResetDevice)

/-- Run one lifecycle callback. -/
def LifecycleCall.run : LifecycleCall → DX8SoundManager → CKERROR × DX8SoundManager
  | LifecycleCall.onCKInit ctx dev, s => OnCKInit ctx dev s
  | LifecycleCall.onCKEnd ctx, s => OnCKEnd ctx s
  | LifecycleCall.onCKReset ctx dev, s => OnCKReset ctx dev s

/-- The manager after a sequence of lifecycle callbacks. -/
def runLifecycle (s : DX8SoundManager) (calls : List LifecycleCall) : DX8SoundManager :=
  calls.foldl (fun acc c => (c.run acc).2) s

/-- A run of `OnCKReset` calls, each with the answers of the host and of the device. -/
def resetCalls (resets : List (CKContext × ResetDevice)) : List LifecycleCall :=
  resets.map (fun r => LifecycleCall.onCKReset r.1 r.2)

/-- A lifecycle callback or a `PostProcess`. -/
inductive Call
  | lifecycle (c : LifecycleCall)
  | postProcess (ctx : CKContext) (dev : FrameDevice)

/-- Run one callback; `none` when it does not complete. -/
def Call.run : Call → DX8SoundManager → Option (CKERROR × DX8SoundManager)
  | Call.lifecycle c, s => some (c.run s)
  | Call.postProcess ctx dev, s => PostProcess ctx dev s

/-- The manager after a sequence of callbacks, when all of them complete. -/
def runCalls : DX8SoundManager → List Call → Option DX8SoundManager
  | s, [] => some s
  | s, c :: rest =>
    match c.run s with
    | some r => runCalls r.2 rest
    | none => none

/-- The three device pointers are all null or all non-null. -/
def handlesConsistent (s : DX8SoundManager) : Prop :=
  (s.m_Root = none ∧ s.m_Primary = none ∧ s.m_Listener = none) ∨
  (s.m_Root ≠ none ∧ s.m_Primary ≠ none ∧ s.m_Listener ≠ none)

/-- A callback or method that touches the playing registry, with what the host and the
device answer during it. -/
inductive RegistryCall
  | play (ws : Option CK_ID) (source minionSource : Option Handle) (loop : Bool)
  | pause (ws : Option CK_ID) (source : Option Handle)
  | postProcess (ctx : CKContext) (dev : FrameDevice)
  | onCKReset (ctx : CKContext) (dev : ResetDevice)
  | postClearAll (baseResult : CKERROR)
  | preLaunchScene (ctx : CKContext) (oldScene newScene : Option CK_ID)
  | sequenceToBeDeleted (ctx : CKContext) (baseResult : CKERROR)
      (objids : Option (List CK_ID)) (count : Int)

/-- Run one call on the registry; `none` when it does not complete. -/
def RegistryCall.run : RegistryCall → DX8SoundManager → Option DX8SoundManager
  | RegistryCall.play ws source minionSource loop, s => some (Play ws source minionSource loop s)
  | RegistryCall.pause ws source, s => some (Pause ws source s)
  | RegistryCall.postProcess ctx dev, s => (PostProcess ctx dev s).map (fun r => r.2)
  | RegistryCall.onCKReset ctx dev, s => some (OnCKReset ctx dev s).2
  | RegistryCall.postClearAll baseResult, s => some (PostClearAll baseResult s).2
  | RegistryCall.preLaunchScene ctx oldScene newScene, s =>
    some (PreLaunchScene ctx oldScene newScene s).2
  | RegistryCall.sequenceToBeDeleted ctx baseResult objids count, s =>
    some (SequenceToBeDeleted ctx baseResult objids count s).2

/-- The manager after a sequence of calls on the registry, when all of them complete. -/
def runRegistry : DX8SoundManager → List RegistryCall → Option DX8SoundManager
  | s, [] => some s
  | s, c :: rest =>
    match c.run s with
    | some t => runRegistry t rest
    | none => none

/-- Every `OnCKInit` of the sequence is called on a manager whose `m_bInitialized` is
clear: the first one, or one that follows an `OnCKEnd` or a failed `OnCKInit`. -/
def initOnlyWhenClear : DX8SoundManager → List LifecycleCall → Prop
  | _, [] => True
  | s, LifecycleCall.onCKInit ctx dev :: rest =>
    s.m_bInitialized = false ∧ initOnlyWhenClear (OnCKInit ctx dev s).2 rest
  | s, c :: rest => initOnlyWhenClear (c.run s).2 rest

/-! ## Vocabulary of the statements -/

/-- The test `ws && !ws->IsInScene(NewScene)` of `PreLaunchScene` (line 200). -/
def CKContext.outsideScene (ctx : CKContext) (scene : CK_ID) (id : CK_ID) : Bool :=
  match ctx.getObject id with
  | some ws => !ws.inScene scene
  | none => false

/-- The manager `t` is `s` after further outgoing calls, all of which satisfy `P`. -/
def extendsTrace (P : Event → Prop) (s t : DX8SoundManager) : Prop :=
  ∃ tr, t.trace = s.trace ++ tr ∧ ∀ e ∈ tr, P e

/-- Whether the call writes the position, the velocity or the orientation of the
listener. -/
def Event.isListenerPoseWrite : Event → Bool
  | Event.listenerSetPosition _ _ _ => true
  | Event.listenerSetVelocity _ _ _ => true
  | Event.listenerSetOrientation _ _ _ _ => true
  | _ => false

/-- The manager and the device without the record of the outgoing calls. -/
def DX8SoundManager.forgetTrace (s : DX8SoundManager) : DX8SoundManager :=
  { s with trace := [] }

/-- The manager `t` is `s` with other buffers in the device and further outgoing calls,
all of which satisfy `P`. -/
def deviceCallsOnly (P : Event → Prop) (s t : DX8SoundManager) : Prop :=
  ∃ bufs tr, t = { s with buffers := bufs, trace := s.trace ++ tr } ∧ ∀ e ∈ tr, P e

/-- The bytes of the destination after one of the two guarded `memcpy` calls of
`DuplicateSource` (lines 335-342); `srcData` and `newData` are where the two segments
start, `none` for a null pointer. -/
def copiedBytes (srcBytes : List Nat) (srcData : Option Nat) (srcSize : Nat)
    (newData : Option Nat) (newSize : Nat) (dst : List Nat) : List Nat :=
  match srcData, newData with
  | some srcOffset, some newOffset =>
    if srcSize > 0 then memcpy dst newOffset srcBytes srcOffset (min srcSize newSize) else dst
  | _, _ => dst

/-- The commit mode of a 3D write: `some true` for `DS3D_DEFERRED`, `some false` for
`DS3D_IMMEDIATE`, `none` for a call that takes no commit mode. -/
def Event.commitMode : Event → Option Bool
  | Event.listenerSetPosition _ _ d => some d
  | Event.listenerSetVelocity _ _ d => some d
  | Event.listenerSetOrientation _ _ _ d => some d
  | Event.listenerSetDistanceFactor _ _ d => some d
  | Event.listenerSetDopplerFactor _ _ d => some d
  | Event.listenerSetRolloffFactor _ _ d => some d
  | Event.setPosition _ _ d => some d
  | Event.setVelocity _ _ d => some d
  | Event.setConeOrientation _ _ d => some d
  | Event.setAllParameters _ _ d _ => some d
  | Event.setConeAngles _ _ _ d => some d
  | Event.setConeOutsideVolume _ _ d => some d
  | Event.setMinDistance _ _ d => some d
  | Event.setMaxDistance _ _ d => some d
  | Event.setMode _ _ d => some d
  | _ => none

/-- Whether the call is `CommitDeferredSettings`. -/
def Event.isCommit : Event → Bool
  | Event.commitDeferredSettings _ => true
  | _ => false

/-- Whether the call enters or leaves the critical section. -/
def Event.isLockCall : Event → Bool
  | Event.enterCriticalSection => true
  | Event.leaveCriticalSection => true
  | _ => false

/-- The call neither enters nor leaves the critical section, writes no pose of the
listener and commits nothing. -/
def Event.isPlain (e : Event) : Bool :=
  !e.isLockCall && !e.isListenerPoseWrite && !e.isCommit

/-- What one call adds to the depth of the critical section. -/
def Event.lockStep : Event → Int
  | Event.enterCriticalSection => 1
  | Event.leaveCriticalSection => -1
  | _ => 0

/-- The depth of the critical section after the calls of a trace. -/
def lockDepth (tr : List Event) : Int :=
  (tr.map Event.lockStep).sum

/-- The manager `t` is `s` after one `EnterCriticalSection`, calls that neither enter nor
leave, one `LeaveCriticalSection`, and then nothing but console output. -/
def lockedCall (s t : DX8SoundManager) : Prop :=
  ∃ mid post,
    t.trace = s.trace ++ Event.enterCriticalSection :: mid ++
      Event.leaveCriticalSection :: post ∧
    (∀ e ∈ mid, e.isLockCall = false) ∧ ∀ e ∈ post, ∃ msg, e = Event.outputToConsole msg

/-- The manager `t` is `s` after calls that neither enter nor leave the critical
section. -/
def unlockedCall (s t : DX8SoundManager) : Prop :=
  extendsTrace (fun e => e.isLockCall = false) s t

/-- How many times the trace calls `Release` on the object `h`. -/
def releaseCount (h : Handle) : List Event → Nat
  | [] => 0
  | Event.release object :: rest =>
    if object = h then releaseCount h rest + 1 else releaseCount h rest
  | _ :: rest => releaseCount h rest

/-- The answer of `IsPlaying(source)` during a frame. -/
def FrameDevice.reportsPlaying (dev : FrameDevice) (source : Option Handle) : Bool :=
  match source with
  | none => false
  | some b => SUCCEEDED (dev.getStatus b).1 && ((dev.getStatus b).2 &&& DSBSTATUS_PLAYING != 0)

/-- A positional sound or a minion is playing: a registry id resolves to a sound that
reports playing and is not a background sound, or the source of a minion of the pool
reports playing. -/
def somethingPlayingIn3D (ctx : CKContext) (dev : FrameDevice) (s : DX8SoundManager) : Prop :=
  (∃ id ∈ s.m_SoundsPlaying, ∃ ws, ctx.getObject id = some ws ∧ ws.isPlaying = true ∧
    ws.soundType &&& CK_WAVESOUND_BACKGROUND = 0) ∨
  (∃ m, some m ∈ s.m_Minions ∧ dev.reportsPlaying m.m_Source = true)

/-- The calls with which `PostProcess` writes the pose of the listener entity `ent` and
commits it, `last` being the position written in the frame before. -/
def listenerFrameWrites (l : Handle) (ent : CKObject) (last : VxVector) : List Event :=
  [Event.listenerSetPosition l ent.worldPos true,
   Event.listenerSetVelocity l (ent.worldPos.sub last) true,
   Event.listenerSetOrientation l ent.worldDir ent.worldUp true,
   Event.commitDeferredSettings l]

/-- The calls with which `PositionSource` writes a source on its 3D interface. -/
def positionWrites (b : Handle) (worldPos worldDir oldpos : VxVector) : List Event :=
  [Event.setPosition b worldPos false,
   Event.setVelocity b (worldPos.sub oldpos) false,
   Event.setConeOrientation b worldDir false]

/-! ## Concrete inputs -/

/-- A host object: a playing point sound that is also usable as an entity. -/
def sampleObject : CKObject :=
  { toBeDeleted := false
    inScene := fun _ => true
    isPlaying := true
    fileStreaming := false
    streamFullyLoaded := false
    soundType := CK_WAVESOUND_POINT
    hasSource := true
    transform := fun p => p
    transformVector := fun d => d
    worldUp := ⟨0, 1, 0⟩
    worldDir := ⟨0, 0, 1⟩
    worldPos := ⟨5, 6, 7⟩ }

/-- A host with sound enabled, in interface mode, that knows the object with id 3. -/
def sampleContext : CKContext :=
  { disabledSound := false
    doWarn := true
    interfaceMode := true
    waveSounds := [3, 4]
    getObject := fun id => if id = 3 then some sampleObject else none
    lastDeltaTime := 1
    listener := some sampleObject }

/-- The same host started with the `DisableSound` option, outside interface mode. -/
def disabledContext : CKContext :=
  { sampleContext with disabledSound := true, interfaceMode := false }

/-- A device on which every step of `OnCKInit` succeeds. -/
def deviceOk : InitDevice :=
  { create := ⟨S_OK, 100, none⟩
    cooperativeLevel := S_OK
    primary := ⟨S_OK, 101, none⟩
    primaryVolume := -300
    getVolume := S_OK
    listener := ⟨S_OK, 102, none⟩
    setFormat := S_OK }

/-- A device that refuses the primary buffer with `DSERR_BADFORMAT`. -/
def deviceNoPrimary : InitDevice :=
  { deviceOk with primary := ⟨DSERR_BADFORMAT, 0, none⟩ }

/-- A device on which every step of `OnCKInit` succeeds except the `GetVolume` of the
primary buffer, whose result the method does not test. -/
def deviceNoVolume : InitDevice :=
  { deviceOk with getVolume := E_FAIL }

/-- A freshly constructed manager. -/
def freshManager : DX8SoundManager :=
  DX8SoundManager.construct ⟨0, 0, 0⟩

/-- The host started with the `DisableSound` option, in interface mode. -/
def disabledInterfaceContext : CKContext :=
  { sampleContext with disabledSound := true }

/-- The format PCM, 22050 Hz, one channel, 16 bits. -/
def sampleFormat : CKWaveFormat :=
  { wFormatTag := 1
    nChannels := 1
    nSamplesPerSec := 22050
    nAvgBytesPerSec := 44100
    nBlockAlign := 2
    wBitsPerSample := 16
    cbSize := 0 }

/-- A device that creates the buffer in software memory and accepts its frequency. -/
def createOk : CreateDevice :=
  { create := ⟨S_OK, 200, none⟩
    locHardware := false
    setFrequency := S_OK }

/-- The manager after a successful `OnCKInit`. -/
def initialisedManager : DX8SoundManager :=
  (OnCKInit sampleContext deviceOk freshManager).2

/-- A minion of the sound with id 3, attached to the entity with id 3. -/
def sampleMinion : SoundMinion :=
  { m_Source := some 300
    m_OriginalSound := 3
    m_Entity := 3
    m_Position := ⟨0, 0, 0⟩
    m_Direction := ⟨0, 0, 1⟩
    m_OldPosition := ⟨0, 0, 0⟩ }

/-- An initialised manager with two sounds in the registry and one minion. -/
def playingManager : DX8SoundManager :=
  { initialisedManager with m_SoundsPlaying := [3, 4], m_Minions := [some sampleMinion] }

/-- The manager `playingManager` after `OnCKEnd`. -/
def endedManager : DX8SoundManager :=
  (OnCKEnd sampleContext playingManager).2

/-- A device that accepts the volume `OnCKReset` restores. -/
def resetOk : ResetDevice :=
  { setVolume := S_OK }

/-- A minion whose original sound and entity have the id 7, which the host does not
resolve. -/
def orphanMinion : SoundMinion :=
  { sampleMinion with m_OriginalSound := 7, m_Entity := 7 }

/-- An initialised manager whose pool holds `orphanMinion`. -/
def orphanManager : DX8SoundManager :=
  { initialisedManager with m_Minions := [some orphanMinion] }

/-- An initialised manager whose pool holds a null entry. -/
def nullEntryManager : DX8SoundManager :=
  { initialisedManager with m_Minions := [none] }

/-- A device on which no buffer is playing. -/
def frameIdle : FrameDevice :=
  { getStatus := fun _ => (S_OK, 0)
    query3D := fun _ => S_OK }

/-- The object `sampleObject` when it is not playing. -/
def idleObject : CKObject :=
  { sampleObject with isPlaying := false }

/-- The host `sampleContext` when the sound with id 3 is not playing. -/
def idleContext : CKContext :=
  { sampleContext with getObject := fun id => if id = 3 then some idleObject else none }

/-- A device that answers every call of `UpdateListenerSettings` with success. -/
def listenerOk : ListenerDevice :=
  { getDistanceFactor := (S_OK, 1)
    getDopplerFactor := (S_OK, 1)
    getRolloffFactor := (S_OK, 1)
    getVolume := S_OK
    setVolume := S_OK }

/-- The selection `CK_LISTENERSETTINGS_GAIN` alone. -/
def gainOnly : ListenerOptions :=
  { distance := false
    doppler := false
    rolloff := false
    gain := true }

/-- Listener settings with every factor and the gain at 1. -/
noncomputable def sampleSettings : CKListenerSettings :=
  { m_DistanceFactor := 1
    m_DopplerFactor := 1
    m_RollOff := 1
    m_GlobalGain := 1 }

/-- A point source of four bytes with data, attenuated by 5 dB and placed at (1, 2, 3). -/
def loadedBuffer : SoundBuffer :=
  { dwFlags := sourceFlags CK_WAVESOUND_POINT ||| DSBCAPS_LOCSOFTWARE
    dwBufferBytes := 4
    frequency := 22050
    volume := -500
    pan := 0
    format := sampleFormat
    params3D := { DS3DBUFFER.initial with vPosition := ⟨1, 2, 3⟩ }
    data := [1, 2, 3, 4] }

/-- An initialised manager whose device holds `loadedBuffer` under the handle 200. -/
def loadedManager : DX8SoundManager :=
  { initialisedManager with buffers := (200, loadedBuffer) :: initialisedManager.buffers }

/-- A device that refuses `DuplicateSoundBuffer` and answers every other call of
`DuplicateSource` with success; a lock hands out the whole buffer as one segment.
`GetAllParameters` succeeds for a structure whose `dwSize` is `sizeof(DS3DBUFFER)` and is
refused with `DSERR_INVALIDPARAM` for any other, and here the stack happens to hold that
size where `buffer3D.dwSize` lies. -/
def duplicateOk : DuplicateDevice :=
  { duplicate := ⟨E_FAIL, 0, none⟩
    getFormat := (S_OK, 18)
    allocFails := false
    getFormatRetry := S_OK
    getCaps := S_OK
    create := ⟨S_OK, 201, none⟩
    locHardware := false
    getVolume := S_OK
    setVolume := S_OK
    getPan := S_OK
    setPan := S_OK
    getFrequency := S_OK
    setFrequency := S_OK
    query3DSource := S_OK
    query3DNew := S_OK
    buffer3DSize := sizeofDS3DBUFFER
    getAllParameters := fun dwSize =>
      if dwSize = sizeofDS3DBUFFER then S_OK else DSERR_INVALIDPARAM
    setAllParameters := S_OK
    lockSource := ⟨S_OK, some 0, 4, none, 0⟩
    lockNew := ⟨S_OK, some 0, 4, none, 0⟩ }

/-- The device `duplicateOk` when the stack holds `0` where `buffer3D.dwSize` lies. -/
def duplicateNo3D : DuplicateDevice :=
  { duplicateOk with buffer3DSize := 0 }

/-- The device `duplicateOk` when the `Lock` of the source fails. -/
def duplicateSourceLockFails : DuplicateDevice :=
  { duplicateOk with lockSource := ⟨DSERR_BUFFERLOST, none, 0, none, 0⟩ }

/-- A device on which every step of `OnCKInit` succeeds and hands out three further
objects. -/
def deviceOkAgain : InitDevice :=
  { create := ⟨S_OK, 110, none⟩
    cooperativeLevel := S_OK
    primary := ⟨S_OK, 111, none⟩
    primaryVolume := -300
    getVolume := S_OK
    listener := ⟨S_OK, 112, none⟩
    setFormat := S_OK }

/-- A device that refuses `DirectSoundCreate` with `E_FAIL`. -/
def deviceNoRoot : InitDevice :=
  { deviceOk with create := ⟨E_FAIL, 0, none⟩ }

/-- A device on which every buffer is playing and has a 3D interface. -/
def framePlaying : FrameDevice :=
  { getStatus := fun _ => (S_OK, DSBSTATUS_PLAYING)
    query3D := fun _ => S_OK }

/-- The three listener factors selected, not the gain. -/
def factorOptions : ListenerOptions :=
  { distance := true
    doppler := true
    rolloff := true
    gain := false }

/-- A device that answers every call of `UpdateSettings` with success. -/
def settingsOk : SettingsDevice :=
  { setVolume := S_OK
    getFormat := S_OK
    setFrequency := S_OK
    getCaps := S_OK
    setPan := S_OK
    getVolume := S_OK
    getFrequency := S_OK
    getPan := S_OK }

/-- Gain, pitch and pan selected. -/
def allSoundOptions : WaveSoundOptions :=
  { gain := true
    pitch := true
    pan := true }

/-- Full gain, original pitch, centred. -/
noncomputable def sampleSoundSettings : CKWaveSoundSettings :=
  { m_Gain := 1
    m_Pitch := 1
    m_Pan := 0 }

/-- A device that answers every call of `Update3DSettings` with success. -/
def settings3DOk : Settings3DDevice :=
  { query3D := S_OK
    getConeAngles := (S_OK, 360, 360)
    getConeOutsideVolume := (S_OK, 0)
    getMinDistance := (S_OK, 1)
    getMaxDistance := (S_OK, 1000000000)
    getMode := (S_OK, 0)
    getPosition := (S_OK, ⟨0, 0, 0⟩)
    getVelocity := (S_OK, ⟨0, 0, 0⟩)
    getConeOrientation := (S_OK, ⟨0, 0, 1⟩) }

/-- Every 3D setting selected. -/
def all3DOptions : WaveSound3DOptions :=
  { cone := true
    minMaxDistance := true
    position := true
    velocity := true
    orientation := true
    headRelative := true }

/-- The 3D settings of a source at (1, 2, 3) that faces along z. -/
noncomputable def sample3DSettings : CKWaveSound3DSettings :=
  { m_HeadRelative := 0
    m_Position := ⟨1, 2, 3⟩
    m_Velocity := ⟨0, 0, 0⟩
    m_OrientationDir := ⟨0, 0, 1⟩
    m_InAngle := 360
    m_OutAngle := 360
    m_OutsideGain := 1
    m_MinDistance := 1
    m_MaxDistance := 100 }

/-! ## Gain and pan conversions: auxiliary facts

Throughout, `10 ^ (-1 / 2000)` is the gain of one hundredth of a decibel below full
volume, about `0.99885`. -/

theorem logb_scaled_neg {f : ℝ} (h0 : 0 < f) (h1 : f < 1) : 2000 * Real.logb 10 f < 0 := by
  have : Real.logb 10 f < 0 := Real.logb_neg (by norm_num) h0 h1
  linarith

theorem FloatToDb_mid {f : ℝ} (h0 : 0 < f) (h1 : f < 1) :
    FloatToDb f = ⌈2000 * Real.logb 10 f⌉ := by
  have hx := logb_scaled_neg h0 h1
  simp [FloatToDb, truncToLong, not_le.mpr h0, not_le.mpr h1, not_le.mpr hx]

theorem ten_rpow_scaled {f : ℝ} (h0 : 0 < f) :
    (10 : ℝ) ^ ((2000 * Real.logb 10 f) / 2000) = f := by
  rw [mul_div_cancel_left₀ _ (by norm_num : (2000:ℝ) ≠ 0)]
  exact Real.rpow_logb (by norm_num) (by norm_num) h0

/-- `q > 10^(-1/2000)` as soon as `q^2000 > 1/10`. -/
theorem quantum_lt_of_pow {q : ℝ} (hq : 0 ≤ q) (h : (1:ℝ)/10 < q ^ 2000) :
    (10 : ℝ) ^ (-(1:ℝ) / 2000) < q := by
  have hc : (0:ℝ) ≤ (10 : ℝ) ^ (-(1:ℝ) / 2000) := by positivity
  have hpow : ((10 : ℝ) ^ (-(1:ℝ) / 2000)) ^ 2000 = 1 / 10 := by
    rw [← Real.rpow_natCast, ← Real.rpow_mul (by norm_num)]
    norm_num
  by_contra hcon
  push_neg at hcon
  have := pow_le_pow_left₀ hq hcon 2000
  rw [hpow] at this
  linarith

theorem quantum_gt_of_pow {q : ℝ} (h : q ^ 2000 < (1:ℝ)/10) :
    q < (10 : ℝ) ^ (-(1:ℝ) / 2000) := by
  have hc : (0:ℝ) ≤ (10 : ℝ) ^ (-(1:ℝ) / 2000) := by positivity
  have hpow : ((10 : ℝ) ^ (-(1:ℝ) / 2000)) ^ 2000 = 1 / 10 := by
    rw [← Real.rpow_natCast, ← Real.rpow_mul (by norm_num)]
    norm_num
  by_contra hcon
  push_neg at hcon
  have := pow_le_pow_left₀ hc hcon 2000
  rw [hpow] at this
  linarith


theorem quantum_pos : (0:ℝ) < (10 : ℝ) ^ (-(1:ℝ) / 2000) := by positivity

theorem quantum_lt_one : (10 : ℝ) ^ (-(1:ℝ) / 2000) < 1 := by
  apply Real.rpow_lt_one_of_one_lt_of_neg (by norm_num) (by norm_num)

/-- For `0 < f < 1`: `10^(-1/2000) < f` iff `-1 < 2000 * log10 f`. -/
theorem quantum_lt_iff {f : ℝ} (h0 : 0 < f) :
    (10 : ℝ) ^ (-(1:ℝ) / 2000) < f ↔ -1 < 2000 * Real.logb 10 f := by
  have key := Real.rpow_lt_rpow_left_iff (x := 10) (y := -(1:ℝ) / 2000)
    (z := Real.logb 10 f) (by norm_num)
  rw [Real.rpow_logb (by norm_num) (by norm_num) h0] at key
  rw [key]
  constructor <;> intro h <;> linarith

theorem FloatToDb_eq_zero_iff {g : ℝ} (h0 : 0 ≤ g) (h1 : g < 1) :
    FloatToDb g = 0 ↔ (10 : ℝ) ^ (-(1:ℝ) / 2000) < g := by
  rcases h0.eq_or_lt with h | h
  · subst h
    have := quantum_pos
    simp [FloatToDb]
    linarith
  · rw [FloatToDb_mid h h1, quantum_lt_iff h]
    have hx := logb_scaled_neg h h1
    rw [Int.ceil_eq_iff]
    constructor
    · rintro ⟨h2, -⟩
      simpa using h2
    · intro h2
      exact ⟨by simpa using h2, by simpa using hx.le⟩

theorem gain_error_aux (f : ℝ) (h0 : 0 ≤ f) (h1 : f ≤ 1) :
    |DbToFloat (FloatToDb f) - f| < 1 - (10 : ℝ) ^ (-(1:ℝ) / 2000) := by
  have hc0 := quantum_pos
  have hc1 := quantum_lt_one
  rcases h0.eq_or_lt with h | h
  · subst h
    simp [FloatToDb, DbToFloat]
    linarith
  rcases h1.eq_or_lt with h' | h'
  · subst h'
    norm_num [FloatToDb, DbToFloat]
    linarith
  have hx := logb_scaled_neg h h'
  rw [FloatToDb_mid h h']
  set x := 2000 * Real.logb 10 f with hxdef
  have hfx : (10 : ℝ) ^ (x / 2000) = f := ten_rpow_scaled h
  have hle : x ≤ (⌈x⌉ : ℝ) := Int.le_ceil x
  have hlt : (⌈x⌉ : ℝ) < x + 1 := Int.ceil_lt_add_one x
  have hd0 : ⌈x⌉ ≤ 0 := by
    rw [Int.ceil_le]; simpa using hx.le
  -- 10^(d/2000) lies in [f, f / c)
  have hlow : f ≤ (10 : ℝ) ^ ((⌈x⌉ : ℝ) / 2000) := by
    rw [← hfx]
    apply Real.rpow_le_rpow_of_exponent_le (by norm_num)
    linarith
  have hhigh : (10 : ℝ) ^ ((⌈x⌉ : ℝ) / 2000) * (10 : ℝ) ^ (-(1:ℝ) / 2000) < f := by
    rw [← Real.rpow_add (by norm_num), ← hfx]
    apply Real.rpow_lt_rpow_of_exponent_lt (by norm_num)
    linarith
  unfold DbToFloat
  split_ifs with ha hb
  · -- silent: d ≤ -10000
    have hd : ((⌈x⌉ : ℤ) : ℝ) ≤ -10000 := by exact_mod_cast ha
    have hf5 : f ≤ (10:ℝ) ^ (-(5:ℝ)) := by
      refine le_trans hlow ?_
      apply Real.rpow_le_rpow_of_exponent_le (by norm_num)
      linarith
    have h5 : (10:ℝ) ^ (-(5:ℝ)) = 1 / 100000 := by
      rw [Real.rpow_neg (by norm_num)]
      norm_num
    have hq : (10 : ℝ) ^ (-(1:ℝ) / 2000) < 9989 / 10000 := by
      have hb2 : (9988/10000 : ℝ) ^ 2000 < (1:ℝ)/10 := by norm_num
      by_contra hcon
      push_neg at hcon
      have hpow : ((10 : ℝ) ^ (-(1:ℝ) / 2000)) ^ 2000 = 1 / 10 := by
        rw [← Real.rpow_natCast, ← Real.rpow_mul (by norm_num)]
        norm_num
      have := pow_le_pow_left₀ (by norm_num : (0:ℝ) ≤ 9989/10000) hcon 2000
      rw [hpow] at this
      have hb1 : (1:ℝ)/10 < (9989/10000 : ℝ) ^ 2000 := by norm_num
      linarith
    rw [zero_sub, abs_neg, abs_of_pos h]
    rw [h5] at hf5
    linarith
  · -- d = 0
    have hd : ⌈x⌉ = 0 := le_antisymm hd0 hb
    rw [hd] at hhigh
    simp at hhigh
    rw [abs_of_pos (by linarith)]
    linarith
  · -- -10000 < d < 0
    push_neg at hb
    have hdm : ((⌈x⌉ : ℤ) : ℝ) ≤ -1 := by
      have : ⌈x⌉ ≤ -1 := by omega
      exact_mod_cast this
    have hyc : (10 : ℝ) ^ ((⌈x⌉ : ℝ) / 2000) ≤ (10 : ℝ) ^ (-(1:ℝ) / 2000) := by
      apply Real.rpow_le_rpow_of_exponent_le (by norm_num)
      linarith
    rw [abs_of_nonneg (by linarith)]
    nlinarith

theorem FloatToDb_nonpos (f : ℝ) : FloatToDb f ≤ 0 := by
  unfold FloatToDb
  split_ifs with h0 h1
  · norm_num
  · exact le_refl 0
  · push_neg at h0 h1
    have hx := logb_scaled_neg h0 h1
    simp only [truncToLong, not_le.mpr hx, if_false]
    rw [Int.ceil_le]
    simpa using hx.le

/-- Rounding to a `float` moves a number between `-1` and `1` by at most `2 ^ (-24)`. -/
theorem roundToFloat_error (x : ℝ) (hx : |x| ≤ 1) :
    |roundToFloat x - x| ≤ 1 / 16777216 := by
  have he : max (Int.log 2 |x|) (-126) ≤ 0 := by
    apply max_le _ (by norm_num)
    rcases (abs_nonneg x).eq_or_lt with h | h
    · rw [← h, Int.log_of_right_le_zero 2 le_rfl]
    · have := Int.log_mono_right (b := 2) h hx
      rwa [Int.log_one_right] at this
  unfold roundToFloat
  simp only []
  set e : ℤ := max (Int.log 2 |x|) (-126) with hedef
  set ulp : ℝ := (2 : ℝ) ^ (e - 23) with hulp
  have hupos : 0 < ulp := by positivity
  have hule : ulp ≤ 1 / 8388608 := by
    have : ulp ≤ (2 : ℝ) ^ ((-23 : ℤ)) := by
      rw [hulp]
      apply zpow_le_zpow_right₀ (by norm_num)
      omega
    refine le_trans this ?_
    norm_num [zpow_neg]
  set y : ℝ := x / ulp with hy
  have hxy : x = y * ulp := by
    rw [hy]; field_simp
  have hfl := Int.floor_le y
  have hfl2 := Int.lt_floor_add_one y
  have key : ∀ r : ℤ, |(r : ℝ) - y| ≤ 1 / 2 → |(r : ℝ) * ulp - x| ≤ 1 / 16777216 := by
    intro r hr
    have : (r : ℝ) * ulp - x = ((r : ℝ) - y) * ulp := by rw [hxy]; ring
    rw [this, abs_mul, abs_of_pos hupos]
    calc |(r : ℝ) - y| * ulp ≤ (1 / 2) * (1 / 8388608) :=
          mul_le_mul hr hule hupos.le (by norm_num)
      _ = 1 / 16777216 := by norm_num
  split_ifs with h1 h2 h3
  · apply key
    rw [abs_le]
    constructor <;> linarith
  · apply key
    push_cast
    rw [abs_le]
    constructor <;> linarith
  · apply key
    rw [abs_le]
    constructor <;> linarith
  · apply key
    push_cast
    rw [abs_le]
    constructor <;> linarith

theorem DbToFloat_range (d : ℤ) : 0 ≤ DbToFloat d ∧ DbToFloat d ≤ 1 := by
  unfold DbToFloat
  split_ifs with h1 h2
  · exact ⟨le_rfl, by norm_num⟩
  · exact ⟨by norm_num, le_rfl⟩
  · push_neg at h2
    refine ⟨by positivity, ?_⟩
    apply Real.rpow_le_one_of_one_le_of_nonpos (by norm_num)
    have : (d : ℝ) < 0 := by exact_mod_cast h2
    linarith

/-- Sharper bounds on `10 ^ (-1 / 2000)`, which is about `0.998849`. -/
theorem quantum_bounds_fine :
    (99884 / 100000 : ℝ) < (10 : ℝ) ^ (-(1:ℝ) / 2000) ∧
      (10 : ℝ) ^ (-(1:ℝ) / 2000) < 99885 / 100000 :=
  ⟨quantum_gt_of_pow (by norm_num), quantum_lt_of_pow (by norm_num) (by norm_num)⟩

/-- The gain round trip on a number that a rounding has moved slightly out of `[0, 1]`. -/
theorem gain_error_rounded (a : ℝ) (h0 : -(1 / 16777216) ≤ a) (h1 : a ≤ 1 + 1 / 16777216) :
    |DbToFloat (FloatToDb a) - a| < 1 - (10 : ℝ) ^ (-(1:ℝ) / 2000) := by
  have hq := quantum_bounds_fine.2
  by_cases ha0 : a ≤ 0
  · have : FloatToDb a = -10000 := by simp [FloatToDb, ha0]
    rw [this]
    have : DbToFloat (-10000) = 0 := by simp [DbToFloat]
    rw [this, zero_sub, abs_neg, abs_of_nonpos ha0]
    linarith
  · by_cases ha1 : 1 ≤ a
    · have : FloatToDb a = 0 := by simp [FloatToDb, ha0, ha1]
      rw [this]
      have : DbToFloat 0 = 1 := by simp [DbToFloat]
      rw [this, abs_of_nonpos (by linarith)]
      linarith
    · exact gain_error_aux a (by linarith) (by linarith)

/-- When `FloatToDb` maps a number to `0`, the number is above `10 ^ (-1 / 2000)`. -/
theorem FloatToDb_eq_zero_imp {a : ℝ} (h : FloatToDb a = 0) :
    (10 : ℝ) ^ (-(1:ℝ) / 2000) < a := by
  by_cases ha0 : a ≤ 0
  · simp [FloatToDb, ha0] at h
  · by_cases ha1 : 1 ≤ a
    · exact lt_of_lt_of_le quantum_lt_one ha1
    · exact (FloatToDb_eq_zero_iff (by linarith) (by linarith)).mp h

/-- Above `10 ^ (-1 / 2000)` the function `FloatToDb` gives `0`. -/
theorem FloatToDb_eq_zero_of_lt {a : ℝ} (h : (10 : ℝ) ^ (-(1:ℝ) / 2000) < a) :
    FloatToDb a = 0 := by
  have hpos := quantum_pos
  by_cases ha1 : 1 ≤ a
  · simp [FloatToDb, ha1, not_le.mpr (lt_of_lt_of_le one_pos ha1)]
  · exact (FloatToDb_eq_zero_iff (by linarith) (by linarith)).mpr h

theorem FloatPanningToDb_pos {p : ℝ} (h0 : 0 < p) (h1 : p ≤ 1) :
    FloatPanningToDb p = -FloatToDb (roundToFloat (1 - p)) := by
  have h2 : ¬ p < -1 := by linarith
  have h3 : ¬ 1 < p := by linarith
  simp [FloatPanningToDb, h0.ne', h2, h3, h0]

theorem FloatPanningToDb_neg {p : ℝ} (h0 : p < 0) (h1 : -1 ≤ p) :
    FloatPanningToDb p = FloatToDb (roundToFloat (1 + p)) := by
  have h2 : ¬ p < -1 := by linarith
  have h3 : ¬ 1 < p := by linarith
  have h4 : ¬ 0 < p := by linarith
  simp [FloatPanningToDb, h0.ne, h2, h3, h4]

theorem DbPanningToFloat_neg_FloatToDb (g : ℝ) :
    DbPanningToFloat (-FloatToDb g) =
      if FloatToDb g = 0 then 0 else roundToFloat (1 - DbToFloat (FloatToDb g)) := by
  have h := FloatToDb_nonpos g
  unfold DbPanningToFloat
  split_ifs with a b c d <;> first | rfl | omega | simp

theorem DbPanningToFloat_FloatToDb (g : ℝ) :
    DbPanningToFloat (FloatToDb g) =
      if FloatToDb g = 0 then 0 else roundToFloat (-1 + DbToFloat (FloatToDb g)) := by
  have h := FloatToDb_nonpos g
  unfold DbPanningToFloat
  split_ifs with a b c d <;> first | rfl | omega

/-- The pan round trip is off by less than `1 - 10 ^ (-1 / 2000)` plus the two
roundings. -/
theorem pan_error_aux (p : ℝ) (h0 : -1 ≤ p) (h1 : p ≤ 1) :
    |DbPanningToFloat (FloatPanningToDb p) - p| <
      1 - (10 : ℝ) ^ (-(1:ℝ) / 2000) + 1 / 8388608 := by
  have hc1 := quantum_lt_one
  rcases lt_trichotomy p 0 with hp | hp | hp
  · rw [FloatPanningToDb_neg hp h0, DbPanningToFloat_FloatToDb]
    have hr := roundToFloat_error (1 + p) (by rw [abs_le]; constructor <;> linarith)
    rw [abs_le] at hr
    split_ifs with hz
    · have := FloatToDb_eq_zero_imp hz
      rw [zero_sub, abs_neg, abs_of_neg hp]
      linarith
    · have hg := gain_error_rounded (roundToFloat (1 + p)) (by linarith) (by linarith)
      have hd := DbToFloat_range (FloatToDb (roundToFloat (1 + p)))
      have hr2 := roundToFloat_error (-1 + DbToFloat (FloatToDb (roundToFloat (1 + p))))
        (by rw [abs_le]; constructor <;> linarith)
      rw [abs_lt] at hg ⊢
      rw [abs_le] at hr2
      constructor <;> linarith
  · subst hp
    simp [FloatPanningToDb, DbPanningToFloat]
    linarith
  · rw [FloatPanningToDb_pos hp h1, DbPanningToFloat_neg_FloatToDb]
    have hr := roundToFloat_error (1 - p) (by rw [abs_le]; constructor <;> linarith)
    rw [abs_le] at hr
    split_ifs with hz
    · have := FloatToDb_eq_zero_imp hz
      rw [zero_sub, abs_neg, abs_of_pos hp]
      linarith
    · have hg := gain_error_rounded (roundToFloat (1 - p)) (by linarith) (by linarith)
      have hd := DbToFloat_range (FloatToDb (roundToFloat (1 - p)))
      have hr2 := roundToFloat_error (1 - DbToFloat (FloatToDb (roundToFloat (1 - p))))
        (by rw [abs_le]; constructor <;> linarith)
      rw [abs_lt] at hg ⊢
      rw [abs_le] at hr2
      constructor <;> linarith

/-- A pan within `0.0011` of the centre is mapped to `0`. -/
theorem pan_zero_near (p : ℝ) (h : |p| ≤ 11 / 10000) : FloatPanningToDb p = 0 := by
  have hq := quantum_bounds_fine.2
  rw [abs_le] at h
  rcases lt_trichotomy p 0 with hp | hp | hp
  · rw [FloatPanningToDb_neg hp (by linarith)]
    have hr := roundToFloat_error (1 + p) (by rw [abs_le]; constructor <;> linarith)
    rw [abs_le] at hr
    exact FloatToDb_eq_zero_of_lt (by linarith)
  · subst hp
    simp [FloatPanningToDb]
  · rw [FloatPanningToDb_pos hp (by linarith), neg_eq_zero]
    have hr := roundToFloat_error (1 - p) (by rw [abs_le]; constructor <;> linarith)
    rw [abs_le] at hr
    exact FloatToDb_eq_zero_of_lt (by linarith)

/-- A pan in `[-1, 1]` that is mapped to `0` is within `1 - 10 ^ (-1 / 2000)` plus one
rounding of the centre. -/
theorem pan_zero_far (p : ℝ) (h0 : -1 ≤ p) (h1 : p ≤ 1) (hz : FloatPanningToDb p = 0) :
    |p| < 1 - (10 : ℝ) ^ (-(1:ℝ) / 2000) + 1 / 16777216 := by
  rcases lt_trichotomy p 0 with hp | hp | hp
  · rw [FloatPanningToDb_neg hp h0] at hz
    have hr := roundToFloat_error (1 + p) (by rw [abs_le]; constructor <;> linarith)
    rw [abs_le] at hr
    have := FloatToDb_eq_zero_imp hz
    rw [abs_of_neg hp]
    linarith
  · subst hp
    have := quantum_lt_one
    simp
    linarith
  · rw [FloatPanningToDb_pos hp h1, neg_eq_zero] at hz
    have hr := roundToFloat_error (1 - p) (by rw [abs_le]; constructor <;> linarith)
    rw [abs_le] at hr
    have := FloatToDb_eq_zero_imp hz
    rw [abs_of_pos hp]
    linarith


theorem Int_log_two_half_to_one {x : ℝ} (h0 : 1 / 2 ≤ x) (h1 : x < 1) : Int.log 2 x = -1 := by
  have hx : 0 < x := by linarith
  apply le_antisymm
  · have : Int.log 2 x < 0 := by
      rw [← Int.lt_zpow_iff_log_lt (by norm_num) hx]
      simpa using h1
    omega
  · rw [← Int.zpow_le_iff_le_log (by norm_num) hx]
    norm_num [zpow_neg]
    linarith

/-- The sum `1.0f - p` at the `float` `p = 38609 * 2 ^ (-25)` lies half way between two
floats and is rounded to the even one, `16757912 * 2 ^ (-24)`, which is the upper one. -/
theorem roundToFloat_tie :
    roundToFloat (1 - 38609 / 33554432) = 16757912 / 16777216 := by
  have hx : |(1 - 38609 / 33554432 : ℝ)| = 33515823 / 33554432 := by
    rw [abs_of_pos (by norm_num)]; norm_num
  have hl : Int.log 2 |(1 - 38609 / 33554432 : ℝ)| = -1 := by
    rw [hx]
    exact Int_log_two_half_to_one (by norm_num) (by norm_num)
  unfold roundToFloat
  simp only [hl]
  have hu : (2 : ℝ) ^ ((max (-1 : ℤ) (-126)) - 23) = 1 / 16777216 := by
    norm_num [zpow_neg]
  rw [hu]
  have hy : ((1 - 38609 / 33554432 : ℝ) / (1 / 16777216)) = 16757911 + 1 / 2 := by norm_num
  rw [hy]
  have hf : ⌊(16757911 + 1 / 2 : ℝ)⌋ = 16757911 := by
    rw [Int.floor_eq_iff]
    constructor <;> norm_num
  rw [hf]
  norm_num

/-- The pan `p = 38609 * 2 ^ (-25)` (a `float`, about `0.00115064`) is at least
`1 - 10 ^ (-1 / 2000)` from the centre, and still `FloatPanningToDb(p)` is `0`: the
rounding of `1.0f - p` lifts the sum above `10 ^ (-1 / 2000)`. -/
theorem FloatPanningToDb_zero_beyond_quantum :
    FloatPanningToDb (38609 / 33554432) = 0 ∧
      1 - (10 : ℝ) ^ (-(1:ℝ) / 2000) ≤ 38609 / 33554432 := by
  constructor
  · rw [FloatPanningToDb_pos (by norm_num) (by norm_num), roundToFloat_tie, neg_eq_zero]
    apply FloatToDb_eq_zero_of_lt
    exact quantum_lt_of_pow (by norm_num) (by norm_num)
  · have : (33515823 / 33554432 : ℝ) < (10 : ℝ) ^ (-(1:ℝ) / 2000) :=
      quantum_gt_of_pow (by norm_num)
    linarith

theorem quantum_bounds :
    (9988 / 10000 : ℝ) < (10 : ℝ) ^ (-(1:ℝ) / 2000) ∧
      (10 : ℝ) ^ (-(1:ℝ) / 2000) < 9989 / 10000 :=
  ⟨quantum_gt_of_pow (by norm_num), quantum_lt_of_pow (by norm_num) (by norm_num)⟩

theorem FloatToDb_9989 : FloatToDb (9989 / 10000) = 0 :=
  (FloatToDb_eq_zero_iff (by norm_num) (by norm_num)).mpr quantum_bounds.2

theorem scaled_logb_eq_logb_pow (f : ℝ) :
    2000 * Real.logb 10 f = Real.logb 10 (f ^ 2000) := by
  unfold Real.logb
  rw [Real.log_pow]
  push_cast
  ring

theorem FloatToDb_zero : FloatToDb 0 = -10000 := by
  simp [FloatToDb]

theorem FloatToDb_one : FloatToDb 1 = 0 := by
  norm_num [FloatToDb]

theorem FloatToDb_two_pow : FloatToDb (1 / 1048576) = -12041 := by
  rw [FloatToDb_mid (by norm_num) (by norm_num), Int.ceil_eq_iff, scaled_logb_eq_logb_pow]
  have hpos : (0:ℝ) < (1 / 1048576) ^ 2000 := by positivity
  constructor
  · rw [Real.lt_logb_iff_rpow_lt (by norm_num) hpos]
    rw [show (((-12041 : ℤ) : ℝ) - 1) = -((12042 : ℕ) : ℝ) by norm_num,
      Real.rpow_neg (by norm_num), Real.rpow_natCast]
    norm_num
  · rw [Real.logb_le_iff_le_rpow (by norm_num) hpos]
    rw [show ((-12041 : ℤ) : ℝ) = -((12041 : ℕ) : ℝ) by norm_num,
      Real.rpow_neg (by norm_num), Real.rpow_natCast]
    norm_num

/-! ## The claims on the conversions -/

/-- Claim C4, counterexample.  At `f = 0.9989` the product `2000 * log10 f` is about
`-0.956`, the cast truncates it to `0`, `DbToFloat(0)` is `1`, and the round trip is off
by `0.0011`. -/
theorem gain_roundtrip_misses_thousandth :
    (0 : ℝ) ≤ 9989 / 10000 ∧ (9989 / 10000 : ℝ) ≤ 1 ∧
    DbToFloat (FloatToDb (9989 / 10000)) = 1 ∧
    ¬ |DbToFloat (FloatToDb (9989 / 10000)) - 9989 / 10000| < 1 / 1000 := by
  refine ⟨by norm_num, by norm_num, ?_, ?_⟩
  · rw [FloatToDb_9989]
    norm_num [DbToFloat]
  · rw [FloatToDb_9989]
    norm_num [DbToFloat]
    rw [abs_of_pos (by norm_num)]
    norm_num

/-- Claim C4, amended.  For every real `f` in `[0, 1]` the round trip
`DbToFloat(FloatToDb(f))` is within `1 - 10 ^ (-1 / 2000)` of `f`, hence within
`0.0012`. -/
theorem gain_roundtrip_within_quantum (f : ℝ) (h0 : 0 ≤ f) (h1 : f ≤ 1) :
    |DbToFloat (FloatToDb f) - f| < 1 - (10 : ℝ) ^ (-(1:ℝ) / 2000) ∧
    |DbToFloat (FloatToDb f) - f| < 12 / 10000 := by
  have h := gain_error_aux f h0 h1
  have hq := quantum_bounds.1
  exact ⟨h, by linarith⟩

/-- Witness of C4 (amended) at `f = 0.9989`. -/
theorem gain_roundtrip_within_quantum_witness :
    (0 : ℝ) ≤ 9989 / 10000 ∧ (9989 / 10000 : ℝ) ≤ 1 ∧
    |DbToFloat (FloatToDb (9989 / 10000)) - 9989 / 10000| < 12 / 10000 :=
  ⟨by norm_num, by norm_num,
    (gain_roundtrip_within_quantum (9989 / 10000) (by norm_num) (by norm_num)).2⟩

/-- Claim C5, the code at a failing input.  For the gain `2 ^ (-20)` (an exact `float`,
about `9.5e-7`) `FloatToDb` returns `-12041`, below the DirectSound minimum `-10000`; the
two end points are as claimed, `FloatToDb(0) = -10000` and `FloatToDb(1) = 0`. -/
theorem FloatToDb_leaves_volume_range :
    FloatToDb (1 / 1048576) = -12041 ∧ ¬ (-10000 ≤ FloatToDb (1 / 1048576)) ∧
    FloatToDb 0 = -10000 ∧ FloatToDb 1 = 0 := by
  refine ⟨FloatToDb_two_pow, ?_, FloatToDb_zero, FloatToDb_one⟩
  rw [FloatToDb_two_pow]
  norm_num

/-- Claim C6, counterexample.  At the pan `p = 9 / 8192` (a `float`, about `0.0010986`)
the sum `1.0f - p` is exact, the attenuation `FloatToDb(1 - p)` is truncated to `0`, so
the pan comes back as `0`, off by more than `0.001`. -/
theorem pan_roundtrip_misses_thousandth :
    (-1 : ℝ) ≤ 9 / 8192 ∧ (9 / 8192 : ℝ) ≤ 1 ∧
    DbPanningToFloat (FloatPanningToDb (9 / 8192)) = 0 ∧
    ¬ |DbPanningToFloat (FloatPanningToDb (9 / 8192)) - 9 / 8192| ≤ 1 / 1000 := by
  have h : FloatPanningToDb (9 / 8192) = 0 :=
    pan_zero_near _ (by rw [abs_of_pos (by norm_num)]; norm_num)
  refine ⟨by norm_num, by norm_num, ?_, ?_⟩
  · rw [h]
    simp [DbPanningToFloat]
  · rw [h]
    simp only [DbPanningToFloat, lt_self_iff_false, if_false, zero_sub, abs_neg]
    rw [abs_of_pos (by norm_num)]
    norm_num

/-- Claim C6, amended.  For every pan `p` in `[-1, 1]` the round trip
`DbPanningToFloat(FloatPanningToDb(p))` is within `0.0012` of `p`, the sums `1.0f - p`,
`1.0f + p`, `1.0f - g` and `-1.0f + g` being rounded to a `float`. -/
theorem pan_roundtrip_within_bound (p : ℝ) (h0 : -1 ≤ p) (h1 : p ≤ 1) :
    |DbPanningToFloat (FloatPanningToDb p) - p| < 12 / 10000 := by
  have h := pan_error_aux p h0 h1
  have hq := quantum_bounds_fine.1
  have : (1 / 8388608 : ℝ) < 1 / 100000 := by norm_num
  linarith

/-- Witness of C6 (amended) at `p = 9 / 8192`. -/
theorem pan_roundtrip_within_bound_witness :
    (-1 : ℝ) ≤ 9 / 8192 ∧ (9 / 8192 : ℝ) ≤ 1 ∧
    |DbPanningToFloat (FloatPanningToDb (9 / 8192)) - 9 / 8192| < 12 / 10000 :=
  ⟨by norm_num, by norm_num,
    pan_roundtrip_within_bound (9 / 8192) (by norm_num) (by norm_num)⟩

/-- Claim C7, counterexample.  The pan `p = 1 / 2048` (a `float`, about `0.00049`) is not
`0`, yet `FloatPanningToDb(p)` is `0`. -/
theorem pan_zero_db_at_nonzero_pan :
    (-1 : ℝ) ≤ 1 / 2048 ∧ (1 / 2048 : ℝ) ≤ 1 ∧
    ¬ (FloatPanningToDb (1 / 2048) = 0 ↔ (1 / 2048 : ℝ) = 0) := by
  refine ⟨by norm_num, by norm_num, ?_⟩
  have h : FloatPanningToDb (1 / 2048) = 0 :=
    pan_zero_near _ (by rw [abs_of_pos (by norm_num)]; norm_num)
  intro hiff
  have := hiff.mp h
  norm_num at this

/-- Claim C7, amended.  For every pan `p` in `[-1, 1]`: `p = 0` gives
`FloatPanningToDb(p) = 0`, and so does every `p` with `|p| <= 0.0011`; a result of `0`
comes only from a pan with `|p| < 0.0012`. -/
theorem pan_zero_db_near_centre (p : ℝ) (h0 : -1 ≤ p) (h1 : p ≤ 1) :
    (p = 0 → FloatPanningToDb p = 0) ∧
    (|p| ≤ 11 / 10000 → FloatPanningToDb p = 0) ∧
    (FloatPanningToDb p = 0 → |p| < 12 / 10000) := by
  refine ⟨?_, pan_zero_near p, ?_⟩
  · intro hp
    simp [FloatPanningToDb, hp]
  · intro hz
    have h := pan_zero_far p h0 h1 hz
    have hq := quantum_bounds_fine.1
    have : (1 / 16777216 : ℝ) < 1 / 100000 := by norm_num
    linarith

/-- Witness of C7 (amended) at `p = 1 / 2048`. -/
theorem pan_zero_db_near_centre_witness :
    (-1 : ℝ) ≤ 1 / 2048 ∧ (1 / 2048 : ℝ) ≤ 1 ∧ |(1 / 2048 : ℝ)| ≤ 11 / 10000 ∧
    FloatPanningToDb (1 / 2048) = 0 :=
  ⟨by norm_num, by norm_num, by rw [abs_of_pos (by norm_num)]; norm_num,
    (pan_zero_db_near_centre (1 / 2048) (by norm_num) (by norm_num)).2.1
      (by rw [abs_of_pos (by norm_num)]; norm_num)⟩

/-! ## Lifecycle: auxiliary facts -/

theorem SUCCEEDED_iff_not_FAILED (hr : HRESULT) : SUCCEEDED hr = true ↔ FAILED hr = false := by
  simp [SUCCEEDED, FAILED]

theorem HandleDirectSoundError_code_ok (ctx : CKContext) (hr : HRESULT) (op : String)
    (s : DX8SoundManager) :
    (HandleDirectSoundError ctx hr op s).1 = CK_OK ↔ SUCCEEDED hr = true := by
  unfold HandleDirectSoundError
  split_ifs <;> simp_all

theorem HandleDirectSoundError_code_indep (ctx : CKContext) (hr : HRESULT) (op : String)
    (s t : DX8SoundManager) :
    (HandleDirectSoundError ctx hr op s).1 = (HandleDirectSoundError ctx hr op t).1 := by
  unfold HandleDirectSoundError
  split_ifs <;> rfl

theorem HandleDirectSoundError_state (ctx : CKContext) (hr : HRESULT) (op : String)
    (s : DX8SoundManager) :
    ∃ tr, (HandleDirectSoundError ctx hr op s).2 = { s with trace := tr } := by
  unfold HandleDirectSoundError emit
  split_ifs <;> exact ⟨_, rfl⟩

theorem EnterCriticalSection_state (s : DX8SoundManager) :
    ∃ tr, EnterCriticalSection s = { s with trace := tr } := by
  unfold EnterCriticalSection emit
  split_ifs <;> exact ⟨_, rfl⟩

theorem LeaveCriticalSection_state (s : DX8SoundManager) :
    ∃ tr, LeaveCriticalSection s = { s with trace := tr } := by
  unfold LeaveCriticalSection emit
  split_ifs <;> exact ⟨_, rfl⟩

theorem forEachWaveSound_state (ctx : CKContext) (act : CK_ID → Event) (ids : List CK_ID)
    (s : DX8SoundManager) :
    ∃ tr, forEachWaveSound ctx act ids s = { s with trace := tr } := by
  induction ids generalizing s with
  | nil => exact ⟨s.trace, rfl⟩
  | cons id rest ih =>
    unfold forEachWaveSound
    cases ctx.getObject id with
    | none => exact ih s
    | some o =>
      obtain ⟨tr, h⟩ := ih (emit (act id) s)
      exact ⟨tr, by rw [h]; rfl⟩

/-- After `CleanupDirectSoundResources` the three pointers are null; the other fields of
the manager proper are as before. -/
theorem CleanupDirectSoundResources_state (s : DX8SoundManager) :
    ∃ bufs tr, CleanupDirectSoundResources s =
      { s with m_Root := none, m_Primary := none, m_Listener := none,
               buffers := bufs, trace := tr } := by
  unfold CleanupDirectSoundResources
  rcases s with ⟨root, primary, listener, b, v, c, sp, mi, gv, gc, bufs, tr⟩
  cases listener <;> cases primary <;> cases root <;>
    exact ⟨_, _, rfl⟩


@[simp] theorem emit_fields (e : Event) (s : DX8SoundManager) :
    (emit e s).m_Root = s.m_Root ∧
    (emit e s).m_Primary = s.m_Primary ∧
    (emit e s).m_Listener = s.m_Listener ∧
    (emit e s).m_bInitialized = s.m_bInitialized ∧
    (emit e s).m_LastListenerPosition = s.m_LastListenerPosition ∧
    (emit e s).m_bCriticalSectionInitialized = s.m_bCriticalSectionInitialized ∧
    (emit e s).m_SoundsPlaying = s.m_SoundsPlaying ∧
    (emit e s).m_Minions = s.m_Minions ∧
    (emit e s).g_InitialVolume = s.g_InitialVolume ∧
    (emit e s).g_InitialVolumeChanged = s.g_InitialVolumeChanged ∧
    (emit e s).buffers = s.buffers :=
  ⟨rfl, rfl, rfl, rfl, rfl, rfl, rfl, rfl, rfl, rfl, rfl⟩

@[simp] theorem emit_trace (e : Event) (s : DX8SoundManager) :
    (emit e s).trace = s.trace ++ [e] := rfl

@[simp] theorem EnterCriticalSection_fields (s : DX8SoundManager) :
    (EnterCriticalSection s).m_Root = s.m_Root ∧
    (EnterCriticalSection s).m_Primary = s.m_Primary ∧
    (EnterCriticalSection s).m_Listener = s.m_Listener ∧
    (EnterCriticalSection s).m_bInitialized = s.m_bInitialized ∧
    (EnterCriticalSection s).m_LastListenerPosition = s.m_LastListenerPosition ∧
    (EnterCriticalSection s).m_bCriticalSectionInitialized = s.m_bCriticalSectionInitialized ∧
    (EnterCriticalSection s).m_SoundsPlaying = s.m_SoundsPlaying ∧
    (EnterCriticalSection s).m_Minions = s.m_Minions ∧
    (EnterCriticalSection s).g_InitialVolume = s.g_InitialVolume ∧
    (EnterCriticalSection s).g_InitialVolumeChanged = s.g_InitialVolumeChanged ∧
    (EnterCriticalSection s).buffers = s.buffers := by
  obtain ⟨tr, h⟩ := EnterCriticalSection_state s
  rw [h]
  exact ⟨rfl, rfl, rfl, rfl, rfl, rfl, rfl, rfl, rfl, rfl, rfl⟩

@[simp] theorem LeaveCriticalSection_fields (s : DX8SoundManager) :
    (LeaveCriticalSection s).m_Root = s.m_Root ∧
    (LeaveCriticalSection s).m_Primary = s.m_Primary ∧
    (LeaveCriticalSection s).m_Listener = s.m_Listener ∧
    (LeaveCriticalSection s).m_bInitialized = s.m_bInitialized ∧
    (LeaveCriticalSection s).m_LastListenerPosition = s.m_LastListenerPosition ∧
    (LeaveCriticalSection s).m_bCriticalSectionInitialized = s.m_bCriticalSectionInitialized ∧
    (LeaveCriticalSection s).m_SoundsPlaying = s.m_SoundsPlaying ∧
    (LeaveCriticalSection s).m_Minions = s.m_Minions ∧
    (LeaveCriticalSection s).g_InitialVolume = s.g_InitialVolume ∧
    (LeaveCriticalSection s).g_InitialVolumeChanged = s.g_InitialVolumeChanged ∧
    (LeaveCriticalSection s).buffers = s.buffers := by
  obtain ⟨tr, h⟩ := LeaveCriticalSection_state s
  rw [h]
  exact ⟨rfl, rfl, rfl, rfl, rfl, rfl, rfl, rfl, rfl, rfl, rfl⟩

@[simp] theorem HandleDirectSoundError_fields (ctx : CKContext) (hr : HRESULT) (op : String)
    (s : DX8SoundManager) :
    ((HandleDirectSoundError ctx hr op s).2).m_Root = s.m_Root ∧
    ((HandleDirectSoundError ctx hr op s).2).m_Primary = s.m_Primary ∧
    ((HandleDirectSoundError ctx hr op s).2).m_Listener = s.m_Listener ∧
    ((HandleDirectSoundError ctx hr op s).2).m_bInitialized = s.m_bInitialized ∧
    ((HandleDirectSoundError ctx hr op s).2).m_LastListenerPosition = s.m_LastListenerPosition ∧
    ((HandleDirectSoundError ctx hr op s).2).m_bCriticalSectionInitialized = s.m_bCriticalSectionInitialized ∧
    ((HandleDirectSoundError ctx hr op s).2).m_SoundsPlaying = s.m_SoundsPlaying ∧
    ((HandleDirectSoundError ctx hr op s).2).m_Minions = s.m_Minions ∧
    ((HandleDirectSoundError ctx hr op s).2).g_InitialVolume = s.g_InitialVolume ∧
    ((HandleDirectSoundError ctx hr op s).2).g_InitialVolumeChanged = s.g_InitialVolumeChanged ∧
    ((HandleDirectSoundError ctx hr op s).2).buffers = s.buffers := by
  obtain ⟨tr, h⟩ := HandleDirectSoundError_state ctx hr op s
  rw [h]
  exact ⟨rfl, rfl, rfl, rfl, rfl, rfl, rfl, rfl, rfl, rfl, rfl⟩

@[simp] theorem forEachWaveSound_fields (ctx : CKContext) (act : CK_ID → Event)
    (ids : List CK_ID) (s : DX8SoundManager) :
    (forEachWaveSound ctx act ids s).m_Root = s.m_Root ∧
    (forEachWaveSound ctx act ids s).m_Primary = s.m_Primary ∧
    (forEachWaveSound ctx act ids s).m_Listener = s.m_Listener ∧
    (forEachWaveSound ctx act ids s).m_bInitialized = s.m_bInitialized ∧
    (forEachWaveSound ctx act ids s).m_LastListenerPosition = s.m_LastListenerPosition ∧
    (forEachWaveSound ctx act ids s).m_bCriticalSectionInitialized = s.m_bCriticalSectionInitialized ∧
    (forEachWaveSound ctx act ids s).m_SoundsPlaying = s.m_SoundsPlaying ∧
    (forEachWaveSound ctx act ids s).m_Minions = s.m_Minions ∧
    (forEachWaveSound ctx act ids s).g_InitialVolume = s.g_InitialVolume ∧
    (forEachWaveSound ctx act ids s).g_InitialVolumeChanged = s.g_InitialVolumeChanged ∧
    (forEachWaveSound ctx act ids s).buffers = s.buffers := by
  obtain ⟨tr, h⟩ := forEachWaveSound_state ctx act ids s
  rw [h]
  exact ⟨rfl, rfl, rfl, rfl, rfl, rfl, rfl, rfl, rfl, rfl, rfl⟩

@[simp] theorem CleanupDirectSoundResources_fields (s : DX8SoundManager) :
    (CleanupDirectSoundResources s).m_Root = none ∧
    (CleanupDirectSoundResources s).m_Primary = none ∧
    (CleanupDirectSoundResources s).m_Listener = none ∧
    (CleanupDirectSoundResources s).m_bInitialized = s.m_bInitialized ∧
    (CleanupDirectSoundResources s).m_LastListenerPosition = s.m_LastListenerPosition ∧
    (CleanupDirectSoundResources s).m_bCriticalSectionInitialized = s.m_bCriticalSectionInitialized ∧
    (CleanupDirectSoundResources s).m_SoundsPlaying = s.m_SoundsPlaying ∧
    (CleanupDirectSoundResources s).m_Minions = s.m_Minions ∧
    (CleanupDirectSoundResources s).g_InitialVolume = s.g_InitialVolume ∧
    (CleanupDirectSoundResources s).g_InitialVolumeChanged = s.g_InitialVolumeChanged := by
  obtain ⟨bufs, tr, h⟩ := CleanupDirectSoundResources_state s
  rw [h]
  exact ⟨rfl, rfl, rfl, rfl, rfl, rfl, rfl, rfl, rfl, rfl⟩

@[simp] theorem initFailure_fields (ctx : CKContext) (hr : HRESULT) (warning op : String)
    (s : DX8SoundManager) :
    (initFailure ctx hr warning op s).2.m_Root = none ∧
    (initFailure ctx hr warning op s).2.m_Primary = none ∧
    (initFailure ctx hr warning op s).2.m_Listener = none ∧
    ((initFailure ctx hr warning op s).2).m_bInitialized = s.m_bInitialized ∧
    ((initFailure ctx hr warning op s).2).m_LastListenerPosition = s.m_LastListenerPosition ∧
    ((initFailure ctx hr warning op s).2).m_bCriticalSectionInitialized = s.m_bCriticalSectionInitialized ∧
    ((initFailure ctx hr warning op s).2).m_SoundsPlaying = s.m_SoundsPlaying ∧
    ((initFailure ctx hr warning op s).2).m_Minions = s.m_Minions ∧
    ((initFailure ctx hr warning op s).2).g_InitialVolume = s.g_InitialVolume ∧
    ((initFailure ctx hr warning op s).2).g_InitialVolumeChanged = s.g_InitialVolumeChanged := by
  unfold initFailure
  split_ifs <;> simp

theorem initFailure_code (ctx : CKContext) (hr : HRESULT) (warning op : String)
    (s t : DX8SoundManager) :
    (initFailure ctx hr warning op s).1 = (HandleDirectSoundError ctx hr op t).1 := by
  unfold initFailure
  exact HandleDirectSoundError_code_indep _ _ _ _ _

theorem HandleDirectSoundError_code_failed (ctx : CKContext) (hr : HRESULT) (op : String)
    (s : DX8SoundManager) (hf : FAILED hr = true) :
    (HandleDirectSoundError ctx hr op s).1 ≠ CK_OK := by
  rw [Ne, HandleDirectSoundError_code_ok, SUCCEEDED_iff_not_FAILED, hf]
  simp

theorem OnCKInit_cases (ctx : CKContext) (dev : InitDevice) (s : DX8SoundManager)
    (hen : ctx.disabledSound = false) :
    ((OnCKInit ctx dev s).1 = CK_OK ∧ dev.failingStep = none ∧
      (OnCKInit ctx dev s).2.m_Root = some dev.create.obj ∧
      (OnCKInit ctx dev s).2.m_Primary = some dev.primary.obj ∧
      (OnCKInit ctx dev s).2.m_Listener = some dev.listener.obj ∧
      (OnCKInit ctx dev s).2.m_bInitialized = true) ∨
    ((OnCKInit ctx dev s).1 ≠ CK_OK ∧
      (∃ hr op, dev.failingStep = some (hr, op) ∧
        (OnCKInit ctx dev s).1 = (HandleDirectSoundError ctx hr op s).1) ∧
      (OnCKInit ctx dev s).2.m_Root = none ∧
      (OnCKInit ctx dev s).2.m_Primary = none ∧
      (OnCKInit ctx dev s).2.m_Listener = none ∧
      (OnCKInit ctx dev s).2.m_bInitialized = s.m_bInitialized) := by
  unfold OnCKInit InitDevice.failingStep
  simp only [hen, Bool.false_eq_true, if_false]
  by_cases h1 : FAILED dev.create.hr = true
  · right
    simp only [h1, if_true]
    refine ⟨?_, ⟨_, _, rfl, initFailure_code _ _ _ _ _ _⟩, ?_⟩
    · rw [initFailure_code _ _ _ _ _ s]
      exact HandleDirectSoundError_code_failed _ _ _ _ h1
    · simp
  · simp only [h1, Bool.false_eq_true, if_false]
    by_cases h2 : FAILED dev.cooperativeLevel = true
    · right
      simp only [h2, if_true]
      refine ⟨?_, ⟨_, _, rfl, initFailure_code _ _ _ _ _ _⟩, ?_⟩
      · rw [initFailure_code _ _ _ _ _ s]
        exact HandleDirectSoundError_code_failed _ _ _ _ h2
      · simp
    · simp only [h2, Bool.false_eq_true, if_false]
      by_cases h3 : FAILED dev.primary.hr = true
      · right
        simp only [h3, if_true]
        refine ⟨?_, ⟨_, _, rfl, initFailure_code _ _ _ _ _ _⟩, ?_⟩
        · rw [initFailure_code _ _ _ _ _ s]
          exact HandleDirectSoundError_code_failed _ _ _ _ h3
        · simp
      · simp only [h3, Bool.false_eq_true, if_false]
        by_cases h4 : FAILED dev.listener.hr = true
        · right
          simp only [h4, if_true]
          refine ⟨?_, ⟨_, _, rfl, initFailure_code _ _ _ _ _ _⟩, ?_⟩
          · rw [initFailure_code _ _ _ _ _ s]
            exact HandleDirectSoundError_code_failed _ _ _ _ h4
          · simp
        · left
          simp only [h4, Bool.false_eq_true, if_false]
          have e1 : SUCCEEDED dev.create.hr = true := by
            rw [SUCCEEDED_iff_not_FAILED]; simpa using h1
          have e3 : SUCCEEDED dev.primary.hr = true := by
            rw [SUCCEEDED_iff_not_FAILED]; simpa using h3
          have e4 : SUCCEEDED dev.listener.hr = true := by
            rw [SUCCEEDED_iff_not_FAILED]; simpa using h4
          simp only [OutParam.written, e1, e3, e4, if_true]
          split_ifs <;> simp [InitDevice.failingStep]

theorem OnCKInit_disabled (ctx : CKContext) (dev : InitDevice) (s : DX8SoundManager)
    (h : ctx.disabledSound = true) : OnCKInit ctx dev s = (CK_OK, s) := by
  simp [OnCKInit, h]

theorem OnCKInit_minions (ctx : CKContext) (dev : InitDevice) (s : DX8SoundManager) :
    (OnCKInit ctx dev s).2.m_Minions = s.m_Minions := by
  unfold OnCKInit
  split_ifs <;> simp

theorem OnCKEnd_enabled (ctx : CKContext) (s : DX8SoundManager)
    (hen : ctx.disabledSound = false) :
    (OnCKEnd ctx s).1 = CK_OK ∧
    (OnCKEnd ctx s).2.m_Root = none ∧
    (OnCKEnd ctx s).2.m_Primary = none ∧
    (OnCKEnd ctx s).2.m_Listener = none ∧
    (OnCKEnd ctx s).2.m_bInitialized = false ∧
    (OnCKEnd ctx s).2.m_Minions = s.m_Minions := by
  simp [OnCKEnd, hen, StopAllPlayingSounds]

theorem OnCKEnd_disabled (ctx : CKContext) (s : DX8SoundManager)
    (h : ctx.disabledSound = true) : OnCKEnd ctx s = (CK_OK, s) := by
  simp [OnCKEnd, h]

theorem ReleaseSource_state (source : Option Handle) (s : DX8SoundManager) :
    ∃ bufs tr, ReleaseSource source s = { s with buffers := bufs, trace := tr } := by
  cases source with
  | none => exact ⟨s.buffers, s.trace, rfl⟩
  | some b => exact ⟨_, _, rfl⟩

@[simp] theorem ReleaseSource_fields (source : Option Handle) (s : DX8SoundManager) :
    (ReleaseSource source s).m_Root = s.m_Root ∧
    (ReleaseSource source s).m_Primary = s.m_Primary ∧
    (ReleaseSource source s).m_Listener = s.m_Listener ∧
    (ReleaseSource source s).m_bInitialized = s.m_bInitialized ∧
    (ReleaseSource source s).m_LastListenerPosition = s.m_LastListenerPosition ∧
    (ReleaseSource source s).m_bCriticalSectionInitialized = s.m_bCriticalSectionInitialized ∧
    (ReleaseSource source s).m_SoundsPlaying = s.m_SoundsPlaying ∧
    (ReleaseSource source s).m_Minions = s.m_Minions ∧
    (ReleaseSource source s).g_InitialVolume = s.g_InitialVolume ∧
    (ReleaseSource source s).g_InitialVolumeChanged = s.g_InitialVolumeChanged := by
  obtain ⟨bufs, tr, h⟩ := ReleaseSource_state source s
  rw [h]
  exact ⟨rfl, rfl, rfl, rfl, rfl, rfl, rfl, rfl, rfl, rfl⟩

theorem releaseAll_state (ms : List (Option SoundMinion)) (s : DX8SoundManager) :
    ∃ bufs tr, ms.foldl
      (fun acc entry =>
        match entry with
        | some m => ReleaseSource m.m_Source acc
        | none => acc) s = { s with buffers := bufs, trace := tr } := by
  induction ms generalizing s with
  | nil => exact ⟨s.buffers, s.trace, rfl⟩
  | cons e rest ih =>
    rw [List.foldl_cons]
    cases e with
    | none => exact ih s
    | some m =>
      obtain ⟨b1, t1, h1⟩ := ReleaseSource_state m.m_Source s
      obtain ⟨b2, t2, h2⟩ := ih (ReleaseSource m.m_Source s)
      refine ⟨b2, t2, ?_⟩
      simp only [h2]
      rw [h1]

@[simp] theorem ReleaseMinions_fields (s : DX8SoundManager) :
    (ReleaseMinions s).m_Minions = [] ∧
    (ReleaseMinions s).m_Root = s.m_Root ∧
    (ReleaseMinions s).m_Primary = s.m_Primary ∧
    (ReleaseMinions s).m_Listener = s.m_Listener ∧
    (ReleaseMinions s).m_bInitialized = s.m_bInitialized ∧
    (ReleaseMinions s).m_LastListenerPosition = s.m_LastListenerPosition ∧
    (ReleaseMinions s).m_bCriticalSectionInitialized = s.m_bCriticalSectionInitialized ∧
    (ReleaseMinions s).m_SoundsPlaying = s.m_SoundsPlaying ∧
    (ReleaseMinions s).g_InitialVolume = s.g_InitialVolume ∧
    (ReleaseMinions s).g_InitialVolumeChanged = s.g_InitialVolumeChanged := by
  unfold ReleaseMinions
  obtain ⟨bufs, tr, h⟩ := releaseAll_state s.m_Minions s
  simp only [h]
  simp

theorem stopAll_state (ctx : CKContext) (ids : List CK_ID) (s : DX8SoundManager) :
    ∃ tr, ids.foldl
      (fun acc id =>
        match ctx.getObject id with
        | some ws => if ws.hasSource then emit (Event.wsInternalStop id) acc else acc
        | none => acc) s = { s with trace := tr } := by
  induction ids generalizing s with
  | nil => exact ⟨s.trace, rfl⟩
  | cons id rest ih =>
    rw [List.foldl_cons]
    cases ctx.getObject id with
    | none => exact ih s
    | some ws =>
      by_cases hs : ws.hasSource = true
      · simp only [hs, if_true]
        obtain ⟨tr, h⟩ := ih (emit (Event.wsInternalStop id) s)
        exact ⟨tr, by rw [h]; rfl⟩
      · simp only [hs, Bool.false_eq_true, if_false]
        exact ih s

@[simp] theorem storeVolume_fields (b : Handle) (v : Int) (s : DX8SoundManager) :
    (storeVolume b v s).m_Root = s.m_Root ∧
    (storeVolume b v s).m_Primary = s.m_Primary ∧
    (storeVolume b v s).m_Listener = s.m_Listener ∧
    (storeVolume b v s).m_bInitialized = s.m_bInitialized ∧
    (storeVolume b v s).m_LastListenerPosition = s.m_LastListenerPosition ∧
    (storeVolume b v s).m_bCriticalSectionInitialized = s.m_bCriticalSectionInitialized ∧
    (storeVolume b v s).m_SoundsPlaying = s.m_SoundsPlaying ∧
    (storeVolume b v s).m_Minions = s.m_Minions ∧
    (storeVolume b v s).g_InitialVolume = s.g_InitialVolume ∧
    (storeVolume b v s).g_InitialVolumeChanged = s.g_InitialVolumeChanged :=
  ⟨rfl, rfl, rfl, rfl, rfl, rfl, rfl, rfl, rfl, rfl⟩

theorem OnCKReset_code (ctx : CKContext) (dev : ResetDevice) (s : DX8SoundManager) :
    (OnCKReset ctx dev s).1 = CK_OK := by
  unfold OnCKReset
  split_ifs <;> rfl

theorem OnCKReset_fields (ctx : CKContext) (dev : ResetDevice) (s : DX8SoundManager) :
    ((OnCKReset ctx dev s).2).m_Root = s.m_Root ∧
    ((OnCKReset ctx dev s).2).m_Primary = s.m_Primary ∧
    ((OnCKReset ctx dev s).2).m_Listener = s.m_Listener ∧
    ((OnCKReset ctx dev s).2).m_bInitialized = s.m_bInitialized ∧
    ((OnCKReset ctx dev s).2).m_LastListenerPosition = s.m_LastListenerPosition ∧
    ((OnCKReset ctx dev s).2).m_bCriticalSectionInitialized = s.m_bCriticalSectionInitialized ∧
    ((OnCKReset ctx dev s).2).g_InitialVolume = s.g_InitialVolume ∧
    ((OnCKReset ctx dev s).2).g_InitialVolumeChanged = s.g_InitialVolumeChanged := by
  unfold OnCKReset
  by_cases hv : ValidateDirectSound s = true
  · simp only [hv, Bool.not_true, Bool.false_eq_true, if_false]
    obtain ⟨tr, h⟩ := stopAll_state ctx (EnterCriticalSection s).m_SoundsPlaying
      (EnterCriticalSection s)
    simp only [h]
    split <;> split <;> (try split_ifs) <;> simp_all
  · simp [hv]

theorem OnCKReset_minions (ctx : CKContext) (dev : ResetDevice) (s : DX8SoundManager) :
    (OnCKReset ctx dev s).2.m_Minions = [] ∨ (OnCKReset ctx dev s).2.m_Minions = s.m_Minions := by
  unfold OnCKReset
  by_cases hv : ValidateDirectSound s = true
  · left
    simp only [hv, Bool.not_true, Bool.false_eq_true, if_false]
    split <;> split <;> (try split_ifs) <;> simp_all
  · right
    simp [hv]

theorem IsInitialized_value (s : DX8SoundManager) :
    (IsInitialized s).1 = (s.m_bInitialized && s.m_Root.isSome && s.m_Primary.isSome) := by
  simp [IsInitialized]

theorem runLifecycle_append (s : DX8SoundManager) (a b : List LifecycleCall) :
    runLifecycle s (a ++ b) = runLifecycle (runLifecycle s a) b := by
  simp [runLifecycle, List.foldl_append]

theorem runLifecycle_cons (s : DX8SoundManager) (c : LifecycleCall) (rest : List LifecycleCall) :
    runLifecycle s (c :: rest) = runLifecycle (c.run s).2 rest := rfl

theorem IsInitialized_resets (resets : List (CKContext × ResetDevice)) (s : DX8SoundManager) :
    (IsInitialized (runLifecycle s (resetCalls resets))).1 = (IsInitialized s).1 := by
  induction resets generalizing s with
  | nil => rfl
  | cons r rest ih =>
    have h := OnCKReset_fields r.1 r.2 s
    simp only [resetCalls, List.map_cons, runLifecycle_cons, LifecycleCall.run] at ih ⊢
    rw [ih, IsInitialized_value, IsInitialized_value, h.1, h.2.1, h.2.2.2.1]

theorem failingStep_failed (dev : InitDevice) (hr : HRESULT) (op : String)
    (h : dev.failingStep = some (hr, op)) : FAILED hr = true := by
  unfold InitDevice.failingStep at h
  split_ifs at h with h1 h2 h3 h4 <;> simp at h <;> obtain ⟨rfl, -⟩ := h <;> assumption

theorem IsPlaying_state (dev : FrameDevice) (source : Option Handle) (s : DX8SoundManager) :
    ∃ tr, (IsPlaying dev source s).2 = { s with trace := tr } := by
  cases source with
  | none => exact ⟨s.trace, rfl⟩
  | some b =>
    unfold IsPlaying
    simp only
    split_ifs <;> exact ⟨_, rfl⟩

@[simp] theorem IsPlaying_fields (dev : FrameDevice) (source : Option Handle)
    (s : DX8SoundManager) :
    ((IsPlaying dev source s).2).m_Root = s.m_Root ∧
    ((IsPlaying dev source s).2).m_Primary = s.m_Primary ∧
    ((IsPlaying dev source s).2).m_Listener = s.m_Listener ∧
    ((IsPlaying dev source s).2).m_bInitialized = s.m_bInitialized ∧
    ((IsPlaying dev source s).2).m_LastListenerPosition = s.m_LastListenerPosition ∧
    ((IsPlaying dev source s).2).m_bCriticalSectionInitialized = s.m_bCriticalSectionInitialized ∧
    ((IsPlaying dev source s).2).m_SoundsPlaying = s.m_SoundsPlaying ∧
    ((IsPlaying dev source s).2).m_Minions = s.m_Minions ∧
    ((IsPlaying dev source s).2).g_InitialVolume = s.g_InitialVolume ∧
    ((IsPlaying dev source s).2).g_InitialVolumeChanged = s.g_InitialVolumeChanged ∧
    ((IsPlaying dev source s).2).buffers = s.buffers := by
  obtain ⟨tr, h⟩ := IsPlaying_state dev source s
  rw [h]
  exact ⟨rfl, rfl, rfl, rfl, rfl, rfl, rfl, rfl, rfl, rfl, rfl⟩

theorem PositionSource_state (dev : FrameDevice) (psource : Option Handle)
    (ent : Option CKObject) (position direction oldpos : VxVector) (s : DX8SoundManager) :
    ∃ tr, (PositionSource dev psource ent position direction oldpos s).2 =
      { s with trace := tr } := by
  cases psource with
  | none => exact ⟨s.trace, rfl⟩
  | some b =>
    unfold PositionSource
    simp only
    split_ifs <;> exact ⟨_, rfl⟩

@[simp] theorem PositionSource_fields (dev : FrameDevice) (psource : Option Handle)
    (ent : Option CKObject) (position direction oldpos : VxVector) (s : DX8SoundManager) :
    ((PositionSource dev psource ent position direction oldpos s).2).m_Root = s.m_Root ∧
    ((PositionSource dev psource ent position direction oldpos s).2).m_Primary = s.m_Primary ∧
    ((PositionSource dev psource ent position direction oldpos s).2).m_Listener = s.m_Listener ∧
    ((PositionSource dev psource ent position direction oldpos s).2).m_bInitialized = s.m_bInitialized ∧
    ((PositionSource dev psource ent position direction oldpos s).2).m_LastListenerPosition = s.m_LastListenerPosition ∧
    ((PositionSource dev psource ent position direction oldpos s).2).m_bCriticalSectionInitialized = s.m_bCriticalSectionInitialized ∧
    ((PositionSource dev psource ent position direction oldpos s).2).m_SoundsPlaying = s.m_SoundsPlaying ∧
    ((PositionSource dev psource ent position direction oldpos s).2).m_Minions = s.m_Minions ∧
    ((PositionSource dev psource ent position direction oldpos s).2).g_InitialVolume = s.g_InitialVolume ∧
    ((PositionSource dev psource ent position direction oldpos s).2).g_InitialVolumeChanged = s.g_InitialVolumeChanged ∧
    ((PositionSource dev psource ent position direction oldpos s).2).buffers = s.buffers := by
  obtain ⟨tr, h⟩ := PositionSource_state dev psource ent position direction oldpos s
  rw [h]
  exact ⟨rfl, rfl, rfl, rfl, rfl, rfl, rfl, rfl, rfl, rfl, rfl⟩

theorem sweepPlaying_state (ctx : CKContext) (ids : List CK_ID) (s : DX8SoundManager) :
    ∃ tr, (sweepPlaying ctx ids s).2.2 = { s with trace := tr } := by
  induction ids generalizing s with
  | nil => exact ⟨s.trace, rfl⟩
  | cons id rest ih =>
    unfold sweepPlaying
    cases ctx.getObject id with
    | none => exact ih s
    | some ws =>
      simp only
      split_ifs
      all_goals
        first
        | exact ih s
        | (obtain ⟨tr, h⟩ := ih _
           exact ⟨tr, by rw [h]; rfl⟩)

@[simp] theorem sweepPlaying_fields (ctx : CKContext) (ids : List CK_ID) (s : DX8SoundManager) :
    ((sweepPlaying ctx ids s).2.2).m_Root = s.m_Root ∧
    ((sweepPlaying ctx ids s).2.2).m_Primary = s.m_Primary ∧
    ((sweepPlaying ctx ids s).2.2).m_Listener = s.m_Listener ∧
    ((sweepPlaying ctx ids s).2.2).m_bInitialized = s.m_bInitialized ∧
    ((sweepPlaying ctx ids s).2.2).m_LastListenerPosition = s.m_LastListenerPosition ∧
    ((sweepPlaying ctx ids s).2.2).m_bCriticalSectionInitialized = s.m_bCriticalSectionInitialized ∧
    ((sweepPlaying ctx ids s).2.2).m_SoundsPlaying = s.m_SoundsPlaying ∧
    ((sweepPlaying ctx ids s).2.2).m_Minions = s.m_Minions ∧
    ((sweepPlaying ctx ids s).2.2).g_InitialVolume = s.g_InitialVolume ∧
    ((sweepPlaying ctx ids s).2.2).g_InitialVolumeChanged = s.g_InitialVolumeChanged ∧
    ((sweepPlaying ctx ids s).2.2).buffers = s.buffers := by
  obtain ⟨tr, h⟩ := sweepPlaying_state ctx ids s
  rw [h]
  exact ⟨rfl, rfl, rfl, rfl, rfl, rfl, rfl, rfl, rfl, rfl, rfl⟩

@[simp] theorem repositionMinion_fields (ctx : CKContext) (dev : FrameDevice) (m : SoundMinion)
    (s : DX8SoundManager) :
    ((repositionMinion ctx dev m s).2).m_Root = s.m_Root ∧
    ((repositionMinion ctx dev m s).2).m_Primary = s.m_Primary ∧
    ((repositionMinion ctx dev m s).2).m_Listener = s.m_Listener ∧
    ((repositionMinion ctx dev m s).2).m_bInitialized = s.m_bInitialized ∧
    ((repositionMinion ctx dev m s).2).m_LastListenerPosition = s.m_LastListenerPosition ∧
    ((repositionMinion ctx dev m s).2).m_bCriticalSectionInitialized = s.m_bCriticalSectionInitialized ∧
    ((repositionMinion ctx dev m s).2).m_SoundsPlaying = s.m_SoundsPlaying ∧
    ((repositionMinion ctx dev m s).2).m_Minions = s.m_Minions ∧
    ((repositionMinion ctx dev m s).2).g_InitialVolume = s.g_InitialVolume ∧
    ((repositionMinion ctx dev m s).2).g_InitialVolumeChanged = s.g_InitialVolumeChanged ∧
    ((repositionMinion ctx dev m s).2).buffers = s.buffers := by
  unfold repositionMinion
  split_ifs
  · split <;> simp
  · simp

theorem sweepMinions_fields (ctx : CKContext) (dev : FrameDevice)
    (ms : List (Option SoundMinion)) (s : DX8SoundManager)
    (r : List (Option SoundMinion) × Bool × DX8SoundManager)
    (h : sweepMinions ctx dev ms s = some r) :
    (r.2.2).m_Root = s.m_Root ∧
    (r.2.2).m_Primary = s.m_Primary ∧
    (r.2.2).m_Listener = s.m_Listener ∧
    (r.2.2).m_bInitialized = s.m_bInitialized ∧
    (r.2.2).m_LastListenerPosition = s.m_LastListenerPosition ∧
    (r.2.2).m_bCriticalSectionInitialized = s.m_bCriticalSectionInitialized ∧
    (r.2.2).m_SoundsPlaying = s.m_SoundsPlaying ∧
    (r.2.2).m_Minions = s.m_Minions ∧
    (r.2.2).g_InitialVolume = s.g_InitialVolume ∧
    (r.2.2).g_InitialVolumeChanged = s.g_InitialVolumeChanged ∧
    (r.2.2).buffers = s.buffers := by
  induction ms generalizing s r with
  | nil =>
    simp only [sweepMinions, Option.some.injEq] at h
    subst h
    exact ⟨rfl, rfl, rfl, rfl, rfl, rfl, rfl, rfl, rfl, rfl, rfl⟩
  | cons e rest ih =>
    cases e with
    | none => simp [sweepMinions] at h
    | some m =>
      unfold sweepMinions at h
      simp only at h
      split_ifs at h with hp
      · obtain ⟨r1, hr1, rfl⟩ := Option.map_eq_some'.mp h
        have := ih _ r1 hr1
        simpa using this
      · obtain ⟨r1, hr1, rfl⟩ := Option.map_eq_some'.mp h
        have := ih _ r1 hr1
        simpa using this

theorem reapMinions_fields (dev : FrameDevice) (ms : List (Option SoundMinion))
    (s : DX8SoundManager) :
    ((reapMinions dev ms s).2).m_Root = s.m_Root ∧
    ((reapMinions dev ms s).2).m_Primary = s.m_Primary ∧
    ((reapMinions dev ms s).2).m_Listener = s.m_Listener ∧
    ((reapMinions dev ms s).2).m_bInitialized = s.m_bInitialized ∧
    ((reapMinions dev ms s).2).m_LastListenerPosition = s.m_LastListenerPosition ∧
    ((reapMinions dev ms s).2).m_bCriticalSectionInitialized = s.m_bCriticalSectionInitialized ∧
    ((reapMinions dev ms s).2).m_SoundsPlaying = s.m_SoundsPlaying ∧
    ((reapMinions dev ms s).2).m_Minions = s.m_Minions ∧
    ((reapMinions dev ms s).2).g_InitialVolume = s.g_InitialVolume ∧
    ((reapMinions dev ms s).2).g_InitialVolumeChanged = s.g_InitialVolumeChanged := by
  induction ms generalizing s with
  | nil => exact ⟨rfl, rfl, rfl, rfl, rfl, rfl, rfl, rfl, rfl, rfl⟩
  | cons e rest ih =>
    cases e with
    | none => simpa [reapMinions] using ih s
    | some m =>
      unfold reapMinions
      simp only
      split_ifs
      · simpa using ih (IsPlaying dev m.m_Source s).2
      · simpa using ih (ReleaseSource m.m_Source (IsPlaying dev m.m_Source s).2)

@[simp] theorem ProcessMinions_fields (dev : FrameDevice) (s : DX8SoundManager) :
    (ProcessMinions dev s).m_Root = s.m_Root ∧
    (ProcessMinions dev s).m_Primary = s.m_Primary ∧
    (ProcessMinions dev s).m_Listener = s.m_Listener ∧
    (ProcessMinions dev s).m_bInitialized = s.m_bInitialized ∧
    (ProcessMinions dev s).m_LastListenerPosition = s.m_LastListenerPosition ∧
    (ProcessMinions dev s).m_bCriticalSectionInitialized = s.m_bCriticalSectionInitialized ∧
    (ProcessMinions dev s).m_SoundsPlaying = s.m_SoundsPlaying ∧
    (ProcessMinions dev s).g_InitialVolume = s.g_InitialVolume ∧
    (ProcessMinions dev s).g_InitialVolumeChanged = s.g_InitialVolumeChanged := by
  have h := reapMinions_fields dev s.m_Minions s
  simp [ProcessMinions, h]

theorem ProcessMinions_nil (dev : FrameDevice) (s : DX8SoundManager) (h : s.m_Minions = []) :
    (ProcessMinions dev s).m_Minions = [] := by
  simp [ProcessMinions, h, reapMinions]

theorem updateListener_fields (ctx : CKContext) (b : Bool) (s t : DX8SoundManager)
    (h : updateListener ctx b s = some t) :
    (t).m_Root = s.m_Root ∧
    (t).m_Primary = s.m_Primary ∧
    (t).m_Listener = s.m_Listener ∧
    (t).m_bInitialized = s.m_bInitialized ∧
    (t).m_bCriticalSectionInitialized = s.m_bCriticalSectionInitialized ∧
    (t).m_SoundsPlaying = s.m_SoundsPlaying ∧
    (t).m_Minions = s.m_Minions ∧
    (t).g_InitialVolume = s.g_InitialVolume ∧
    (t).g_InitialVolumeChanged = s.g_InitialVolumeChanged ∧
    (t).buffers = s.buffers := by
  unfold updateListener at h
  split_ifs at h
  · split at h
    · split at h
      · simp only [Option.some.injEq] at h
        subst h
        simp
      · simp at h
    · simp only [Option.some.injEq] at h
      subst h
      simp
  · simp only [Option.some.injEq] at h
    subst h
    simp

theorem updateListener_total (ctx : CKContext) (b : Bool) (s : DX8SoundManager)
    (h : s.m_Listener ≠ none) : ∃ t, updateListener ctx b s = some t := by
  unfold updateListener
  split_ifs
  · split
    · split
      · exact ⟨_, rfl⟩
      · contradiction
    · exact ⟨_, rfl⟩
  · exact ⟨_, rfl⟩

/-- A `PostProcess` that completes returns `CK_OK` and keeps the device pointers, the
initialised flag and the two globals. -/
theorem PostProcess_fields (ctx : CKContext) (dev : FrameDevice) (s : DX8SoundManager)
    (r : CKERROR × DX8SoundManager) (h : PostProcess ctx dev s = some r) :
    r.1 = CK_OK ∧
    (r.2).m_Root = s.m_Root ∧
    (r.2).m_Primary = s.m_Primary ∧
    (r.2).m_Listener = s.m_Listener ∧
    (r.2).m_bInitialized = s.m_bInitialized ∧
    (r.2).m_bCriticalSectionInitialized = s.m_bCriticalSectionInitialized ∧
    (r.2).g_InitialVolume = s.g_InitialVolume ∧
    (r.2).g_InitialVolumeChanged = s.g_InitialVolumeChanged := by
  unfold PostProcess at h
  split_ifs at h with hv
  · simp only [Option.some.injEq] at h
    subst h
    simp
  · simp only at h
    split at h
    · simp at h
    · rename_i q hq
      have hq' := sweepMinions_fields _ _ _ _ _ hq
      split at h
      · simp at h
      · rename_i s4 hs4
        have h4 := updateListener_fields _ _ _ _ hs4
        simp only [Option.some.injEq] at h
        subst h
        simp only [LeaveCriticalSection_fields, ProcessMinions_fields, true_and]
        split <;> simp_all

/-- With an empty minion pool and a listener whenever DirectSound is valid,
`PostProcess` completes and the pool stays empty. -/
theorem PostProcess_total (ctx : CKContext) (dev : FrameDevice) (s : DX8SoundManager)
    (hm : s.m_Minions = []) (hl : ValidateDirectSound s = true → s.m_Listener ≠ none) :
    ∃ t, PostProcess ctx dev s = some (CK_OK, t) ∧ t.m_Minions = [] := by
  unfold PostProcess
  by_cases hv : ValidateDirectSound s = true
  · simp only [hv, Bool.not_true, Bool.false_eq_true, if_false]
    simp only [sweepPlaying_fields, EnterCriticalSection_fields, hm, sweepMinions]
    split
    · rename_i hnone
      have hne : ∀ b X, X.m_Listener = s.m_Listener → updateListener ctx b X ≠ none := by
        intro b X hX hcon
        obtain ⟨t, ht⟩ := updateListener_total ctx b X (by rw [hX]; exact hl hv)
        rw [ht] at hcon
        cases hcon
      exact absurd hnone (hne _ _ rfl)
    · rename_i s4 hs4
      refine ⟨_, rfl, ?_⟩
      have h4 := updateListener_fields _ _ _ _ hs4
      rw [(LeaveCriticalSection_fields _).2.2.2.2.2.2.2.1]
      apply ProcessMinions_nil
      split <;> simp [h4]
  · simp only [hv, Bool.not_false, if_true]
    exact ⟨s, rfl, hm⟩

theorem LifecycleCall_run_inv (c : LifecycleCall) (s : DX8SoundManager)
    (h : handlesConsistent s ∧ s.m_Minions = []) :
    handlesConsistent (c.run s).2 ∧ (c.run s).2.m_Minions = [] := by
  obtain ⟨hc, hm⟩ := h
  cases c with
  | onCKInit ctx dev =>
    refine ⟨?_, by rw [LifecycleCall.run, OnCKInit_minions, hm]⟩
    by_cases hd : ctx.disabledSound = true
    · rw [LifecycleCall.run, OnCKInit_disabled ctx dev s hd]
      exact hc
    · rcases OnCKInit_cases ctx dev s (by simpa using hd) with h | h
      · right
        obtain ⟨-, -, h1, h2, h3, -⟩ := h
        simp [LifecycleCall.run, h1, h2, h3]
      · left
        obtain ⟨-, -, h1, h2, h3, -⟩ := h
        exact ⟨h1, h2, h3⟩
  | onCKEnd ctx =>
    by_cases hd : ctx.disabledSound = true
    · rw [LifecycleCall.run, OnCKEnd_disabled ctx s hd]
      exact ⟨hc, hm⟩
    · obtain ⟨-, h1, h2, h3, -, h5⟩ := OnCKEnd_enabled ctx s (by simpa using hd)
      exact ⟨Or.inl ⟨h1, h2, h3⟩, by rw [LifecycleCall.run, h5, hm]⟩
  | onCKReset ctx dev =>
    have hf := OnCKReset_fields ctx dev s
    refine ⟨?_, ?_⟩
    · simpa [handlesConsistent, LifecycleCall.run, hf.1, hf.2.1, hf.2.2.1] using hc
    · rcases OnCKReset_minions ctx dev s with h | h
      · exact h
      · rw [LifecycleCall.run, h, hm]

theorem runCalls_inv (calls : List Call) (s : DX8SoundManager)
    (h : handlesConsistent s ∧ s.m_Minions = []) :
    ∃ t, runCalls s calls = some t ∧ handlesConsistent t ∧ t.m_Minions = [] := by
  induction calls generalizing s with
  | nil => exact ⟨s, rfl, h⟩
  | cons c rest ih =>
    cases c with
    | lifecycle c =>
      simpa [runCalls, Call.run] using ih _ (LifecycleCall_run_inv c s h)
    | postProcess ctx dev =>
      have hl : ValidateDirectSound s = true → s.m_Listener ≠ none := by
        intro hv
        rcases h.1 with ⟨h1, -, -⟩ | ⟨-, -, h3⟩
        · simp [ValidateDirectSound, h1] at hv
        · exact h3
      obtain ⟨t, ht, hmt⟩ := PostProcess_total ctx dev s h.2 hl
      have hf := PostProcess_fields ctx dev s _ ht
      have hct : handlesConsistent t := by
        unfold handlesConsistent
        rw [show t.m_Root = s.m_Root from hf.2.1, show t.m_Primary = s.m_Primary from hf.2.2.1,
          show t.m_Listener = s.m_Listener from hf.2.2.2.1]
        exact h.1
      simpa [runCalls, Call.run, ht] using ih t ⟨hct, hmt⟩

/-! ## The claims on the lifecycle -/

/-- Claim C8.  With the `DisableSound` start option set, `OnCKInit` and `OnCKEnd` return
`CK_OK` and hand back the manager as it was: every field, the device buffers and the
trace of outgoing calls are unchanged. -/
theorem disabled_sound_init_end_noop (ctx ctx2 : CKContext) (dev : InitDevice)
    (s : DX8SoundManager) (h : ctx.disabledSound = true) (h2 : ctx2.disabledSound = true) :
    OnCKInit ctx dev s = (CK_OK, s) ∧ OnCKEnd ctx2 s = (CK_OK, s) :=
  ⟨OnCKInit_disabled ctx dev s h, OnCKEnd_disabled ctx2 s h2⟩

/-- Witness of C8: the disabled host on an initialised manager. -/
theorem disabled_sound_init_end_noop_witness :
    disabledContext.disabledSound = true ∧
    OnCKInit disabledContext deviceOk (OnCKInit sampleContext deviceOk freshManager).2 =
      (CK_OK, (OnCKInit sampleContext deviceOk freshManager).2) ∧
    OnCKEnd disabledContext (OnCKInit sampleContext deviceOk freshManager).2 =
      (CK_OK, (OnCKInit sampleContext deviceOk freshManager).2) :=
  ⟨rfl, disabled_sound_init_end_noop disabledContext disabledContext deviceOk
    (OnCKInit sampleContext deviceOk freshManager).2 rfl rfl⟩

/-! ## The claims on source creation -/

/-- Claim C9, counterexample.  With `DisableSound` set and the host outside interface
mode, `CreateSource` returns null and leaves the manager and its trace as they were: the
message "Cannot create sound: Sound disabled" is not output. -/
theorem disabled_CreateSource_can_be_silent :
    disabledContext.disabledSound = true ∧
    CreateSource disabledContext createOk CK_WAVESOUND_BACKGROUND (some sampleFormat) 44100
      false freshManager = (none, freshManager) ∧
    Event.outputToConsole "Cannot create sound: Sound disabled" ∉
      (CreateSource disabledContext createOk CK_WAVESOUND_BACKGROUND (some sampleFormat) 44100
        false freshManager).2.trace := by
  refine ⟨rfl, rfl, ?_⟩
  simp [CreateSource, disabledContext, sampleContext, freshManager,
    DX8SoundManager.construct]

/-- Claim C9, amended.  With `DisableSound` set, every `CreateSource` call returns null
and leaves the device buffers and every field of the manager unchanged; the console
message "Cannot create sound: Sound disabled" is output exactly when the format pointer
is non-null, the size is non-zero and the host is in interface mode, and nothing else is
output. -/
theorem CreateSource_disabled (ctx : CKContext) (dev : CreateDevice) (type : Nat)
    (wf : Option CKWaveFormat) (bytes : Nat) (streamed : Bool) (s : DX8SoundManager)
    (h : ctx.disabledSound = true) :
    CreateSource ctx dev type wf bytes streamed s =
      (none,
        if wf.isSome && bytes != 0 && ctx.interfaceMode then
          emit (Event.outputToConsole "Cannot create sound: Sound disabled") s
        else s) ∧
    (CreateSource ctx dev type wf bytes streamed s).2.buffers = s.buffers := by
  cases wf with
  | none => simp [CreateSource]
  | some fmt =>
    by_cases hb : bytes = 0
    · simp [CreateSource, hb]
    · by_cases hi : ctx.interfaceMode = true
      · simp [CreateSource, hb, h, hi]
      · simp [CreateSource, hb, h, hi]

/-- Witness of C9 (amended): the disabled host in interface mode outputs the message. -/
theorem CreateSource_disabled_witness :
    disabledInterfaceContext.disabledSound = true ∧
    CreateSource disabledInterfaceContext createOk CK_WAVESOUND_POINT (some sampleFormat)
      44100 false freshManager =
      (none, emit (Event.outputToConsole "Cannot create sound: Sound disabled")
        freshManager) :=
  ⟨rfl, (CreateSource_disabled disabledInterfaceContext createOk CK_WAVESOUND_POINT
    (some sampleFormat) 44100 false freshManager rfl).1⟩

theorem sourceFlags_background :
    sourceFlags CK_WAVESOUND_BACKGROUND &&& DSBCAPS_CTRLPAN ≠ 0 ∧
    sourceFlags CK_WAVESOUND_BACKGROUND &&& DSBCAPS_CTRL3D = 0 ∧
    (sourceFlags CK_WAVESOUND_BACKGROUND ||| DSBCAPS_LOCHARDWARE) &&& DSBCAPS_CTRL3D = 0 ∧
    (sourceFlags CK_WAVESOUND_BACKGROUND ||| DSBCAPS_LOCSOFTWARE) &&& DSBCAPS_CTRL3D = 0 := by
  decide

theorem sourceFlags_point :
    sourceFlags CK_WAVESOUND_POINT &&& DSBCAPS_CTRLPAN = 0 ∧
    sourceFlags CK_WAVESOUND_POINT &&& DSBCAPS_CTRL3D ≠ 0 ∧
    (sourceFlags CK_WAVESOUND_POINT ||| DSBCAPS_LOCHARDWARE) &&& DSBCAPS_CTRL3D ≠ 0 ∧
    (sourceFlags CK_WAVESOUND_POINT ||| DSBCAPS_LOCSOFTWARE) &&& DSBCAPS_CTRL3D ≠ 0 := by
  decide

/-- What a successful `CreateSource` did: DirectSound was valid, the buffer is the
object the device handed out, and the device holds it with the flags asked for. -/
theorem CreateSource_success (ctx : CKContext) (dev : CreateDevice) (type : Nat)
    (wf : Option CKWaveFormat) (bytes : Nat) (streamed : Bool) (s s' : DX8SoundManager)
    (b : Handle) (h : CreateSource ctx dev type wf bytes streamed s = (some b, s')) :
    ∃ root fmt, s.m_Root = some root ∧ wf = some fmt ∧ bytes ≠ 0 ∧
      Event.createSoundBuffer root (sourceFlags type) bytes dev.create.hr ∈ s'.trace ∧
      s'.buffers.lookup b = some (SoundBuffer.create (sourceFlags type |||
        (if dev.locHardware then DSBCAPS_LOCHARDWARE else DSBCAPS_LOCSOFTWARE)) bytes fmt) := by
  unfold CreateSource at h
  cases wf with
  | none => simp at h
  | some fmt =>
    by_cases hb : bytes = 0
    · simp [hb] at h
    by_cases hd : ctx.disabledSound = true
    · simp [hb, hd] at h
    cases hroot : s.m_Root with
    | none => simp [hb, hd, hroot] at h
    | some root =>
      cases hprim : s.m_Primary with
      | none => simp [hb, hd, hroot, hprim] at h
      | some p =>
        by_cases hc : FAILED dev.create.hr = true
        · simp [hb, hd, hroot, hprim, hc] at h
        by_cases hf : FAILED dev.setFrequency = true
        · simp [hb, hd, hroot, hprim, hc, hf] at h
        simp only [hb, hd, hroot, hprim, hc, hf, if_false, Bool.false_eq_true, Prod.mk.injEq,
          Option.some.injEq] at h
        obtain ⟨rfl, rfl⟩ := h
        exact ⟨root, fmt, rfl, rfl, hb, by simp, by simp⟩

/-- Claim C10, counterexample.  A point source is created on an initialised manager and
the device hands out the buffer 200.  The `GetCaps` call of `GetType` fails with `E_FAIL`
and `GetType` answers `CK_WAVESOUND_BACKGROUND`, not the kind passed to `CreateSource`. -/
theorem GetType_after_failed_GetCaps :
    CreateSource sampleContext createOk CK_WAVESOUND_POINT (some sampleFormat) 44100 false
      initialisedManager =
      (some 200, (CreateSource sampleContext createOk CK_WAVESOUND_POINT (some sampleFormat)
        44100 false initialisedManager).2) ∧
    SUCCEEDED E_FAIL = false ∧
    (GetType E_FAIL (some 200) (CreateSource sampleContext createOk CK_WAVESOUND_POINT
      (some sampleFormat) 44100 false initialisedManager).2).1 = CK_WAVESOUND_BACKGROUND ∧
    (GetType E_FAIL (some 200) (CreateSource sampleContext createOk CK_WAVESOUND_POINT
      (some sampleFormat) 44100 false initialisedManager).2).1 ≠ CK_WAVESOUND_POINT :=
  ⟨rfl, rfl, rfl, by decide⟩

/-- Claim C10, amended.  When `CreateSource` returns a buffer for the kind Background or
Point, `GetType` of that buffer is the kind passed whenever its `GetCaps` call succeeds,
and `CK_WAVESOUND_BACKGROUND` whenever that call fails: the buffer was created through
`m_Root` with the flags of `sourceFlags`, which hold `DSBCAPS_CTRLPAN` exactly for
Background and `DSBCAPS_CTRL3D` exactly otherwise, and `GetType` reads the 3D flag back
from the answer of `GetCaps`. -/
theorem GetType_of_created_source (ctx : CKContext) (dev : CreateDevice) (type : Nat)
    (wf : Option CKWaveFormat) (bytes : Nat) (streamed : Bool) (s s' : DX8SoundManager)
    (b : Handle) (hr : HRESULT)
    (hcreate : CreateSource ctx dev type wf bytes streamed s = (some b, s'))
    (hkind : type = CK_WAVESOUND_BACKGROUND ∨ type = CK_WAVESOUND_POINT) :
    (GetType hr (some b) s').1 = (if SUCCEEDED hr then type else CK_WAVESOUND_BACKGROUND) ∧
    (sourceFlags type &&& DSBCAPS_CTRLPAN ≠ 0 ↔ type = CK_WAVESOUND_BACKGROUND) ∧
    (sourceFlags type &&& DSBCAPS_CTRL3D ≠ 0 ↔ type ≠ CK_WAVESOUND_BACKGROUND) ∧
    ∃ root, s.m_Root = some root ∧
      Event.createSoundBuffer root (sourceFlags type) bytes dev.create.hr ∈ s'.trace := by
  obtain ⟨root, fmt, hroot, -, -, hev, hbuf⟩ :=
    CreateSource_success ctx dev type wf bytes streamed s s' b hcreate
  have hbg := sourceFlags_background
  have hpt := sourceFlags_point
  have hne : CK_WAVESOUND_POINT ≠ CK_WAVESOUND_BACKGROUND := by decide
  refine ⟨?_, ?_, ?_, root, hroot, hev⟩
  · by_cases hcaps : SUCCEEDED hr = true
    · simp only [GetType, hcaps, if_true, hbuf]
      rcases hkind with rfl | rfl <;> cases dev.locHardware <;>
        simp [hbg, hpt, SoundBuffer.create]
    · simp [GetType, hcaps]
  · rcases hkind with rfl | rfl
    · simp [hbg]
    · simp [hpt, hne]
  · rcases hkind with rfl | rfl
    · simp [hbg]
    · simp [hpt, hne]

/-- Witness of C10: a point source created on an initialised manager, read back with a
`GetCaps` that succeeds. -/
theorem GetType_of_created_source_witness :
    CreateSource sampleContext createOk CK_WAVESOUND_POINT (some sampleFormat) 44100 false
      initialisedManager =
      (some 200, (CreateSource sampleContext createOk CK_WAVESOUND_POINT (some sampleFormat)
        44100 false initialisedManager).2) ∧
    (GetType S_OK (some 200) (CreateSource sampleContext createOk CK_WAVESOUND_POINT
      (some sampleFormat) 44100 false initialisedManager).2).1 = CK_WAVESOUND_POINT :=
  ⟨rfl, (GetType_of_created_source sampleContext createOk CK_WAVESOUND_POINT
    (some sampleFormat) 44100 false initialisedManager _ 200 S_OK rfl (Or.inr rfl)).1⟩

/-! ## Error mapping, scene changes and the frame loop: auxiliary facts -/

theorem emit_ne (e : Event) (s : DX8SoundManager) : emit e s ≠ s := by
  intro h
  have := congrArg (fun x => x.trace.length) h
  simp at this

theorem extendsTrace_refl (P : Event → Prop) (s : DX8SoundManager) : extendsTrace P s s :=
  ⟨[], by simp, by simp⟩

theorem extendsTrace_trans {P : Event → Prop} {s t u : DX8SoundManager}
    (h1 : extendsTrace P s t) (h2 : extendsTrace P t u) : extendsTrace P s u := by
  obtain ⟨a, ha, hPa⟩ := h1
  obtain ⟨b, hb, hPb⟩ := h2
  refine ⟨a ++ b, by rw [hb, ha, List.append_assoc], ?_⟩
  intro e he
  rcases List.mem_append.mp he with h | h
  · exact hPa e h
  · exact hPb e h

theorem extendsTrace_emit {P : Event → Prop} (e : Event) (s : DX8SoundManager) (h : P e) :
    extendsTrace P s (emit e s) :=
  ⟨[e], rfl, by simpa using h⟩

theorem extendsTrace_of_trace_eq {P : Event → Prop} {s t u : DX8SoundManager}
    (h : extendsTrace P s t) (hu : u.trace = t.trace) : extendsTrace P s u := by
  obtain ⟨a, ha, hPa⟩ := h
  exact ⟨a, by rw [hu, ha], hPa⟩

theorem ReleaseSource_extends (P : Event → Prop) (hstop : ∀ b, P (Event.stop b))
    (hrel : ∀ b, P (Event.release b)) (source : Option Handle) (s : DX8SoundManager) :
    extendsTrace P s (ReleaseSource source s) := by
  cases source with
  | none => exact extendsTrace_refl P s
  | some b =>
    exact extendsTrace_of_trace_eq
      (extendsTrace_trans (extendsTrace_emit (Event.stop b) s (hstop b))
        (extendsTrace_emit (Event.release b) _ (hrel b))) rfl

theorem Stop_extends (P : Event → Prop) (hstop : ∀ b, P (Event.stop b))
    (hpos : ∀ b n, P (Event.setCurrentPosition b n)) (w : Option CK_ID)
    (source : Option Handle) (s : DX8SoundManager) :
    extendsTrace P s (Stop w source s) := by
  cases source with
  | none => exact extendsTrace_refl P s
  | some b =>
    exact extendsTrace_trans (extendsTrace_emit (Event.stop b) s (hstop b))
      (extendsTrace_emit (Event.setCurrentPosition b _) _ (hpos b _))

@[simp] theorem Stop_fields (w : Option CK_ID) (source : Option Handle) (s : DX8SoundManager) :
    (Stop w source s).m_Root = s.m_Root ∧
    (Stop w source s).m_Primary = s.m_Primary ∧
    (Stop w source s).m_Listener = s.m_Listener ∧
    (Stop w source s).m_bInitialized = s.m_bInitialized ∧
    (Stop w source s).m_LastListenerPosition = s.m_LastListenerPosition ∧
    (Stop w source s).m_bCriticalSectionInitialized = s.m_bCriticalSectionInitialized ∧
    (Stop w source s).m_SoundsPlaying = s.m_SoundsPlaying ∧
    (Stop w source s).m_Minions = s.m_Minions ∧
    (Stop w source s).g_InitialVolume = s.g_InitialVolume ∧
    (Stop w source s).g_InitialVolumeChanged = s.g_InitialVolumeChanged ∧
    (Stop w source s).buffers = s.buffers := by
  cases source with
  | none => exact ⟨rfl, rfl, rfl, rfl, rfl, rfl, rfl, rfl, rfl, rfl, rfl⟩
  | some b => exact ⟨rfl, rfl, rfl, rfl, rfl, rfl, rfl, rfl, rfl, rfl, rfl⟩

theorem pauseOutsideScene_eq (ctx : CKContext) (scene : CK_ID) (ids : List CK_ID)
    (s : DX8SoundManager) :
    pauseOutsideScene ctx scene ids s =
      { s with trace := s.trace ++ (ids.filter (ctx.outsideScene scene)).map Event.wsPause } := by
  induction ids generalizing s with
  | nil => simp [pauseOutsideScene]
  | cons id rest ih =>
    unfold pauseOutsideScene
    cases hg : ctx.getObject id with
    | none => simp [ih, CKContext.outsideScene, hg]
    | some ws =>
      by_cases hi : ws.inScene scene = true
      · simp [ih, CKContext.outsideScene, hg, hi]
      · simp [ih, CKContext.outsideScene, hg, hi, emit]

theorem stopMinionsOutsideScene_kept (ctx : CKContext) (scene : CK_ID)
    (ms : List (Option SoundMinion)) (s : DX8SoundManager) :
    (stopMinionsOutsideScene ctx scene ms s).1 =
      ms.filter (fun e =>
        match e with
        | some m =>
          (match ctx.getObject m.m_OriginalSound with
           | some o => o.inScene scene
           | none => false)
        | none => false) := by
  induction ms generalizing s with
  | nil => rfl
  | cons e rest ih =>
    cases e with
    | none => simp [stopMinionsOutsideScene, ih]
    | some m =>
      unfold stopMinionsOutsideScene
      cases hg : ctx.getObject m.m_OriginalSound with
      | none => simp [ih, hg, List.filter_cons]
      | some o =>
        by_cases hi : o.inScene scene = true
        · simp [ih, hg, hi, List.filter_cons]
        · simp [ih, hg, hi, List.filter_cons]

theorem stopMinionsOutsideScene_extends (P : Event → Prop) (hstop : ∀ b, P (Event.stop b))
    (hrel : ∀ b, P (Event.release b)) (hpos : ∀ b n, P (Event.setCurrentPosition b n))
    (ctx : CKContext) (scene : CK_ID) (ms : List (Option SoundMinion)) (s : DX8SoundManager) :
    extendsTrace P s (stopMinionsOutsideScene ctx scene ms s).2 ∧
    (stopMinionsOutsideScene ctx scene ms s).2.m_SoundsPlaying = s.m_SoundsPlaying := by
  induction ms generalizing s with
  | nil => exact ⟨extendsTrace_refl P s, rfl⟩
  | cons e rest ih =>
    cases e with
    | none => simpa [stopMinionsOutsideScene] using ih s
    | some m =>
      unfold stopMinionsOutsideScene
      simp only
      split_ifs with hk
      · exact ih s
      · have h := ih (ReleaseSource m.m_Source (Stop none m.m_Source s))
        refine ⟨extendsTrace_trans
          (extendsTrace_trans (Stop_extends P hstop hpos none m.m_Source s)
            (ReleaseSource_extends P hstop hrel m.m_Source _)) h.1, ?_⟩
        rw [h.2]
        simp

theorem purgePlaying_kept (ctx : CKContext) (ids : List CK_ID) (s : DX8SoundManager) :
    (purgePlaying ctx ids s).1 = ids.filter ctx.alive := by
  induction ids generalizing s with
  | nil => rfl
  | cons id rest ih =>
    unfold purgePlaying
    cases hg : ctx.getObject id with
    | none => simp [ih, CKContext.alive, hg]
    | some ws =>
      by_cases hd : ws.toBeDeleted = true
      · simp [ih, CKContext.alive, hg, hd]
      · simp [ih, CKContext.alive, hg, hd]

theorem purgePlaying_state (ctx : CKContext) (ids : List CK_ID) (s : DX8SoundManager) :
    ∃ tr, (purgePlaying ctx ids s).2 = { s with trace := tr } := by
  induction ids generalizing s with
  | nil => exact ⟨s.trace, rfl⟩
  | cons id rest ih =>
    unfold purgePlaying
    cases ctx.getObject id with
    | none => exact ih s
    | some ws =>
      simp only
      split_ifs
      · obtain ⟨tr, h⟩ := ih (emit (Event.wsStop id) s)
        exact ⟨tr, by rw [h]; rfl⟩
      · exact ih s

theorem sweepPlaying_kept (ctx : CKContext) (ids : List CK_ID) (s : DX8SoundManager) :
    (sweepPlaying ctx ids s).1 =
      ids.filter (fun id =>
        match ctx.getObject id with
        | some ws => ws.isPlaying
        | none => false) := by
  induction ids generalizing s with
  | nil => rfl
  | cons id rest ih =>
    unfold sweepPlaying
    cases hg : ctx.getObject id with
    | none => simp [ih, hg]
    | some ws =>
      by_cases hp : ws.isPlaying = true
      · simp [ih, hg, hp]
      · simp [ih, hg, hp]

theorem sweepMinions_null (ctx : CKContext) (dev : FrameDevice)
    (ms : List (Option SoundMinion)) (s : DX8SoundManager) (h : none ∈ ms) :
    sweepMinions ctx dev ms s = none := by
  induction ms generalizing s with
  | nil => simp at h
  | cons e rest ih =>
    cases e with
    | none => rfl
    | some m =>
      have hr : none ∈ rest := by simpa using h
      unfold sweepMinions
      simp only
      split_ifs
      · rw [ih _ hr]; rfl
      · rw [ih _ hr]; rfl

/-- A `PostProcess` that completes on a manager with valid DirectSound keeps in the
registry exactly the ids that resolve to a sound reporting `IsPlaying`, in order. -/
theorem PostProcess_registry (ctx : CKContext) (dev : FrameDevice) (s : DX8SoundManager)
    (r : CKERROR × DX8SoundManager) (hv : ValidateDirectSound s = true)
    (h : PostProcess ctx dev s = some r) :
    r.2.m_SoundsPlaying =
      s.m_SoundsPlaying.filter (fun id =>
        match ctx.getObject id with
        | some ws => ws.isPlaying
        | none => false) := by
  unfold PostProcess at h
  simp only [hv, Bool.not_true, Bool.false_eq_true, if_false] at h
  split at h
  · simp at h
  · rename_i q hq
    have hq' := sweepMinions_fields _ _ _ _ _ hq
    split at h
    · simp at h
    · rename_i s4 hs4
      have h4 := updateListener_fields _ _ _ _ hs4
      simp only [Option.some.injEq] at h
      subst h
      simp only [LeaveCriticalSection_fields, ProcessMinions_fields]
      have : s4.m_SoundsPlaying =
          (sweepPlaying ctx (EnterCriticalSection s).m_SoundsPlaying (EnterCriticalSection s)).1 := by
        rw [h4.2.2.2.2.2.1]
        simp only []
        rw [hq'.2.2.2.2.2.2.1]
      split <;> simp_all [sweepPlaying_kept]

theorem deviceCallsOnly_refl (P : Event → Prop) (s : DX8SoundManager) :
    deviceCallsOnly P s s :=
  ⟨s.buffers, [], by simp, by simp⟩

theorem deviceCallsOnly_trans {P : Event → Prop} {s t u : DX8SoundManager}
    (h1 : deviceCallsOnly P s t) (h2 : deviceCallsOnly P t u) : deviceCallsOnly P s u := by
  obtain ⟨b1, a, rfl, hPa⟩ := h1
  obtain ⟨b2, b, rfl, hPb⟩ := h2
  refine ⟨b2, a ++ b, by simp [List.append_assoc], ?_⟩
  intro e he
  rcases List.mem_append.mp he with h | h
  · exact hPa e h
  · exact hPb e h

theorem deviceCallsOnly_emit {P : Event → Prop} (e : Event) (s : DX8SoundManager) (h : P e) :
    deviceCallsOnly P s (emit e s) :=
  ⟨s.buffers, [e], rfl, by simpa using h⟩

theorem deviceCallsOnly_dropBuffer (P : Event → Prop) (b : Handle) (s : DX8SoundManager) :
    deviceCallsOnly P s (dropBuffer b s) :=
  ⟨s.buffers.filter (fun e => e.1 != b), [], by simp [dropBuffer], by simp⟩

theorem deviceCallsOnly_registry {P : Event → Prop} {s t : DX8SoundManager}
    (h : deviceCallsOnly P s t) (ids : List CK_ID) :
    deviceCallsOnly P { s with m_SoundsPlaying := ids } { t with m_SoundsPlaying := ids } := by
  obtain ⟨b, a, rfl, hPa⟩ := h
  exact ⟨b, a, rfl, hPa⟩

theorem deviceCallsOnly_pool {P : Event → Prop} {s t : DX8SoundManager}
    (h : deviceCallsOnly P s t) (ms : List (Option SoundMinion)) :
    deviceCallsOnly P { s with m_Minions := ms } { t with m_Minions := ms } := by
  obtain ⟨b, a, rfl, hPa⟩ := h
  exact ⟨b, a, rfl, hPa⟩

theorem deviceCallsOnly_Enter (P : Event → Prop) (h : P Event.enterCriticalSection)
    (s : DX8SoundManager) : deviceCallsOnly P s (EnterCriticalSection s) := by
  unfold EnterCriticalSection
  split_ifs
  · exact deviceCallsOnly_emit _ _ h
  · exact deviceCallsOnly_refl P s

theorem deviceCallsOnly_Leave (P : Event → Prop) (h : P Event.leaveCriticalSection)
    (s : DX8SoundManager) : deviceCallsOnly P s (LeaveCriticalSection s) := by
  unfold LeaveCriticalSection
  split_ifs
  · exact deviceCallsOnly_emit _ _ h
  · exact deviceCallsOnly_refl P s

theorem deviceCallsOnly_IsPlaying (P : Event → Prop) (h : ∀ b hr, P (Event.getStatus b hr))
    (dev : FrameDevice) (source : Option Handle) (s : DX8SoundManager) :
    deviceCallsOnly P s (IsPlaying dev source s).2 := by
  cases source with
  | none => exact deviceCallsOnly_refl P s
  | some b =>
    unfold IsPlaying
    simp only
    split_ifs
    · exact deviceCallsOnly_emit _ _ (h _ _)
    · exact deviceCallsOnly_emit _ _ (h _ _)

theorem deviceCallsOnly_ReleaseSource (P : Event → Prop) (hstop : ∀ b, P (Event.stop b))
    (hrel : ∀ b, P (Event.release b)) (source : Option Handle) (s : DX8SoundManager) :
    deviceCallsOnly P s (ReleaseSource source s) := by
  cases source with
  | none => exact deviceCallsOnly_refl P s
  | some b =>
    exact deviceCallsOnly_trans
      (deviceCallsOnly_trans (deviceCallsOnly_emit (Event.stop b) s (hstop b))
        (deviceCallsOnly_emit (Event.release b) _ (hrel b)))
      (deviceCallsOnly_dropBuffer P b _)

theorem sweepPlaying_idle (ctx : CKContext) (ids : List CK_ID) (s : DX8SoundManager)
    (h : ∀ id ∈ ids, ∀ ws, ctx.getObject id = some ws → ws.isPlaying = false) :
    sweepPlaying ctx ids s = ([], false, s) := by
  induction ids generalizing s with
  | nil => rfl
  | cons id rest ih =>
    have hrest : ∀ id ∈ rest, ∀ ws, ctx.getObject id = some ws → ws.isPlaying = false :=
      fun i hi => h i (List.mem_cons_of_mem _ hi)
    unfold sweepPlaying
    cases hg : ctx.getObject id with
    | none => exact ih s hrest
    | some ws =>
      have hp := h id (List.mem_cons_self _ _) ws hg
      simp only [hp, Bool.false_eq_true, if_false]
      exact ih s hrest

theorem sweepMinions_idle (P : Event → Prop) (hP : ∀ b hr, P (Event.getStatus b hr))
    (ctx : CKContext) (dev : FrameDevice) (ms : List (Option SoundMinion))
    (s : DX8SoundManager)
    (h : ∀ e ∈ ms, ∃ m, e = some m ∧ ∀ t, (IsPlaying dev m.m_Source t).1 = false) :
    ∃ t, sweepMinions ctx dev ms s = some (ms, false, t) ∧ deviceCallsOnly P s t := by
  induction ms generalizing s with
  | nil => exact ⟨s, rfl, deviceCallsOnly_refl P s⟩
  | cons e rest ih =>
    have hrest : ∀ e ∈ rest, ∃ m, e = some m ∧ ∀ t, (IsPlaying dev m.m_Source t).1 = false :=
      fun i hi => h i (List.mem_cons_of_mem _ hi)
    obtain ⟨m, rfl, hm⟩ := h e (List.mem_cons_self _ _)
    obtain ⟨t, ht, hdt⟩ := ih (IsPlaying dev m.m_Source s).2 hrest
    refine ⟨t, ?_, deviceCallsOnly_trans (deviceCallsOnly_IsPlaying P hP dev m.m_Source s) hdt⟩
    unfold sweepMinions
    simp only [hm s, Bool.false_eq_true, if_false, ht, Option.map_some']

theorem reapMinions_idle (P : Event → Prop) (hP : ∀ b hr, P (Event.getStatus b hr))
    (hstop : ∀ b, P (Event.stop b)) (hrel : ∀ b, P (Event.release b))
    (dev : FrameDevice) (ms : List (Option SoundMinion)) (s : DX8SoundManager)
    (h : ∀ e ∈ ms, ∃ m, e = some m ∧ ∀ t, (IsPlaying dev m.m_Source t).1 = false) :
    (reapMinions dev ms s).1 = [] ∧ deviceCallsOnly P s (reapMinions dev ms s).2 := by
  induction ms generalizing s with
  | nil => exact ⟨rfl, deviceCallsOnly_refl P s⟩
  | cons e rest ih =>
    have hrest : ∀ e ∈ rest, ∃ m, e = some m ∧ ∀ t, (IsPlaying dev m.m_Source t).1 = false :=
      fun i hi => h i (List.mem_cons_of_mem _ hi)
    obtain ⟨m, rfl, hm⟩ := h e (List.mem_cons_self _ _)
    have hi := ih (ReleaseSource m.m_Source (IsPlaying dev m.m_Source s).2) hrest
    unfold reapMinions
    simp only [hm s, Bool.false_eq_true, if_false]
    exact ⟨hi.1, deviceCallsOnly_trans
      (deviceCallsOnly_trans (deviceCallsOnly_IsPlaying P hP dev m.m_Source s)
        (deviceCallsOnly_ReleaseSource P hstop hrel m.m_Source _)) hi.2⟩

theorem deviceCallsOnly_commit (P : Event → Prop) (h : ∀ l, P (Event.commitDeferredSettings l))
    (s : DX8SoundManager) :
    deviceCallsOnly P s
      (match s.m_Listener with
       | some l => emit (Event.commitDeferredSettings l) s
       | none => s) := by
  cases s.m_Listener with
  | none => exact deviceCallsOnly_refl P s
  | some l => exact deviceCallsOnly_emit _ _ (h l)

theorem ProcessMinions_idle (P : Event → Prop) (hP : ∀ b hr, P (Event.getStatus b hr))
    (hstop : ∀ b, P (Event.stop b)) (hrel : ∀ b, P (Event.release b))
    (dev : FrameDevice) (s : DX8SoundManager)
    (h : ∀ e ∈ s.m_Minions, ∃ m, e = some m ∧ ∀ t, (IsPlaying dev m.m_Source t).1 = false) :
    deviceCallsOnly P { s with m_Minions := [] } (ProcessMinions dev s) := by
  have hr := reapMinions_idle P hP hstop hrel dev s.m_Minions s h
  unfold ProcessMinions
  simp only [hr.1]
  exact deviceCallsOnly_pool hr.2 []

theorem deviceCallsOnly_pool_eq {P : Event → Prop} {s t : DX8SoundManager}
    (h : deviceCallsOnly P s t) : t.m_Minions = s.m_Minions := by
  obtain ⟨b, a, rfl, -⟩ := h
  rfl

theorem deviceCallsOnly_listener_eq {P : Event → Prop} {s t : DX8SoundManager}
    (h : deviceCallsOnly P s t) : t.m_Listener = s.m_Listener := by
  obtain ⟨b, a, rfl, -⟩ := h
  rfl

/-- When no registry sound and no minion source is playing, `PostProcess` completes; it
empties the registry and the pool, and apart from that only changes the buffers of the
device and makes calls that are not listener pose writes. -/
theorem PostProcess_idle (ctx : CKContext) (dev : FrameDevice) (s : DX8SoundManager)
    (hv : ValidateDirectSound s = true)
    (hreg : ∀ id ∈ s.m_SoundsPlaying, ∀ ws, ctx.getObject id = some ws → ws.isPlaying = false)
    (hmin : ∀ e ∈ s.m_Minions, ∃ m, e = some m ∧ ∀ t, (IsPlaying dev m.m_Source t).1 = false) :
    ∃ t, PostProcess ctx dev s = some (CK_OK, t) ∧
      deviceCallsOnly (fun e => e.isListenerPoseWrite = false)
        { s with m_SoundsPlaying := [], m_Minions := [] } t := by
  have hE := deviceCallsOnly_registry
    (deviceCallsOnly_Enter (fun e => e.isListenerPoseWrite = false) rfl s) []
  obtain ⟨t2, ht2, hd2⟩ := sweepMinions_idle (fun e => e.isListenerPoseWrite = false)
    (fun _ _ => rfl) ctx dev s.m_Minions
    { EnterCriticalSection s with m_SoundsPlaying := [] } hmin
  have h02 := deviceCallsOnly_trans hE hd2
  have hpool : t2.m_Minions = s.m_Minions := by
    have h := deviceCallsOnly_pool_eq h02
    exact h
  have hcommit := deviceCallsOnly_commit (fun e => e.isListenerPoseWrite = false)
    (fun _ => rfl) t2
  have h05 := deviceCallsOnly_trans h02 hcommit
  have hpool5 := deviceCallsOnly_pool_eq h05
  have hPM := ProcessMinions_idle (fun e => e.isListenerPoseWrite = false)
    (fun _ _ => rfl) (fun _ => rfl) (fun _ => rfl) dev _
    (by rw [hpool5]; exact hmin)
  have hL := deviceCallsOnly_Leave (fun e => e.isListenerPoseWrite = false) rfl
    (ProcessMinions dev
      (match t2.m_Listener with
       | some l => emit (Event.commitDeferredSettings l) t2
       | none => t2))
  have hall := deviceCallsOnly_trans
    (deviceCallsOnly_trans (deviceCallsOnly_pool h05 []) hPM) hL
  refine ⟨_, ?_, hall⟩
  have ht2eta : { t2 with m_Minions := s.m_Minions } = t2 := by
    rw [← hpool]
  have hs1 : sweepPlaying ctx (EnterCriticalSection s).m_SoundsPlaying (EnterCriticalSection s) =
      ([], false, EnterCriticalSection s) :=
    sweepPlaying_idle ctx _ _ (by simpa using hreg)
  have hmE : (EnterCriticalSection s).m_Minions = s.m_Minions := by simp
  unfold PostProcess
  simp only [hv, Bool.not_true, Bool.false_eq_true, if_false, hs1, hmE]
  dsimp only at ht2
  rw [hmE] at ht2
  rw [ht2]
  simp only [Bool.or_self, updateListener, Bool.false_eq_true, if_false, ht2eta]
  try rfl

theorem PostProcess_empty (ctx : CKContext) (dev : FrameDevice) (s : DX8SoundManager)
    (hreg : s.m_SoundsPlaying = []) (hmin : s.m_Minions = []) :
    ∃ tr, PostProcess ctx dev s = some (CK_OK, { s with trace := s.trace ++ tr }) ∧
      ∀ e ∈ tr, e.isListenerPoseWrite = false := by
  rcases s with ⟨root, primary, listener, b, v, c, sp, mi, gv, gc, bufs, tr⟩
  simp only at hreg hmin
  subst hreg hmin
  unfold PostProcess
  by_cases hv : ValidateDirectSound ⟨root, primary, listener, b, v, c, [], [], gv, gc, bufs, tr⟩ = true
  · simp only [hv, Bool.not_true, Bool.false_eq_true, if_false]
    cases c <;> cases listener <;>
      simp [EnterCriticalSection, LeaveCriticalSection, sweepPlaying, sweepMinions,
        updateListener, ProcessMinions, reapMinions, emit] <;>
      simp [Event.isListenerPoseWrite]
  · simp only [hv, Bool.not_false, if_true]
    exact ⟨[], by simp, by simp⟩

theorem lookup_filter_ne (l : List (Handle × SoundBuffer)) (b p : Handle) (h : b ≠ p) :
    (l.filter (fun e => e.1 != b)).lookup p = l.lookup p := by
  induction l with
  | nil => rfl
  | cons e rest ih =>
    obtain ⟨k, v⟩ := e
    by_cases hk : k = b
    · subst hk
      have hpk : (p == k) = false := by simpa using Ne.symm h
      simp [List.filter_cons, List.lookup_cons, hpk, ih]
    · have hkb : (k != b) = true := by simpa using hk
      simp only [List.filter_cons, hkb, if_true, List.lookup_cons, ih]

theorem lookup_storeVolume (l : List (Handle × SoundBuffer)) (p : Handle) (v : Int) :
    (l.map (fun e : Handle × SoundBuffer =>
      if e.1 = p then (e.1, { e.2 with volume := v }) else e)).lookup p =
      (l.lookup p).map (fun b => { b with volume := v }) := by
  induction l with
  | nil => rfl
  | cons e rest ih =>
    obtain ⟨k, b⟩ := e
    by_cases hk : k = p
    · subst hk
      simp [List.lookup_cons]
    · have hpk : (p == k) = false := by simpa using Ne.symm hk
      simp [List.lookup_cons, hk, hpk, ih]

theorem storeVolume_lookup (p : Handle) (v : Int) (s : DX8SoundManager) :
    (storeVolume p v s).buffers.lookup p =
      (s.buffers.lookup p).map (fun b => { b with volume := v }) :=
  lookup_storeVolume s.buffers p v

theorem ReleaseSource_lookup (source : Option Handle) (p : Handle) (s : DX8SoundManager)
    (h : source ≠ some p) :
    (ReleaseSource source s).buffers.lookup p = s.buffers.lookup p := by
  cases source with
  | none => rfl
  | some b =>
    have hb : b ≠ p := fun hbp => h (by rw [hbp])
    exact lookup_filter_ne _ b p hb

theorem releaseAll_lookup (ms : List (Option SoundMinion)) (p : Handle) (s : DX8SoundManager)
    (h : ∀ m, some m ∈ ms → m.m_Source ≠ some p) :
    (ms.foldl
      (fun acc entry =>
        match entry with
        | some m => ReleaseSource m.m_Source acc
        | none => acc) s).buffers.lookup p = s.buffers.lookup p := by
  induction ms generalizing s with
  | nil => rfl
  | cons e rest ih =>
    have hrest : ∀ m, some m ∈ rest → m.m_Source ≠ some p :=
      fun m hm => h m (List.mem_cons_of_mem _ hm)
    rw [List.foldl_cons]
    cases e with
    | none => exact ih s hrest
    | some m =>
      rw [ih _ hrest]
      exact ReleaseSource_lookup _ _ _ (h m (List.mem_cons_self _ _))

theorem ReleaseMinions_lookup (p : Handle) (s : DX8SoundManager)
    (h : ∀ m, some m ∈ s.m_Minions → m.m_Source ≠ some p) :
    (ReleaseMinions s).buffers.lookup p = s.buffers.lookup p := by
  unfold ReleaseMinions
  exact releaseAll_lookup s.m_Minions p s h

/-- A successful `OnCKInit` with sound enabled: the captured volume and the buffers of
the device afterwards. -/
theorem OnCKInit_success_volume (ctx : CKContext) (dev : InitDevice) (s : DX8SoundManager)
    (hen : ctx.disabledSound = false) (hok : (OnCKInit ctx dev s).1 = CK_OK) :
    (OnCKInit ctx dev s).2.g_InitialVolume =
      (if SUCCEEDED dev.getVolume then dev.primaryVolume else s.g_InitialVolume) ∧
    (OnCKInit ctx dev s).2.buffers =
      (dev.primary.obj, primaryBuffer dev.primaryVolume) :: s.buffers ∧
    (OnCKInit ctx dev s).2.g_InitialVolumeChanged = s.g_InitialVolumeChanged := by
  rcases OnCKInit_cases ctx dev s hen with h | h
  · obtain ⟨-, hstep, -⟩ := h
    unfold InitDevice.failingStep at hstep
    split_ifs at hstep with h1 h2 h3 h4
    unfold OnCKInit
    simp only [hen, Bool.false_eq_true, if_false, h1, h2, h3, h4]
    split_ifs <;> simp
  · exact absurd hok h.1

/-- A read with `UpdateListenerSettings` only adds to the trace; when the gain is selected
and `GetVolume` succeeds, the gain it returns is that of the primary volume. -/
theorem UpdateListenerSettings_get (dev : ListenerDevice) (o : ListenerOptions)
    (m : CKListenerSettings) (s : DX8SoundManager) (l p : Handle)
    (hl : s.m_Listener = some l) (hp : s.m_Primary = some p) (ho : o.gain = true)
    (hg : SUCCEEDED dev.getVolume = true) :
    (UpdateListenerSettings dev o m false s).1.m_GlobalGain =
      DbToFloat (deviceBuffer s p).volume ∧
    ∃ tr, (UpdateListenerSettings dev o m false s).2 = { s with trace := tr } := by
  rcases s with ⟨root, primary, listener, bi, v, c, sp, mi, gv, gc, bufs, tr⟩
  rcases o with ⟨d1, d2, d3, gg⟩
  simp only at hl hp ho
  subst hl hp ho
  constructor
  · cases d1 <;> cases d2 <;> cases d3 <;>
      simp [UpdateListenerSettings, hg, emit, deviceBuffer]
  · cases d1 <;> cases d2 <;> cases d3 <;>
      simp [UpdateListenerSettings, hg, emit]

/-- A write of the gain with `UpdateListenerSettings` sets `g_InitialVolumeChanged` and
keeps the device pointers, the pool, the captured volume and the primary buffer. -/
theorem UpdateListenerSettings_set (dev : ListenerDevice) (o : ListenerOptions)
    (m : CKListenerSettings) (s : DX8SoundManager) (l p : Handle)
    (hl : s.m_Listener = some l) (hp : s.m_Primary = some p) (ho : o.gain = true) :
    (UpdateListenerSettings dev o m true s).2.m_Root = s.m_Root ∧
    (UpdateListenerSettings dev o m true s).2.m_Primary = s.m_Primary ∧
    (UpdateListenerSettings dev o m true s).2.m_Listener = s.m_Listener ∧
    (UpdateListenerSettings dev o m true s).2.m_Minions = s.m_Minions ∧
    (UpdateListenerSettings dev o m true s).2.g_InitialVolume = s.g_InitialVolume ∧
    (UpdateListenerSettings dev o m true s).2.g_InitialVolumeChanged = true ∧
    ∀ b, s.buffers.lookup p = some b →
      ∃ b2, (UpdateListenerSettings dev o m true s).2.buffers.lookup p = some b2 := by
  rcases s with ⟨root, primary, listener, bi, v, c, sp, mi, gv, gc, bufs, tr⟩
  rcases o with ⟨d1, d2, d3, gg⟩
  simp only at hl hp ho
  subst hl hp ho
  have hlook : ∀ (g : Int) (b : SoundBuffer), List.lookup p bufs = some b →
      ∃ b2, Option.map (fun b : SoundBuffer => { b with volume := g })
        (List.lookup p bufs) = some b2 := by
    intro g b hb
    exact ⟨_, by rw [hb]; rfl⟩
  by_cases hs : SUCCEEDED dev.setVolume = true
  · cases d1 <;> cases d2 <;> cases d3 <;>
      simp only [UpdateListenerSettings, hs, emit, bufferSetVolume, if_true, if_false,
        Bool.false_eq_true, storeVolume_lookup, storeVolume_fields, true_and] <;>
      exact hlook _
  · cases d1 <;> cases d2 <;> cases d3 <;>
      simp only [UpdateListenerSettings, hs, emit, bufferSetVolume, if_true, if_false,
        Bool.false_eq_true, true_and] <;>
      exact fun b hb => ⟨b, hb⟩

/-- When the gain was written, `OnCKReset` with a successful `SetVolume` puts the primary
buffer back at `g_InitialVolume`. -/
theorem OnCKReset_restores_volume (ctx : CKContext) (dev : ResetDevice) (s : DX8SoundManager)
    (p : Handle) (b : SoundBuffer) (hr : s.m_Root ≠ none) (hp : s.m_Primary = some p)
    (hc : s.g_InitialVolumeChanged = true) (hset : SUCCEEDED dev.setVolume = true)
    (hb : s.buffers.lookup p = some b)
    (hfresh : ∀ m, some m ∈ s.m_Minions → m.m_Source ≠ some p) :
    (OnCKReset ctx dev s).2.buffers.lookup p = some { b with volume := s.g_InitialVolume } := by
  have hv : ValidateDirectSound s = true := by
    cases hroot : s.m_Root with
    | none => exact absurd hroot hr
    | some r => simp [ValidateDirectSound, hroot, hp]
  unfold OnCKReset
  simp only [hv, Bool.not_true, Bool.false_eq_true, if_false]
  obtain ⟨tr, h⟩ := stopAll_state ctx (EnterCriticalSection s).m_SoundsPlaying
    (EnterCriticalSection s)
  simp only [h]
  simp only [ReleaseMinions_fields, EnterCriticalSection_fields, hp, hc, if_true, hset]
  have hlook : ∀ X : DX8SoundManager, X.buffers = s.buffers → X.m_Minions = s.m_Minions →
      (ReleaseMinions X).buffers.lookup p = some b := by
    intro X hX hM
    rw [ReleaseMinions_lookup, hX, hb]
    rw [hM]
    exact hfresh
  split <;>
    simp only [LeaveCriticalSection_fields, emit_fields, storeVolume_lookup] <;>
    simp [hlook]

/-- The second loop of `SequenceToBeDeleted` keeps every entry of the pool; afterwards the
entity id of a minion is 0 or resolves to an object that is not flagged, and its original
sound id is 0, or does not resolve, or resolves to an object that is not flagged. -/
theorem SequenceToBeDeleted_minions (ctx : CKContext) (baseResult : CKERROR)
    (ids : List CK_ID) (count : Int) (s : DX8SoundManager) (hc : 0 < count) :
    (SequenceToBeDeleted ctx baseResult (some ids) count s).2.m_Minions =
      s.m_Minions.map (severMinion ctx) ∧
    (SequenceToBeDeleted ctx baseResult (some ids) count s).2.m_Minions.length =
      s.m_Minions.length ∧
    ∀ m, some m ∈ (SequenceToBeDeleted ctx baseResult (some ids) count s).2.m_Minions →
      (m.m_Entity = 0 ∨ ∃ o, ctx.getObject m.m_Entity = some o ∧ o.toBeDeleted = false) ∧
      (m.m_OriginalSound = 0 ∨ ctx.getObject m.m_OriginalSound = none ∨
        ∃ o, ctx.getObject m.m_OriginalSound = some o ∧ o.toBeDeleted = false) := by
  have hkey : (SequenceToBeDeleted ctx baseResult (some ids) count s).2.m_Minions =
      s.m_Minions.map (severMinion ctx) := by
    obtain ⟨tr, h⟩ := purgePlaying_state ctx s.m_SoundsPlaying
      (emit (Event.baseSequenceToBeDeleted ids count) s)
    simp [SequenceToBeDeleted, not_le.mpr hc, h]
  refine ⟨hkey, by rw [hkey, List.length_map], ?_⟩
  intro m hm
  rw [hkey] at hm
  obtain ⟨e, -, he⟩ := List.mem_map.mp hm
  cases e with
  | none => simp [severMinion] at he
  | some m0 =>
    simp only [severMinion, Option.some.injEq] at he
    subst he
    constructor
    · cases hg : ctx.getObject m0.m_Entity with
      | none => left; simp
      | some o =>
        by_cases hd : o.toBeDeleted = true
        · left; simp [hd]
        · right
          exact ⟨o, by simp [hd, hg], by simpa using hd⟩
    · cases hg : ctx.getObject m0.m_OriginalSound with
      | none => right; left; simp [hg]
      | some o =>
        by_cases hd : o.toBeDeleted = true
        · left; simp [hd]
        · right; right
          exact ⟨o, by simp [hd, hg], by simpa using hd⟩

/-! ## Duplication: auxiliary facts -/

theorem lookup_map_update (l : List (Handle × SoundBuffer)) (b p : Handle)
    (f : SoundBuffer → SoundBuffer) :
    (l.map (fun e : Handle × SoundBuffer => if e.1 = b then (e.1, f e.2) else e)).lookup p =
      if p = b then (l.lookup p).map f else l.lookup p := by
  induction l with
  | nil => simp
  | cons e rest ih =>
    obtain ⟨k, v⟩ := e
    by_cases hk : k = b
    · subst hk
      by_cases hp : p = k
      · subst hp
        simp [List.lookup_cons]
      · have hpk : (p == k) = false := by simpa using hp
        simp only [List.map_cons, if_true, List.lookup_cons, hpk, ih, hp, if_false]
    · by_cases hp : p = k
      · subst hp
        simp [List.lookup_cons, hk]
      · have hpk : (p == k) = false := by simpa using hp
        simp only [List.map_cons, hk, if_false, List.lookup_cons, hpk, ih]

theorem updateBuffer_lookup (b p : Handle) (f : SoundBuffer → SoundBuffer)
    (s : DX8SoundManager) :
    (updateBuffer b f s).buffers.lookup p =
      if p = b then (s.buffers.lookup p).map f else s.buffers.lookup p :=
  lookup_map_update s.buffers b p f

theorem storeVolume_lookup_any (b p : Handle) (v : Int) (s : DX8SoundManager) :
    (storeVolume b v s).buffers.lookup p =
      if p = b then (s.buffers.lookup p).map (fun old => { old with volume := v })
      else s.buffers.lookup p :=
  lookup_map_update s.buffers b p (fun old => { old with volume := v })

@[simp] theorem updateBuffer_fields (b : Handle) (f : SoundBuffer → SoundBuffer)
    (s : DX8SoundManager) :
    (updateBuffer b f s).m_Root = s.m_Root ∧
    (updateBuffer b f s).m_Primary = s.m_Primary ∧
    (updateBuffer b f s).m_Listener = s.m_Listener ∧
    (updateBuffer b f s).m_bInitialized = s.m_bInitialized ∧
    (updateBuffer b f s).m_LastListenerPosition = s.m_LastListenerPosition ∧
    (updateBuffer b f s).m_bCriticalSectionInitialized = s.m_bCriticalSectionInitialized ∧
    (updateBuffer b f s).m_SoundsPlaying = s.m_SoundsPlaying ∧
    (updateBuffer b f s).m_Minions = s.m_Minions ∧
    (updateBuffer b f s).g_InitialVolume = s.g_InitialVolume ∧
    (updateBuffer b f s).g_InitialVolumeChanged = s.g_InitialVolumeChanged ∧
    (updateBuffer b f s).trace = s.trace :=
  ⟨rfl, rfl, rfl, rfl, rfl, rfl, rfl, rfl, rfl, rfl, rfl⟩

/-- What the property copy of `DuplicateSource` does to the buffers of the device. -/
theorem copyProperties_lookup (dev : DuplicateDevice) (src d : Handle) (s : DX8SoundManager)
    (hne : d ≠ src) :
    (copyProperties dev src d s).buffers.lookup src = s.buffers.lookup src ∧
    (copyProperties dev src d s).buffers.lookup d =
      (s.buffers.lookup d).map (fun b =>
        { b with
          volume :=
            if SUCCEEDED dev.getVolume && SUCCEEDED dev.setVolume then
              (deviceBuffer s src).volume
            else b.volume
          pan :=
            if SUCCEEDED dev.getPan && SUCCEEDED dev.setPan then (deviceBuffer s src).pan
            else b.pan
          frequency :=
            if SUCCEEDED dev.getFrequency && SUCCEEDED dev.setFrequency then
              (deviceBuffer s src).frequency
            else b.frequency }) := by
  have hne2 : src ≠ d := Ne.symm hne
  cases hd : s.buffers.lookup d <;>
  by_cases h1 : SUCCEEDED dev.getVolume = true <;>
  by_cases h2 : SUCCEEDED dev.setVolume = true <;>
  by_cases h3 : SUCCEEDED dev.getPan = true <;>
  by_cases h4 : SUCCEEDED dev.setPan = true <;>
  by_cases h5 : SUCCEEDED dev.getFrequency = true <;>
  by_cases h6 : SUCCEEDED dev.setFrequency = true <;>
  simp [copyProperties, bufferSetVolume, bufferSetPan, bufferSetFrequency, updateBuffer_lookup,
    storeVolume_lookup_any, deviceBuffer, hne, hne2, hd, h1, h2, h3, h4, h5, h6]

/-- What the 3D copy of `DuplicateSource` does to the buffers of the device. -/
theorem copy3DParameters_lookup (dev : DuplicateDevice) (src d : Handle)
    (s : DX8SoundManager) (hne : d ≠ src) :
    (copy3DParameters dev src d s).buffers.lookup src = s.buffers.lookup src ∧
    (copy3DParameters dev src d s).buffers.lookup d =
      (s.buffers.lookup d).map (fun b =>
        { b with
          params3D :=
            if SUCCEEDED dev.query3DSource && SUCCEEDED dev.query3DNew &&
                SUCCEEDED (dev.getAllParameters dev.buffer3DSize) &&
                SUCCEEDED dev.setAllParameters then
              (deviceBuffer s src).params3D
            else b.params3D }) := by
  have hne2 : src ≠ d := Ne.symm hne
  cases hd : s.buffers.lookup d <;>
  by_cases h1 : SUCCEEDED dev.query3DSource = true <;>
  by_cases h2 : SUCCEEDED dev.query3DNew = true <;>
  by_cases h3 : SUCCEEDED (dev.getAllParameters dev.buffer3DSize) = true <;>
  by_cases h4 : SUCCEEDED dev.setAllParameters = true <;>
  simp [copy3DParameters, bufferSetAllParameters, updateBuffer_lookup, deviceBuffer, hne, hne2,
    hd, h1, h2, h3, h4]

theorem copySegment_lookup (src d : Handle) (sd : Option Nat) (ss : Nat) (nd : Option Nat)
    (ns : Nat) (s : DX8SoundManager) (hne : d ≠ src) :
    (copySegment src d sd ss nd ns s).buffers.lookup src = s.buffers.lookup src ∧
    (copySegment src d sd ss nd ns s).buffers.lookup d =
      (s.buffers.lookup d).map (fun b =>
        { b with data := copiedBytes (deviceBuffer s src).data sd ss nd ns b.data }) := by
  have hne2 : src ≠ d := Ne.symm hne
  have hid : s.buffers.lookup d =
      (s.buffers.lookup d).map (fun b => { b with data := b.data }) := by
    cases s.buffers.lookup d <;> rfl
  cases sd with
  | none => exact ⟨rfl, hid⟩
  | some so =>
    cases nd with
    | none => exact ⟨rfl, hid⟩
    | some no =>
      by_cases hpos : ss > 0
      · refine ⟨?_, ?_⟩
        · simp [copySegment, hpos, updateBuffer_lookup, hne2]
        · simp [copySegment, copiedBytes, hpos, updateBuffer_lookup]
      · refine ⟨?_, ?_⟩
        · simp [copySegment, hpos]
        · simp [copySegment, copiedBytes, hpos]

theorem copySegment_trace (src d : Handle) (sd : Option Nat) (ss : Nat) (nd : Option Nat)
    (ns : Nat) (s : DX8SoundManager) :
    (copySegment src d sd ss nd ns s).trace = s.trace := by
  cases sd with
  | none => rfl
  | some so =>
    cases nd with
    | none => rfl
    | some no =>
      by_cases hpos : ss > 0
      · simp [copySegment, hpos]
      · simp [copySegment, hpos]

/-- The calls of the content copy of `DuplicateSource`: a `Lock` that succeeds is followed
by one `Unlock` of the same buffer, a `Lock` that fails by none. -/
theorem copyContent_trace (dev : DuplicateDevice) (src d : Handle) (s : DX8SoundManager) :
    (copyContent dev src d s).2.trace = s.trace ++
      (if SUCCEEDED dev.lockSource.hr then
        (if SUCCEEDED dev.lockNew.hr then
          [Event.lock src dev.lockSource.hr, Event.lock d dev.lockNew.hr, Event.unlock d,
            Event.unlock src]
        else
          [Event.lock src dev.lockSource.hr, Event.lock d dev.lockNew.hr, Event.release d,
            Event.unlock src])
      else [Event.lock src dev.lockSource.hr]) := by
  by_cases h1 : SUCCEEDED dev.lockSource.hr = true
  · by_cases h2 : SUCCEEDED dev.lockNew.hr = true
    · simp [copyContent, h1, h2, copySegment_trace]
    · simp [copyContent, h1, h2, dropBuffer]
  · simp [copyContent, h1]

/-- The content copy of `DuplicateSource` returns the new buffer unless the source was
locked and the new buffer could not be; it changes nothing but the data of the new
buffer, and those only when the source was locked. -/
theorem copyContent_lookup (dev : DuplicateDevice) (src d : Handle) (s : DX8SoundManager)
    (hne : d ≠ src) (h : (copyContent dev src d s).1 ≠ none) :
    (copyContent dev src d s).1 = some d ∧
    (copyContent dev src d s).2.buffers.lookup src = s.buffers.lookup src ∧
    (copyContent dev src d s).2.buffers.lookup d =
      (s.buffers.lookup d).map (fun b =>
        { b with
          data :=
            if SUCCEEDED dev.lockSource.hr then
              copiedBytes (deviceBuffer s src).data dev.lockSource.ptr2 dev.lockSource.bytes2
                dev.lockNew.ptr2 dev.lockNew.bytes2
                (copiedBytes (deviceBuffer s src).data dev.lockSource.ptr1
                  dev.lockSource.bytes1 dev.lockNew.ptr1 dev.lockNew.bytes1 b.data)
            else b.data }) := by
  by_cases h1 : SUCCEEDED dev.lockSource.hr = true
  · by_cases h2 : SUCCEEDED dev.lockNew.hr = true
    · obtain ⟨a1, a3⟩ := copySegment_lookup src d dev.lockSource.ptr1
        dev.lockSource.bytes1 dev.lockNew.ptr1 dev.lockNew.bytes1
        (emit (Event.lock d dev.lockNew.hr) (emit (Event.lock src dev.lockSource.hr) s)) hne
      obtain ⟨b1, b3⟩ := copySegment_lookup src d dev.lockSource.ptr2
        dev.lockSource.bytes2 dev.lockNew.ptr2 dev.lockNew.bytes2
        (copySegment src d dev.lockSource.ptr1 dev.lockSource.bytes1
          dev.lockNew.ptr1 dev.lockNew.bytes1
          (emit (Event.lock d dev.lockNew.hr) (emit (Event.lock src dev.lockSource.hr) s))) hne
      refine ⟨by simp [copyContent, h1, h2], ?_, ?_⟩
      · simp only [copyContent, h1, h2, if_true, emit_fields]
        rw [b1, a1]
        simp
      · simp only [copyContent, h1, h2, if_true, emit_fields]
        rw [b3, a3]
        simp only [emit_fields, deviceBuffer, a1]
        cases s.buffers.lookup d <;> rfl
    · exact absurd (by simp [copyContent, h1, h2]) h
  · refine ⟨by simp [copyContent, h1], by simp [copyContent, h1], ?_⟩
    simp only [copyContent, h1, Bool.false_eq_true, if_false, emit_fields]
    cases s.buffers.lookup d <;> rfl

theorem readSourceFormat_some (dev : DuplicateDevice) (src : Handle) (s : DX8SoundManager)
    (wf : CKWaveFormat) (al : Bool) (h : (readSourceFormat dev src s).1 = some (wf, al)) :
    wf = (deviceBuffer s src).format ∧ (readSourceFormat dev src s).2.buffers = s.buffers := by
  unfold readSourceFormat at h ⊢
  by_cases c1 : dev.getFormat.1 = DSERR_INVALIDPARAM ∧ dev.getFormat.2 > sizeofWAVEFORMATEX
  · by_cases c2 : dev.allocFails = true
    · simp [c1, c2] at h
    · by_cases c3 : FAILED dev.getFormatRetry = true
      · simp [c1, c2, c3] at h
      · simp only [c1, c2, c3, and_self, if_true, Bool.false_eq_true, if_false,
          Option.some.injEq, Prod.mk.injEq] at h ⊢
        exact ⟨h.1.symm, rfl⟩
  · by_cases c4 : FAILED dev.getFormat.1 = true
    · simp [c1, c4] at h
    · simp only [c1, c4, if_false, Bool.false_eq_true, Option.some.injEq, Prod.mk.injEq] at h ⊢
      exact ⟨h.1.symm, rfl⟩

theorem freeFormat_buffers (al : Bool) (s : DX8SoundManager) :
    (freeFormat al s).buffers = s.buffers := by
  cases al <;> rfl

/-- The three copies at the end of `DuplicateSource`, for a new buffer `d` other than the
source: the pointer returned is `d`, the source is as before, and the record of `d` has
the properties read from the source where both the read and the write succeeded. -/
theorem duplicateTail (dev : DuplicateDevice) (src d r : Handle) (X : DX8SoundManager)
    (sb created : SoundBuffer) (hne : d ≠ src) (hXs : X.buffers.lookup src = some sb)
    (hXd : X.buffers.lookup d = some created)
    (hret : (copyContent dev src d
      (copy3DParameters dev src d (copyProperties dev src d X))).1 = some r) :
    r = d ∧
    (copyContent dev src d
      (copy3DParameters dev src d (copyProperties dev src d X))).2.buffers.lookup src =
        some sb ∧
    ∃ db, (copyContent dev src d
      (copy3DParameters dev src d (copyProperties dev src d X))).2.buffers.lookup d =
        some db ∧
      db.dwFlags = created.dwFlags ∧ db.dwBufferBytes = created.dwBufferBytes ∧
      db.format = created.format ∧
      db.volume =
        (if SUCCEEDED dev.getVolume && SUCCEEDED dev.setVolume then sb.volume
         else created.volume) ∧
      db.pan =
        (if SUCCEEDED dev.getPan && SUCCEEDED dev.setPan then sb.pan else created.pan) ∧
      db.frequency =
        (if SUCCEEDED dev.getFrequency && SUCCEEDED dev.setFrequency then sb.frequency
         else created.frequency) ∧
      db.params3D =
        (if SUCCEEDED dev.query3DSource && SUCCEEDED dev.query3DNew &&
            SUCCEEDED (dev.getAllParameters dev.buffer3DSize) &&
            SUCCEEDED dev.setAllParameters then
          sb.params3D
         else created.params3D) ∧
      db.data =
        (if SUCCEEDED dev.lockSource.hr then
          copiedBytes sb.data dev.lockSource.ptr2 dev.lockSource.bytes2
            dev.lockNew.ptr2 dev.lockNew.bytes2
            (copiedBytes sb.data dev.lockSource.ptr1 dev.lockSource.bytes1
              dev.lockNew.ptr1 dev.lockNew.bytes1 created.data)
         else created.data) := by
  obtain ⟨p1, p2⟩ := copyProperties_lookup dev src d X hne
  obtain ⟨q1, q2⟩ := copy3DParameters_lookup dev src d (copyProperties dev src d X) hne
  obtain ⟨c0, c1, c2⟩ := copyContent_lookup dev src d
    (copy3DParameters dev src d (copyProperties dev src d X)) hne (by rw [hret]; simp)
  have hr : r = d := by
    rw [c0] at hret
    injection hret with h
    exact h.symm
  have hs1 : deviceBuffer X src = sb := by simp [deviceBuffer, hXs]
  have hs2 : deviceBuffer (copyProperties dev src d X) src = sb := by
    simp [deviceBuffer, p1, hXs]
  have hs3 : deviceBuffer (copy3DParameters dev src d (copyProperties dev src d X)) src = sb := by
    simp [deviceBuffer, q1, p1, hXs]
  refine ⟨hr, by rw [c1, q1, p1, hXs], ?_⟩
  rw [c2, q2, p2, hXd, hs1, hs2, hs3]
  exact ⟨_, rfl, rfl, rfl, rfl, rfl, rfl, rfl, rfl, rfl⟩

/-- A manual duplication that returns a buffer: the buffer is the one `CreateSoundBuffer`
handed out, and the device holds for it the size and format of the source, the flags of
the source without the location flags plus its own placement, and the properties copied
by `duplicateTail`. -/
theorem duplicateManually_success (dev : DuplicateDevice) (root src d : Handle)
    (s : DX8SoundManager) (sb : SoundBuffer) (hne : dev.create.obj ≠ src)
    (hsrc : s.buffers.lookup src = some sb)
    (hret : (duplicateManually dev root src s).1 = some d) :
    d = dev.create.obj ∧
    (duplicateManually dev root src s).2.buffers.lookup src = some sb ∧
    ∃ db, (duplicateManually dev root src s).2.buffers.lookup d = some db ∧
      db.dwFlags = (sb.dwFlags &&& locationCleared) |||
        (if dev.locHardware then DSBCAPS_LOCHARDWARE else DSBCAPS_LOCSOFTWARE) ∧
      db.dwBufferBytes = sb.dwBufferBytes ∧
      db.format = sb.format ∧
      db.volume =
        (if SUCCEEDED dev.getVolume && SUCCEEDED dev.setVolume then sb.volume else 0) ∧
      db.pan = (if SUCCEEDED dev.getPan && SUCCEEDED dev.setPan then sb.pan else 0) ∧
      db.frequency =
        (if SUCCEEDED dev.getFrequency && SUCCEEDED dev.setFrequency then sb.frequency
         else sb.format.nSamplesPerSec) ∧
      db.params3D =
        (if SUCCEEDED dev.query3DSource && SUCCEEDED dev.query3DNew &&
            SUCCEEDED (dev.getAllParameters dev.buffer3DSize) &&
            SUCCEEDED dev.setAllParameters then
          sb.params3D
         else DS3DBUFFER.initial) ∧
      db.data =
        (if SUCCEEDED dev.lockSource.hr then
          copiedBytes sb.data dev.lockSource.ptr2 dev.lockSource.bytes2
            dev.lockNew.ptr2 dev.lockNew.bytes2
            (copiedBytes sb.data dev.lockSource.ptr1 dev.lockSource.bytes1
              dev.lockNew.ptr1 dev.lockNew.bytes1 (List.replicate sb.dwBufferBytes 0))
         else List.replicate sb.dwBufferBytes 0) := by
  unfold duplicateManually at hret ⊢
  cases hf : (readSourceFormat dev src s).1 with
  | none => simp [hf] at hret
  | some fa =>
    obtain ⟨wf, al⟩ := fa
    obtain ⟨hwf, hbuf⟩ := readSourceFormat_some dev src s wf al hf
    have hsb : deviceBuffer s src = sb := by simp [deviceBuffer, hsrc]
    simp only [hf] at hret ⊢
    by_cases hcaps : FAILED dev.getCaps = true
    · simp [hcaps] at hret
    · by_cases hcreate : FAILED dev.create.hr = true
      · simp [hcaps, hcreate] at hret
      · simp only [hcaps, hcreate, if_false, Bool.false_eq_true] at hret ⊢
        have hcapsb : deviceBuffer (emit (Event.getCaps src dev.getCaps)
            (readSourceFormat dev src s).2) src = sb := by
          simp [deviceBuffer, hbuf, hsrc]
        rw [hcapsb] at hret ⊢
        have key := duplicateTail dev src dev.create.obj d _ sb
          (SoundBuffer.create ((sb.dwFlags &&& locationCleared) |||
            (if dev.locHardware then DSBCAPS_LOCHARDWARE else DSBCAPS_LOCSOFTWARE))
            sb.dwBufferBytes wf) hne
          (by
            rw [freeFormat_buffers]
            simp only [emit_fields, List.lookup_cons]
            have : (src == dev.create.obj) = false := by simpa using Ne.symm hne
            rw [this, hbuf, hsrc])
          (by
            rw [freeFormat_buffers]
            simp [List.lookup_cons]) hret
        obtain ⟨k1, k2, db, k3, k4⟩ := key
        refine ⟨k1, k2, db, by rw [k1]; exact k3, ?_⟩
        obtain ⟨a1, a2, a3, a4, a5, a6, a7, a8⟩ := k4
        rw [hwf, hsb] at a1 a2 a3 a4 a5 a6 a7 a8
        exact ⟨a1, a2, a3, a4, a5, a6, a7, a8⟩

theorem memcpy_length (dst : List Nat) (dstOffset : Nat) (src : List Nat) (srcOffset n : Nat) :
    (memcpy dst dstOffset src srcOffset n).length = dst.length := by
  simp [memcpy]

/-- The call `memcpy` puts byte `i` of the source segment at place `i` of the destination
segment, for every `i` below the count that lies inside the destination. -/
theorem memcpy_copied (dst : List Nat) (dstOffset : Nat) (src : List Nat) (srcOffset n i : Nat)
    (hi : i < n) (hin : dstOffset + i < dst.length) :
    (memcpy dst dstOffset src srcOffset n).getD (dstOffset + i) 0 =
      src.getD (srcOffset + i) 0 := by
  simp [memcpy, List.getD_eq_getElem?_getD, List.getElem?_map, List.getElem?_range, hin, hi]

/-! ## The claims on duplication -/

/-- Claim C11, failing input.  The source 200 is a point source placed at (1, 2, 3).  The
fast path fails and both buffers answer `QueryInterface` for the 3D interface.  The
method hands `buffer3D` to `GetAllParameters` without having set its `dwSize`; the stack
holds `0` there, and the device, which answers `S_OK` for a structure of
`sizeof(DS3DBUFFER)` bytes, refuses this one with `DSERR_INVALIDPARAM`.
No `SetAllParameters` follows, `DuplicateSource` returns the new buffer 201 all the
same, and its position is the default (0, 0, 0), not that of the source. -/
theorem DuplicateSource_skips_3D_parameters :
    SUCCEEDED duplicateNo3D.duplicate.hr = false ∧
    SUCCEEDED duplicateNo3D.query3DSource = true ∧
    SUCCEEDED duplicateNo3D.query3DNew = true ∧
    duplicateNo3D.buffer3DSize = 0 ∧
    duplicateNo3D.getAllParameters sizeofDS3DBUFFER = S_OK ∧
    duplicateNo3D.getAllParameters duplicateNo3D.buffer3DSize = DSERR_INVALIDPARAM ∧
    (DuplicateSource duplicateNo3D (some 200) loadedManager).1 = some 201 ∧
    (DuplicateSource duplicateNo3D (some 200) loadedManager).2.trace =
      loadedManager.trace ++
        [Event.duplicateSoundBuffer 100 200 E_FAIL,
          Event.getFormat 200 18 S_OK,
          Event.getCaps 200 S_OK,
          Event.createSoundBuffer 100
            ((deviceBuffer loadedManager 200).dwFlags &&& locationCleared) 4 S_OK,
          Event.getVolume 200 S_OK,
          Event.setVolume 201 (-500) S_OK,
          Event.getPan 200 S_OK,
          Event.setPan 201 0 S_OK,
          Event.getFrequency 200 S_OK,
          Event.setFrequency 201 22050 S_OK,
          Event.queryInterface3DBuffer 200 S_OK,
          Event.queryInterface3DBuffer 201 S_OK,
          Event.getAllParameters 200 DSERR_INVALIDPARAM,
          Event.release3DBuffer 200,
          Event.release3DBuffer 201,
          Event.lock 200 S_OK,
          Event.lock 201 S_OK,
          Event.unlock 201,
          Event.unlock 200] ∧
    (deviceBuffer loadedManager 200).params3D.vPosition = ⟨1, 2, 3⟩ ∧
    (deviceBuffer (DuplicateSource duplicateNo3D (some 200) loadedManager).2
      201).params3D.vPosition = ⟨0, 0, 0⟩ :=
  ⟨rfl, rfl, rfl, rfl, rfl, rfl, rfl, rfl, rfl, rfl⟩

/-- What `DuplicateSource` copies.  On a manager with non-null `m_Root` and `m_Primary`,
for a source the device knows and a device that hands out a new object: when
`DuplicateSoundBuffer` succeeds, its buffer is returned and no other call is made; when it
fails and `DuplicateSource` returns a buffer, that buffer is the one `CreateSoundBuffer`
handed out, it has the byte size and the format of the source and the flags of the source
with the three location flags cleared, plus the placement flag of the device; its
volume, pan and frequency are those of the source when the read on the source and the
write on the new buffer both succeed, and its 3D parameters when both `QueryInterface`
calls, `GetAllParameters` (called with the `dwSize` the stack holds) and
`SetAllParameters` succeed; otherwise they are the values of a new buffer.  The source
is left as it was. -/
theorem DuplicateSource_copies_on_success (dev : DuplicateDevice) (src root primary : Handle)
    (s : DX8SoundManager) (sb : SoundBuffer) (hroot : s.m_Root = some root)
    (hprim : s.m_Primary = some primary) (hsrc : s.buffers.lookup src = some sb)
    (hne : dev.create.obj ≠ src) :
    (SUCCEEDED dev.duplicate.hr = true →
      DuplicateSource dev (some src) s =
        (some dev.duplicate.obj,
          { s with
            buffers := (dev.duplicate.obj, sb) :: s.buffers
            trace := s.trace ++ [Event.duplicateSoundBuffer root src dev.duplicate.hr] })) ∧
    (SUCCEEDED dev.duplicate.hr = false →
      ∀ d, (DuplicateSource dev (some src) s).1 = some d →
        d = dev.create.obj ∧
        (DuplicateSource dev (some src) s).2.buffers.lookup src = some sb ∧
        ∃ db, (DuplicateSource dev (some src) s).2.buffers.lookup d = some db ∧
          db.dwFlags = (sb.dwFlags &&& locationCleared) |||
            (if dev.locHardware then DSBCAPS_LOCHARDWARE else DSBCAPS_LOCSOFTWARE) ∧
          (sb.dwFlags &&& locationCleared) &&&
            (DSBCAPS_LOCHARDWARE ||| DSBCAPS_LOCSOFTWARE ||| DSBCAPS_LOCDEFER) = 0 ∧
          db.dwBufferBytes = sb.dwBufferBytes ∧
          db.format = sb.format ∧
          db.volume =
            (if SUCCEEDED dev.getVolume && SUCCEEDED dev.setVolume then sb.volume else 0) ∧
          db.pan = (if SUCCEEDED dev.getPan && SUCCEEDED dev.setPan then sb.pan else 0) ∧
          db.frequency =
            (if SUCCEEDED dev.getFrequency && SUCCEEDED dev.setFrequency then sb.frequency
             else sb.format.nSamplesPerSec) ∧
          db.params3D =
            (if SUCCEEDED dev.query3DSource && SUCCEEDED dev.query3DNew &&
                SUCCEEDED (dev.getAllParameters dev.buffer3DSize) &&
                SUCCEEDED dev.setAllParameters then
              sb.params3D
             else DS3DBUFFER.initial)) := by
  have hsb : deviceBuffer s src = sb := by simp [deviceBuffer, hsrc]
  constructor
  · intro hfast
    simp [DuplicateSource, hroot, hprim, hfast, emit, deviceBuffer, hsrc]
  · intro hfast d hret
    have hD : DuplicateSource dev (some src) s =
        duplicateManually dev root src
          (emit (Event.duplicateSoundBuffer root src dev.duplicate.hr) s) := by
      simp [DuplicateSource, hroot, hprim, hfast]
    rw [hD] at hret ⊢
    obtain ⟨k1, k2, db, k3, a1, a2, a3, a4, a5, a6, a7, -⟩ :=
      duplicateManually_success dev root src d _ sb hne (by simpa using hsrc) hret
    refine ⟨k1, k2, db, k3, a1, ?_, a2, a3, a4, a5, a6, a7⟩
    rw [Nat.land_assoc]
    have : locationCleared &&&
        (DSBCAPS_LOCHARDWARE ||| DSBCAPS_LOCSOFTWARE ||| DSBCAPS_LOCDEFER) = 0 := by decide
    rw [this, Nat.and_zero]

/-- The source 200 duplicated by hand on a device where every call after
`DuplicateSoundBuffer` succeeds and the stack holds `sizeof(DS3DBUFFER)` where
`buffer3D.dwSize` lies. -/
theorem DuplicateSource_copies_on_success_witness :
    loadedManager.m_Root = some 100 ∧ loadedManager.m_Primary = some 101 ∧
    loadedManager.buffers.lookup 200 = some loadedBuffer ∧ duplicateOk.create.obj ≠ 200 ∧
    SUCCEEDED duplicateOk.duplicate.hr = false ∧
    (DuplicateSource duplicateOk (some 200) loadedManager).1 = some 201 ∧
    ∃ db, (DuplicateSource duplicateOk (some 200) loadedManager).2.buffers.lookup 201 =
        some db ∧
      db.dwBufferBytes = 4 ∧ db.format = sampleFormat ∧ db.volume = -500 ∧
      db.params3D = loadedBuffer.params3D := by
  have h := (DuplicateSource_copies_on_success duplicateOk 200 100 101 loadedManager
    loadedBuffer rfl rfl rfl (by decide)).2 rfl 201 rfl
  obtain ⟨-, -, db, h1, -, -, h2, h3, h4, -, -, h5⟩ := h
  exact ⟨rfl, rfl, rfl, by decide, rfl, rfl, db, h1, h2, h3, h4, h5⟩

/-- Claim C12, failing input.  On the manual path, when the `Lock` of the source fails,
`DuplicateSource` still returns the new buffer, and the data of that buffer are the
zeros it was created with: no byte of the source was copied.  (When the `Lock` of the new
buffer fails, the code releases it and returns `NULL`.) -/
theorem DuplicateSource_source_lock_failure (dev : DuplicateDevice)
    (src root primary d : Handle) (s : DX8SoundManager) (sb : SoundBuffer)
    (hroot : s.m_Root = some root) (hprim : s.m_Primary = some primary)
    (hsrc : s.buffers.lookup src = some sb) (hne : dev.create.obj ≠ src)
    (hfast : SUCCEEDED dev.duplicate.hr = false)
    (hlock : SUCCEEDED dev.lockSource.hr = false)
    (hret : (DuplicateSource dev (some src) s).1 = some d) :
    (deviceBuffer (DuplicateSource dev (some src) s).2 d).data =
      List.replicate sb.dwBufferBytes 0 := by
  have hD : DuplicateSource dev (some src) s =
      duplicateManually dev root src
        (emit (Event.duplicateSoundBuffer root src dev.duplicate.hr) s) := by
    simp [DuplicateSource, hroot, hprim, hfast]
  rw [hD] at hret ⊢
  obtain ⟨-, -, db, k3, -, -, -, -, -, -, -, a8⟩ :=
    duplicateManually_success dev root src d _ sb hne (by simpa using hsrc) hret
  rw [hlock] at a8
  simp [deviceBuffer, k3, a8]

/-- Witness of C12: the source 200 holds the bytes 1, 2, 3, 4; its `Lock` fails and the
buffer 201 that is returned holds four zeros. -/
theorem DuplicateSource_source_lock_failure_witness :
    loadedManager.m_Root = some 100 ∧ loadedManager.m_Primary = some 101 ∧
    loadedManager.buffers.lookup 200 = some loadedBuffer ∧
    duplicateSourceLockFails.create.obj ≠ 200 ∧
    SUCCEEDED duplicateSourceLockFails.duplicate.hr = false ∧
    SUCCEEDED duplicateSourceLockFails.lockSource.hr = false ∧
    (DuplicateSource duplicateSourceLockFails (some 200) loadedManager).1 = some 201 ∧
    loadedBuffer.data = [1, 2, 3, 4] ∧
    (deviceBuffer (DuplicateSource duplicateSourceLockFails (some 200) loadedManager).2
      201).data = [0, 0, 0, 0] :=
  ⟨rfl, rfl, rfl, by decide, rfl, rfl, rfl, rfl,
    DuplicateSource_source_lock_failure duplicateSourceLockFails 200 100 101 201 loadedManager
      loadedBuffer rfl rfl rfl (by decide) rfl rfl rfl⟩

/-! ## The claim on the global gain -/

/-- Init, read the gain, write a gain, reset, read the gain: the first read returns the
gain of the volume the primary buffer had at `OnCKInit`, and the second the gain of
`g_InitialVolume`, which is that volume when the `GetVolume` of `OnCKInit` succeeded and
the value it had before `OnCKInit` otherwise. -/
theorem gain_after_reset (ctx ctxR : CKContext) (devI : InitDevice)
    (devR : ResetDevice) (dev1 dev2 dev3 : ListenerDevice) (o1 o2 o3 : ListenerOptions)
    (m0 m2 m4 : CKListenerSettings) (g : ℝ) (s0 : DX8SoundManager)
    (hen : ctx.disabledSound = false) (hinit : (OnCKInit ctx devI s0).1 = CK_OK)
    (hfresh : ∀ m, some m ∈ s0.m_Minions → m.m_Source ≠ some devI.primary.obj)
    (ho1 : o1.gain = true) (ho2 : o2.gain = true) (ho3 : o3.gain = true)
    (h1 : SUCCEEDED dev1.getVolume = true) (h3 : SUCCEEDED dev3.getVolume = true)
    (hR : SUCCEEDED devR.setVolume = true) :
    let s1 := (OnCKInit ctx devI s0).2
    let r1 := UpdateListenerSettings dev1 o1 m0 false s1
    let r2 := UpdateListenerSettings dev2 o2 { m2 with m_GlobalGain := g } true r1.2
    let s4 := (OnCKReset ctxR devR r2.2).2
    let r3 := UpdateListenerSettings dev3 o3 m4 false s4
    r1.1.m_GlobalGain = DbToFloat devI.primaryVolume ∧
    r3.1.m_GlobalGain = DbToFloat
      (if SUCCEEDED devI.getVolume then devI.primaryVolume else s0.g_InitialVolume) ∧
    (deviceBuffer s4 devI.primary.obj).volume =
      (if SUCCEEDED devI.getVolume then devI.primaryVolume else s0.g_InitialVolume) := by
  intro s1 r1 r2 s4 r3
  have hcases := OnCKInit_cases ctx devI s0 hen
  rcases hcases with hc | hc
  swap
  · exact absurd hinit hc.1
  obtain ⟨-, -, hroot, hprim, hlist, -⟩ := hc
  obtain ⟨hgv, hbufs, -⟩ := OnCKInit_success_volume ctx devI s0 hen hinit
  have hmin := OnCKInit_minions ctx devI s0
  have hdb1 : deviceBuffer s1 devI.primary.obj = primaryBuffer devI.primaryVolume := by
    show ((OnCKInit ctx devI s0).2.buffers.lookup devI.primary.obj).getD _ = _
    rw [hbufs]
    simp [List.lookup_cons]
  obtain ⟨hg1, tr1, hs1⟩ := UpdateListenerSettings_get dev1 o1 m0 s1 _ _ hlist hprim ho1 h1
  have hr1 : r1.1.m_GlobalGain = DbToFloat devI.primaryVolume := by
    show (UpdateListenerSettings dev1 o1 m0 false s1).1.m_GlobalGain = _
    rw [hg1, hdb1]
    rfl
  have hl2 : r1.2.m_Listener = some devI.listener.obj := by
    show (UpdateListenerSettings dev1 o1 m0 false s1).2.m_Listener = _
    rw [hs1]
    exact hlist
  have hp2 : r1.2.m_Primary = some devI.primary.obj := by
    show (UpdateListenerSettings dev1 o1 m0 false s1).2.m_Primary = _
    rw [hs1]
    exact hprim
  have hb2 : r1.2.buffers.lookup devI.primary.obj = some (primaryBuffer devI.primaryVolume) := by
    show (UpdateListenerSettings dev1 o1 m0 false s1).2.buffers.lookup _ = _
    rw [hs1]
    show (OnCKInit ctx devI s0).2.buffers.lookup devI.primary.obj = _
    rw [hbufs]
    simp [List.lookup_cons]
  have hfields1 : r1.2.m_Root = s1.m_Root ∧ r1.2.m_Minions = s1.m_Minions ∧
      r1.2.g_InitialVolume = s1.g_InitialVolume := by
    show (UpdateListenerSettings dev1 o1 m0 false s1).2.m_Root = _ ∧
      (UpdateListenerSettings dev1 o1 m0 false s1).2.m_Minions = _ ∧
      (UpdateListenerSettings dev1 o1 m0 false s1).2.g_InitialVolume = _
    rw [hs1]
    exact ⟨rfl, rfl, rfl⟩
  obtain ⟨hroot2, hprim2, hlist2, hmin2, hgv2, hch2, hlook2⟩ :=
    UpdateListenerSettings_set dev2 o2 { m2 with m_GlobalGain := g } r1.2 _ _ hl2 hp2 ho2
  obtain ⟨b2, hb2'⟩ := hlook2 _ hb2
  have hreset := OnCKReset_restores_volume ctxR devR r2.2 devI.primary.obj b2
    (by
      show (UpdateListenerSettings dev2 o2 { m2 with m_GlobalGain := g } true r1.2).2.m_Root ≠ none
      rw [hroot2, hfields1.1]
      show (OnCKInit ctx devI s0).2.m_Root ≠ none
      rw [hroot]
      simp)
    (hprim2.trans hp2) hch2 hR hb2'
    (by
      intro m hm
      apply hfresh m
      have : (UpdateListenerSettings dev2 o2 { m2 with m_GlobalGain := g } true r1.2).2.m_Minions
          = s0.m_Minions := by
        rw [hmin2, hfields1.2.1]
        exact hmin
      rw [← this]
      exact hm)
  have hvol4 : (deviceBuffer s4 devI.primary.obj).volume =
      (if SUCCEEDED devI.getVolume then devI.primaryVolume else s0.g_InitialVolume) := by
    show (((OnCKReset ctxR devR r2.2).2.buffers.lookup devI.primary.obj).getD _).volume = _
    rw [hreset]
    show (UpdateListenerSettings dev2 o2 { m2 with m_GlobalGain := g } true r1.2).2.g_InitialVolume
      = _
    rw [hgv2, hfields1.2.2]
    exact hgv
  have hf4 := OnCKReset_fields ctxR devR r2.2
  obtain ⟨hg3, -⟩ := UpdateListenerSettings_get dev3 o3 m4 s4 devI.listener.obj devI.primary.obj
    (hf4.2.2.1.trans (hlist2.trans hl2)) (hf4.2.1.trans (hprim2.trans hp2)) ho3 h3
  refine ⟨hr1, ?_, hvol4⟩
  show (UpdateListenerSettings dev3 o3 m4 false s4).1.m_GlobalGain = _
  rw [hg3, hvol4]

theorem freshManager_no_minion (p : Handle) :
    ∀ m, some m ∈ freshManager.m_Minions → m.m_Source ≠ some p := by
  intro m hmem
  simp [freshManager, DX8SoundManager.construct] at hmem

theorem DbToFloat_600_ne_300 : DbToFloat (-600) ≠ DbToFloat (-300) := by
  have h1 : DbToFloat (-600) = (10 : ℝ) ^ (((-600 : ℤ) : ℝ) / 2000) := by
    simp [DbToFloat]
  have h2 : DbToFloat (-300) = (10 : ℝ) ^ (((-300 : ℤ) : ℝ) / 2000) := by
    simp [DbToFloat]
  rw [h1, h2]
  apply ne_of_lt
  apply Real.rpow_lt_rpow_of_exponent_lt (by norm_num)
  norm_num

/-- Claim C13, counterexample.  `OnCKInit` returns `CK_OK` on a device whose primary buffer
is at -300 and whose `GetVolume` fails: the result of that call is not tested and
`g_InitialVolume` keeps the value -600 it is initialised with.  The first read returns
the gain of -300; after a write of the gain 0.5 and `OnCKReset`, which sets the primary
volume to `g_InitialVolume`, the second read returns the gain of -600, which is another
number. -/
theorem reset_after_unread_volume :
    sampleContext.disabledSound = false ∧
    (OnCKInit sampleContext deviceNoVolume freshManager).1 = CK_OK ∧
    SUCCEEDED deviceNoVolume.getVolume = false ∧
    (OnCKInit sampleContext deviceNoVolume freshManager).2.g_InitialVolume = -600 ∧
    (UpdateListenerSettings listenerOk gainOnly sampleSettings false
      (OnCKInit sampleContext deviceNoVolume freshManager).2).1.m_GlobalGain =
        DbToFloat (-300) ∧
    (UpdateListenerSettings listenerOk gainOnly sampleSettings false
      (OnCKReset sampleContext resetOk
        (UpdateListenerSettings listenerOk gainOnly
          { sampleSettings with m_GlobalGain := 1 / 2 } true
          (UpdateListenerSettings listenerOk gainOnly sampleSettings false
            (OnCKInit sampleContext deviceNoVolume freshManager).2).2).2).2).1.m_GlobalGain =
        DbToFloat (-600) ∧
    (UpdateListenerSettings listenerOk gainOnly sampleSettings false
      (OnCKReset sampleContext resetOk
        (UpdateListenerSettings listenerOk gainOnly
          { sampleSettings with m_GlobalGain := 1 / 2 } true
          (UpdateListenerSettings listenerOk gainOnly sampleSettings false
            (OnCKInit sampleContext deviceNoVolume freshManager).2).2).2).2).1.m_GlobalGain ≠
      (UpdateListenerSettings listenerOk gainOnly sampleSettings false
        (OnCKInit sampleContext deviceNoVolume freshManager).2).1.m_GlobalGain := by
  have h := gain_after_reset sampleContext sampleContext deviceNoVolume resetOk
    listenerOk listenerOk listenerOk gainOnly gainOnly gainOnly sampleSettings sampleSettings
    sampleSettings (1 / 2) freshManager rfl rfl (freshManager_no_minion _) rfl rfl rfl rfl rfl
    rfl
  have h1 : (UpdateListenerSettings listenerOk gainOnly sampleSettings false
      (OnCKInit sampleContext deviceNoVolume freshManager).2).1.m_GlobalGain =
        DbToFloat (-300) := h.1
  have h3 : (UpdateListenerSettings listenerOk gainOnly sampleSettings false
      (OnCKReset sampleContext resetOk
        (UpdateListenerSettings listenerOk gainOnly
          { sampleSettings with m_GlobalGain := 1 / 2 } true
          (UpdateListenerSettings listenerOk gainOnly sampleSettings false
            (OnCKInit sampleContext deviceNoVolume freshManager).2).2).2).2).1.m_GlobalGain =
        DbToFloat (-600) := h.2.1
  refine ⟨rfl, rfl, rfl, rfl, h1, h3, ?_⟩
  rw [h1, h3]
  exact DbToFloat_600_ne_300

/-- Claim C13, amended.  After an `OnCKInit` that returns `CK_OK` with sound enabled and
whose `GetVolume` succeeded: read the global gain, write any gain `g`, call `OnCKReset`,
read the global gain again.  When the two reading `GetVolume` calls and the `SetVolume`
of `OnCKReset` succeed, both reads return the gain of the volume the primary buffer had
at `OnCKInit`, and after `OnCKReset` the primary buffer is at that volume.  The minions
of the starting state do not own the new primary buffer. -/
theorem reset_restores_global_gain (ctx ctxR : CKContext) (devI : InitDevice)
    (devR : ResetDevice) (dev1 dev2 dev3 : ListenerDevice) (o1 o2 o3 : ListenerOptions)
    (m0 m2 m4 : CKListenerSettings) (g : ℝ) (s0 : DX8SoundManager)
    (hen : ctx.disabledSound = false) (hinit : (OnCKInit ctx devI s0).1 = CK_OK)
    (hvol : SUCCEEDED devI.getVolume = true)
    (hfresh : ∀ m, some m ∈ s0.m_Minions → m.m_Source ≠ some devI.primary.obj)
    (ho1 : o1.gain = true) (ho2 : o2.gain = true) (ho3 : o3.gain = true)
    (h1 : SUCCEEDED dev1.getVolume = true) (h3 : SUCCEEDED dev3.getVolume = true)
    (hR : SUCCEEDED devR.setVolume = true) :
    let s1 := (OnCKInit ctx devI s0).2
    let r1 := UpdateListenerSettings dev1 o1 m0 false s1
    let r2 := UpdateListenerSettings dev2 o2 { m2 with m_GlobalGain := g } true r1.2
    let s4 := (OnCKReset ctxR devR r2.2).2
    let r3 := UpdateListenerSettings dev3 o3 m4 false s4
    r1.1.m_GlobalGain = DbToFloat devI.primaryVolume ∧
    r3.1.m_GlobalGain = r1.1.m_GlobalGain ∧
    (deviceBuffer s4 devI.primary.obj).volume = devI.primaryVolume := by
  intro s1 r1 r2 s4 r3
  have h := gain_after_reset ctx ctxR devI devR dev1 dev2 dev3 o1 o2 o3 m0 m2 m4 g s0 hen
    hinit hfresh ho1 ho2 ho3 h1 h3 hR
  simp only [hvol, if_true] at h
  exact ⟨h.1, h.2.1.trans h.1.symm, h.2.2⟩

/-- Witness of C13: init on the sample device (primary volume -300), read, write the gain
0.5, reset, read. -/
theorem reset_restores_global_gain_witness :
    sampleContext.disabledSound = false ∧
    (OnCKInit sampleContext deviceOk freshManager).1 = CK_OK ∧
    SUCCEEDED deviceOk.getVolume = true ∧
    (∀ m, some m ∈ freshManager.m_Minions → m.m_Source ≠ some deviceOk.primary.obj) ∧
    gainOnly.gain = true ∧ SUCCEEDED listenerOk.getVolume = true ∧
    SUCCEEDED resetOk.setVolume = true ∧
    (UpdateListenerSettings listenerOk gainOnly sampleSettings false
      (OnCKInit sampleContext deviceOk freshManager).2).1.m_GlobalGain = DbToFloat (-300) ∧
    (UpdateListenerSettings listenerOk gainOnly sampleSettings false
      (OnCKReset sampleContext resetOk
        (UpdateListenerSettings listenerOk gainOnly
          { sampleSettings with m_GlobalGain := 1 / 2 } true
          (UpdateListenerSettings listenerOk gainOnly sampleSettings false
            (OnCKInit sampleContext deviceOk freshManager).2).2).2).2).1.m_GlobalGain =
      (UpdateListenerSettings listenerOk gainOnly sampleSettings false
        (OnCKInit sampleContext deviceOk freshManager).2).1.m_GlobalGain := by
  have hm : ∀ m, some m ∈ freshManager.m_Minions → m.m_Source ≠ some deviceOk.primary.obj := by
    intro m hmem
    simp [freshManager, DX8SoundManager.construct] at hmem
  have h := reset_restores_global_gain sampleContext sampleContext deviceOk resetOk
    listenerOk listenerOk listenerOk gainOnly gainOnly gainOnly sampleSettings sampleSettings
    sampleSettings (1 / 2) freshManager rfl rfl rfl hm rfl rfl rfl rfl rfl rfl
  exact ⟨rfl, rfl, rfl, hm, rfl, rfl, rfl, h.1, h.2.1⟩

/-! ## The claims on reset, scene changes, the frame loop and the error mapping -/

/-- Claim C14, counterexample.  After `OnCKEnd` the device pointers are null, so
`OnCKReset` returns `CK_OK` at its first test and the registry and the pool stay as they
were: two ids and one minion. -/
theorem OnCKReset_after_end_keeps_registry :
    (OnCKReset sampleContext resetOk endedManager).1 = CK_OK ∧
    (OnCKReset sampleContext resetOk endedManager).2.m_SoundsPlaying = [3, 4] ∧
    (OnCKReset sampleContext resetOk endedManager).2.m_Minions = [some sampleMinion] := by
  refine ⟨rfl, rfl, rfl⟩

/-- Claim C14, amended.  `OnCKReset` returns `CK_OK`; when `m_Root` and `m_Primary` are
both non-null the registry and the minion pool are empty afterwards, otherwise both are
as before the call. -/
theorem OnCKReset_empties_registry_and_pool (ctx : CKContext) (dev : ResetDevice)
    (s : DX8SoundManager) :
    (OnCKReset ctx dev s).1 = CK_OK ∧
    (OnCKReset ctx dev s).2.m_SoundsPlaying =
      (if ValidateDirectSound s then [] else s.m_SoundsPlaying) ∧
    (OnCKReset ctx dev s).2.m_Minions =
      (if ValidateDirectSound s then [] else s.m_Minions) := by
  refine ⟨OnCKReset_code ctx dev s, ?_, ?_⟩
  · unfold OnCKReset
    by_cases hv : ValidateDirectSound s = true
    · simp only [hv, Bool.not_true, Bool.false_eq_true, if_false, if_true]
      split <;> split <;> (try split_ifs) <;> simp_all
    · simp [hv]
  · unfold OnCKReset
    by_cases hv : ValidateDirectSound s = true
    · simp only [hv, Bool.not_true, Bool.false_eq_true, if_false, if_true]
      split <;> split <;> (try split_ifs) <;> simp_all
    · simp [hv]

/-- Claim C15.  For a non-null id array and a positive count, the registry after
`SequenceToBeDeleted` is the prior registry, in order, without the ids whose object is
null or flagged for deletion; every id that remains resolves to an object that is not
flagged. -/
theorem SequenceToBeDeleted_filters_registry (ctx : CKContext) (baseResult : CKERROR)
    (ids : List CK_ID) (count : Int) (s : DX8SoundManager) (hc : 0 < count) :
    (SequenceToBeDeleted ctx baseResult (some ids) count s).2.m_SoundsPlaying =
      s.m_SoundsPlaying.filter (fun id =>
        match ctx.getObject id with
        | some o => !o.toBeDeleted
        | none => false) ∧
    ∀ id ∈ (SequenceToBeDeleted ctx baseResult (some ids) count s).2.m_SoundsPlaying,
      ∃ o, ctx.getObject id = some o ∧ o.toBeDeleted = false := by
  have hkey : (SequenceToBeDeleted ctx baseResult (some ids) count s).2.m_SoundsPlaying =
      s.m_SoundsPlaying.filter ctx.alive := by
    simp [SequenceToBeDeleted, not_le.mpr hc, purgePlaying_kept]
  refine ⟨hkey, ?_⟩
  intro id hid
  rw [hkey, List.mem_filter] at hid
  have ha := hid.2
  unfold CKContext.alive at ha
  cases hg : ctx.getObject id with
  | none => simp [hg] at ha
  | some o => exact ⟨o, rfl, by simpa [hg] using ha⟩

/-- Witness of C15: of the registry ids 3 and 4 the host resolves only 3, which stays. -/
theorem SequenceToBeDeleted_filters_registry_witness :
    (0 : Int) < 1 ∧
    (SequenceToBeDeleted sampleContext CK_OK (some [4]) 1 playingManager).2.m_SoundsPlaying =
      [3] := by
  refine ⟨by decide, ?_⟩
  rw [(SequenceToBeDeleted_filters_registry sampleContext CK_OK [4] 1 playingManager
    (by decide)).1]
  rfl

/-- Claim C16, failing input.  The host does not resolve the id 7.  A minion whose
original sound and entity both have the id 7 comes out of `SequenceToBeDeleted` with
`m_Entity` zeroed but `m_OriginalSound` still 7: the original is tested with
`ws && ws->IsToBeDeleted()`, the entity with `!entity || entity->IsToBeDeleted()`. -/
theorem SequenceToBeDeleted_keeps_unresolved_original :
    sampleContext.getObject 7 = none ∧
    (SequenceToBeDeleted sampleContext CK_OK (some [7]) 1 orphanManager).2.m_Minions =
      [some { orphanMinion with m_OriginalSound := 7, m_Entity := 0 }] := by
  refine ⟨rfl, rfl⟩

/-- Claim C17.  For a non-null new scene `PreLaunchScene` returns `CK_OK` and leaves the
registry as it is; the sounds it pauses are exactly the registry ids that resolve to a
sound outside the new scene (so none in the new scene); the pool afterwards holds exactly
the prior entries that are a minion whose original sound resolves and is in the new
scene. -/
theorem PreLaunchScene_pauses_outside (ctx : CKContext) (oldScene : Option CK_ID)
    (scene : CK_ID) (s : DX8SoundManager) :
    (PreLaunchScene ctx oldScene (some scene) s).1 = CK_OK ∧
    (PreLaunchScene ctx oldScene (some scene) s).2.m_SoundsPlaying = s.m_SoundsPlaying ∧
    (∃ tr, (PreLaunchScene ctx oldScene (some scene) s).2.trace = s.trace ++ tr ∧
      ∀ id, Event.wsPause id ∈ tr ↔
        (id ∈ s.m_SoundsPlaying ∧
          ∃ ws, ctx.getObject id = some ws ∧ ws.inScene scene = false)) ∧
    (∀ e, e ∈ (PreLaunchScene ctx oldScene (some scene) s).2.m_Minions ↔
      (e ∈ s.m_Minions ∧
        ∃ m ws, e = some m ∧ ctx.getObject m.m_OriginalSound = some ws ∧
          ws.inScene scene = true)) := by
  have hP := stopMinionsOutsideScene_extends (fun e => ∀ id, e ≠ Event.wsPause id)
    (fun b id h => by cases h) (fun b id h => by cases h) (fun b n id h => by cases h)
    ctx scene (pauseOutsideScene ctx scene s.m_SoundsPlaying s).m_Minions
    (pauseOutsideScene ctx scene s.m_SoundsPlaying s)
  obtain ⟨⟨tr, htr, hno⟩, hreg⟩ := hP
  refine ⟨rfl, ?_, ?_, ?_⟩
  · simp only [PreLaunchScene]
    rw [hreg, pauseOutsideScene_eq]
  · refine ⟨(s.m_SoundsPlaying.filter (ctx.outsideScene scene)).map Event.wsPause ++ tr, ?_, ?_⟩
    · simp only [PreLaunchScene]
      rw [htr, pauseOutsideScene_eq, List.append_assoc]
    · intro id
      rw [List.mem_append]
      constructor
      · rintro (h | h)
        · obtain ⟨a, ha, hEq⟩ := List.mem_map.mp h
          have haid : a = id := by cases hEq; rfl
          subst haid
          obtain ⟨hmem, hout⟩ := List.mem_filter.mp ha
          refine ⟨hmem, ?_⟩
          unfold CKContext.outsideScene at hout
          cases hg : ctx.getObject a with
          | none => simp [hg] at hout
          | some ws => exact ⟨ws, rfl, by simpa [hg] using hout⟩
        · exact absurd rfl (hno _ h id)
      · rintro ⟨hmem, ws, hg, hin⟩
        left
        refine List.mem_map.mpr ⟨id, List.mem_filter.mpr ⟨hmem, ?_⟩, rfl⟩
        simp [CKContext.outsideScene, hg, hin]
  · intro e
    simp only [PreLaunchScene]
    rw [stopMinionsOutsideScene_kept, List.mem_filter, pauseOutsideScene_eq]
    constructor
    · rintro ⟨hmem, hk⟩
      refine ⟨hmem, ?_⟩
      cases e with
      | none => simp at hk
      | some m =>
        cases hg : ctx.getObject m.m_OriginalSound with
        | none => simp [hg] at hk
        | some ws => exact ⟨m, ws, rfl, hg, by simpa [hg] using hk⟩
    · rintro ⟨hmem, m, ws, rfl, hg, hin⟩
      exact ⟨hmem, by simp [hg, hin]⟩

/-- Claim C18, failing input.  On a manager with non-null `m_Root` and `m_Primary` whose
minion pool has a null entry, `PostProcess` does not return: its second loop reads
`(*itm)->m_Source` of every entry without testing the pointer. -/
theorem PostProcess_null_minion_entry (ctx : CKContext) (dev : FrameDevice)
    (s : DX8SoundManager) (hv : ValidateDirectSound s = true) (hn : none ∈ s.m_Minions) :
    PostProcess ctx dev s = none := by
  unfold PostProcess
  simp only [hv, Bool.not_true, Bool.false_eq_true, if_false]
  rw [sweepMinions_null]
  simpa using hn

/-- Witness of C18: an initialised manager whose pool is a single null entry. -/
theorem PostProcess_null_minion_entry_witness :
    ValidateDirectSound nullEntryManager = true ∧ none ∈ nullEntryManager.m_Minions ∧
    PostProcess sampleContext frameIdle nullEntryManager = none :=
  ⟨rfl, by simp [nullEntryManager],
    PostProcess_null_minion_entry sampleContext frameIdle nullEntryManager rfl
      (by simp [nullEntryManager])⟩

/-- Claim C20.  `HandleDirectSoundError` returns for every result code; its code depends
on the result code alone, is `CK_OK` exactly for a non-negative one and otherwise maps
`DSERR_OUTOFMEMORY`, `DSERR_INVALIDPARAM` and `DSERR_BADFORMAT` (failure codes, all three)
to out-of-memory, invalid-parameter and invalid-file and every other failure to
invalid-operation; one console message is written when the code is a failure and the host
is in interface mode, and nothing otherwise. -/
theorem HandleDirectSoundError_maps_codes (ctx : CKContext) (hr : HRESULT)
    (operation : String) (s : DX8SoundManager) :
    ((HandleDirectSoundError ctx hr operation s).1 = CK_OK ↔ 0 ≤ hr) ∧
    (HandleDirectSoundError ctx hr operation s).1 =
      (if 0 ≤ hr then CK_OK
       else if hr = DSERR_OUTOFMEMORY then CKERR_OUTOFMEMORY
       else if hr = DSERR_INVALIDPARAM then CKERR_INVALIDPARAMETER
       else if hr = DSERR_BADFORMAT then CKERR_INVALIDFILE
       else CKERR_INVALIDOPERATION) ∧
    (DSERR_OUTOFMEMORY < 0 ∧ DSERR_INVALIDPARAM < 0 ∧ DSERR_BADFORMAT < 0) ∧
    (HandleDirectSoundError ctx hr operation s).2 =
      (if hr < 0 ∧ ctx.interfaceMode = true then
        emit (Event.outputToConsole
          ("DirectSound Error in " ++ operation ++ ": 0x" ++ hex8 hr)) s
       else s) ∧
    ((HandleDirectSoundError ctx hr operation s).2 ≠ s ↔
      (hr < 0 ∧ ctx.interfaceMode = true)) := by
  have hstate : (HandleDirectSoundError ctx hr operation s).2 =
      (if hr < 0 ∧ ctx.interfaceMode = true then
        emit (Event.outputToConsole
          ("DirectSound Error in " ++ operation ++ ": 0x" ++ hex8 hr)) s
       else s) := by
    unfold HandleDirectSoundError
    by_cases h0 : 0 ≤ hr
    · simp [SUCCEEDED, h0, not_lt.mpr h0]
    · have hlt : hr < 0 := not_le.mp h0
      by_cases hi : ctx.interfaceMode = true
      · simp only [SUCCEEDED, h0, decide_False, Bool.false_eq_true, if_false, hi, if_true, hlt,
          and_self]
        split_ifs <;> rfl
      · simp only [SUCCEEDED, h0, decide_False, Bool.false_eq_true, if_false, hi, hlt,
          and_false]
        split_ifs <;> rfl
  refine ⟨?_, ?_, ⟨by decide, by decide, by decide⟩, hstate, ?_⟩
  · rw [HandleDirectSoundError_code_ok]
    simp [SUCCEEDED]
  · unfold HandleDirectSoundError
    by_cases h0 : 0 ≤ hr
    · simp [SUCCEEDED, h0]
    · simp only [SUCCEEDED, h0, decide_False, Bool.false_eq_true, if_false]
      split_ifs <;> rfl
  · rw [hstate]
    by_cases hc : hr < 0 ∧ ctx.interfaceMode = true
    · simp only [hc, and_self, if_true, iff_true]
      exact emit_ne _ _
    · simp [hc]

/-- Claim C21.  A call that fails its argument validation returns
`CKERR_INVALIDPARAMETER` and the manager as it was, so without console output, device
call or change of state: `Lock` with a null source, a null `pvAudioPtr1` or a null
`dwAudioBytes1`; `Unlock`, `SetWaveFormat` and `GetWaveFormat` (which leaves `wf` alone)
with a null source; `PreLaunchScene` with a null new scene; `SequenceToBeDeleted` with a
null id array or a count that is not positive.  The other arguments, the host and the
device are free. -/
theorem invalid_arguments_rejected (ctx : CKContext) (s : DX8SoundManager) :
    (∀ hr cursor bytes p1 b1 p2 b2 flags,
      Lock ctx hr none cursor bytes p1 b1 p2 b2 flags s = (CKERR_INVALIDPARAMETER, s)) ∧
    (∀ hr source cursor bytes b1 p2 b2 flags,
      Lock ctx hr source cursor bytes none b1 p2 b2 flags s = (CKERR_INVALIDPARAMETER, s)) ∧
    (∀ hr source cursor bytes p1 p2 b2 flags,
      Lock ctx hr source cursor bytes p1 none p2 b2 flags s = (CKERR_INVALIDPARAMETER, s)) ∧
    (∀ hr p1 n1 p2 n2, Unlock ctx hr none p1 n1 p2 n2 s = (CKERR_INVALIDPARAMETER, s)) ∧
    (∀ hr wf, SetWaveFormat ctx hr none wf s = (CKERR_INVALIDPARAMETER, s)) ∧
    (∀ size hr wf, GetWaveFormat ctx size hr none wf s = (CKERR_INVALIDPARAMETER, wf, s)) ∧
    (∀ oldScene, PreLaunchScene ctx oldScene none s = (CKERR_INVALIDPARAMETER, s)) ∧
    (∀ baseResult count,
      SequenceToBeDeleted ctx baseResult none count s = (CKERR_INVALIDPARAMETER, s)) ∧
    (∀ baseResult ids count, count ≤ 0 →
      SequenceToBeDeleted ctx baseResult (some ids) count s = (CKERR_INVALIDPARAMETER, s)) := by
  refine ⟨fun _ _ _ _ _ _ _ _ => rfl, ?_, ?_, fun _ _ _ _ _ => rfl, fun _ _ => rfl,
    fun _ _ _ => rfl, fun _ => rfl, fun _ _ => rfl, ?_⟩
  · intro hr source cursor bytes b1 p2 b2 flags
    cases source <;> rfl
  · intro hr source cursor bytes p1 p2 b2 flags
    cases source <;> cases p1 <;> rfl
  · intro baseResult ids count h
    simp [SequenceToBeDeleted, h]

/-- Witness of C21: on a manager with two sounds in the registry and one minion, a
deletion notice with count 0 is refused and changes nothing. -/
theorem invalid_arguments_rejected_witness :
    SequenceToBeDeleted sampleContext CK_OK (some [3]) 0 playingManager =
      (CKERR_INVALIDPARAMETER, playingManager) :=
  (invalid_arguments_rejected sampleContext playingManager).2.2.2.2.2.2.2.2 CK_OK [3] 0
    (by decide)

/-- Claim C25.  `PositionSource` on a null buffer does nothing and leaves `oldpos`; on a
buffer whose `QueryInterface` for the 3D interface fails it makes no further call and
leaves `oldpos`; otherwise it writes, each with `DS3D_IMMEDIATE`, the position
`worldPos`, the velocity `worldPos - oldpos` and the cone orientation `worldDir`,
releases the interface and sets `oldpos` to `worldPos`, where `worldPos` and `worldDir`
are `position` and `direction` without an entity and their images under the entity's
`Transform` and `TransformVector` with one.  Nothing else of the manager changes.
The free function `Dx8PositionSource` gives the same result on every input. -/
theorem PositionSource_writes_immediate (dev : FrameDevice)
    (position direction oldpos : VxVector) (s : DX8SoundManager) :
    (∀ ent, PositionSource dev none ent position direction oldpos s = (oldpos, s)) ∧
    (∀ ent b, FAILED (dev.query3D b) = true →
      PositionSource dev (some b) ent position direction oldpos s =
        (oldpos, emit (Event.queryInterface3DBuffer b (dev.query3D b)) s)) ∧
    (∀ b, FAILED (dev.query3D b) = false →
      PositionSource dev (some b) none position direction oldpos s =
        (position,
          { s with trace := s.trace ++
              (Event.queryInterface3DBuffer b (dev.query3D b) ::
                positionWrites b position direction oldpos ++ [Event.release3DBuffer b]) })) ∧
    (∀ b e, FAILED (dev.query3D b) = false →
      PositionSource dev (some b) (some e) position direction oldpos s =
        (e.transform position,
          { s with trace := s.trace ++
              (Event.queryInterface3DBuffer b (dev.query3D b) ::
                positionWrites b (e.transform position) (e.transformVector direction) oldpos ++
                  [Event.release3DBuffer b]) })) ∧
    (∀ b worldPos worldDir, ∀ e ∈ positionWrites b worldPos worldDir oldpos,
      e.commitMode = some false) ∧
    (∀ psource ent, Dx8PositionSource dev psource ent position direction oldpos s =
      PositionSource dev psource ent position direction oldpos s) := by
  refine ⟨fun _ => rfl, ?_, ?_, ?_, ?_, fun _ _ => rfl⟩
  · intro ent b hb
    simp [PositionSource, hb]
  · intro b hb
    simp [PositionSource, hb, emit, positionWrites, List.append_assoc]
  · intro b e hb
    simp [PositionSource, hb, emit, positionWrites, List.append_assoc]
  · intro b worldPos worldDir e he
    simp [positionWrites] at he
    rcases he with rfl | rfl | rfl <;> rfl

/-- Witness of C25: the source 300 follows the entity `sampleObject` from the origin. -/
theorem PositionSource_writes_immediate_witness :
    PositionSource framePlaying (some 300) (some sampleObject) ⟨1, 2, 3⟩ ⟨0, 0, 1⟩ ⟨0, 0, 0⟩
        freshManager =
      (sampleObject.transform ⟨1, 2, 3⟩,
        { freshManager with trace := freshManager.trace ++
            (Event.queryInterface3DBuffer 300 (framePlaying.query3D 300) ::
              positionWrites 300 (sampleObject.transform ⟨1, 2, 3⟩)
                (sampleObject.transformVector ⟨0, 0, 1⟩) ⟨0, 0, 0⟩ ++
                  [Event.release3DBuffer 300]) }) :=
  (PositionSource_writes_immediate framePlaying ⟨1, 2, 3⟩ ⟨0, 0, 1⟩ ⟨0, 0, 0⟩
    freshManager).2.2.2.1 300 sampleObject rfl

/-! ## Commit modes of the settings methods: auxiliary facts -/

/-- The calls of `UpdateListenerSettings` in set mode, in order. -/
theorem UpdateListenerSettings_set_trace (dev : ListenerDevice) (o : ListenerOptions)
    (m : CKListenerSettings) (s : DX8SoundManager) (l : Handle) (hl : s.m_Listener = some l) :
    (UpdateListenerSettings dev o m true s).2.trace =
      s.trace ++
        ((if o.distance then [Event.listenerSetDistanceFactor l m.m_DistanceFactor false]
          else []) ++
        (if o.doppler then [Event.listenerSetDopplerFactor l m.m_DopplerFactor false]
          else []) ++
        (if o.rolloff then [Event.listenerSetRolloffFactor l m.m_RollOff false] else []) ++
        (if o.gain then
          match s.m_Primary with
          | some p => [Event.setVolume p (FloatToDb m.m_GlobalGain) dev.setVolume]
          | none => []
         else [])) := by
  rcases s with ⟨root, primary, listener, bi, v, c, sp, mi, gv, gc, bufs, tr⟩
  rcases o with ⟨d1, d2, d3, gg⟩
  simp only at hl
  subst hl
  by_cases hs : SUCCEEDED dev.setVolume = true <;>
    cases d1 <;> cases d2 <;> cases d3 <;> cases gg <;> cases primary <;>
    simp [UpdateListenerSettings, hs, emit, bufferSetVolume, storeVolume]

/-- The calls of the set branch of `Update3DSettings`, in order. -/
theorem set3DSettings_trace (b : Handle) (o : WaveSound3DOptions)
    (m : CKWaveSound3DSettings) (s : DX8SoundManager) :
    (set3DSettings b o m s).trace =
      s.trace ++
        ((if o.cone then
            [Event.setConeAngles b (truncToDword m.m_InAngle) (truncToDword m.m_OutAngle) false,
             Event.setConeOutsideVolume b (FloatToDb m.m_OutsideGain) false]
          else []) ++
        (if o.minMaxDistance then
            [Event.setMinDistance b m.m_MinDistance false,
             Event.setMaxDistance b m.m_MaxDistance false]
          else []) ++
        (if o.position then [Event.setPosition b m.m_Position false] else []) ++
        (if o.velocity then [Event.setVelocity b m.m_Velocity false] else []) ++
        (if o.orientation then [Event.setConeOrientation b m.m_OrientationDir false] else []) ++
        (if o.headRelative then
            [Event.setMode b
              (if m.m_HeadRelative != 0 then DS3DMODE_HEADRELATIVE else DS3DMODE_NORMAL) false]
          else [])) := by
  rcases o with ⟨c1, c2, c3, c4, c5, c6⟩
  cases c1 <;> cases c2 <;> cases c3 <;> cases c4 <;> cases c5 <;> cases c6 <;>
    simp [set3DSettings, emit]

/-- The set branch of `Update3DSettings` makes one write for each selected setting (two
for the cone, two for the distances), every one with `DS3D_IMMEDIATE`. -/
theorem set3DSettings_writes (b : Handle) (o : WaveSound3DOptions)
    (m : CKWaveSound3DSettings) (s : DX8SoundManager) :
    ∃ tr, (set3DSettings b o m s).trace = s.trace ++ tr ∧
      (∀ e ∈ tr, e.commitMode = some false) ∧
      (o.cone = true →
        Event.setConeAngles b (truncToDword m.m_InAngle) (truncToDword m.m_OutAngle) false
          ∈ tr ∧
        Event.setConeOutsideVolume b (FloatToDb m.m_OutsideGain) false ∈ tr) ∧
      (o.minMaxDistance = true →
        Event.setMinDistance b m.m_MinDistance false ∈ tr ∧
        Event.setMaxDistance b m.m_MaxDistance false ∈ tr) ∧
      (o.position = true → Event.setPosition b m.m_Position false ∈ tr) ∧
      (o.velocity = true → Event.setVelocity b m.m_Velocity false ∈ tr) ∧
      (o.orientation = true → Event.setConeOrientation b m.m_OrientationDir false ∈ tr) ∧
      (o.headRelative = true →
        Event.setMode b
          (if m.m_HeadRelative != 0 then DS3DMODE_HEADRELATIVE else DS3DMODE_NORMAL) false
          ∈ tr) := by
  refine ⟨_, set3DSettings_trace b o m s, ?_, ?_⟩
  · intro e he
    simp only [List.mem_append] at he
    rcases he with ((((he | he) | he) | he) | he) | he <;>
      split_ifs at he <;> simp at he <;>
      first
      | (subst he; rfl)
      | (rcases he with rfl | rfl <;> rfl)
  · refine ⟨?_, ?_, ?_, ?_, ?_, ?_⟩ <;> intro h <;> simp [h]

theorem bufferSetVolume_extends (P : Event → Prop) (hr : HRESULT) (b : Handle) (v : Int)
    (s : DX8SoundManager) (h : P (Event.setVolume b v hr)) :
    extendsTrace P s (bufferSetVolume hr b v s) := by
  unfold bufferSetVolume
  simp only []
  split_ifs
  · exact extendsTrace_of_trace_eq (extendsTrace_emit _ s h) rfl
  · exact extendsTrace_emit _ s h

theorem bufferSetPan_extends (P : Event → Prop) (hr : HRESULT) (b : Handle) (v : Int)
    (s : DX8SoundManager) (h : P (Event.setPan b v hr)) :
    extendsTrace P s (bufferSetPan hr b v s) := by
  unfold bufferSetPan
  simp only []
  split_ifs
  · exact extendsTrace_of_trace_eq (extendsTrace_emit _ s h) rfl
  · exact extendsTrace_emit _ s h

theorem bufferSetFrequency_extends (P : Event → Prop) (hr : HRESULT) (b : Handle) (f : Nat)
    (s : DX8SoundManager) (h : P (Event.setFrequency b f hr)) :
    extendsTrace P s (bufferSetFrequency hr b f s) := by
  unfold bufferSetFrequency
  simp only []
  split_ifs
  · exact extendsTrace_of_trace_eq (extendsTrace_emit _ s h) rfl
  · exact extendsTrace_emit _ s h

theorem GetType_extends (P : Event → Prop) (hr : HRESULT) (source : Option Handle)
    (s : DX8SoundManager) (h : ∀ b, P (Event.getCaps b hr)) :
    extendsTrace P s (GetType hr source s).2 := by
  cases source with
  | none => exact extendsTrace_refl P s
  | some b =>
    unfold GetType
    simp only []
    split_ifs <;> exact extendsTrace_emit _ s (h b)

/-- No call of `UpdateSettings` takes a commit mode: the calls it makes are `SetVolume`,
`GetFormat`, `SetFrequency`, `GetCaps`, `SetPan`, `GetVolume`, `GetFrequency` and
`GetPan` on the buffer. -/
theorem UpdateSettings_extends (dev : SettingsDevice) (source : Option Handle)
    (o : WaveSoundOptions) (m : CKWaveSoundSettings) (set : Bool) (s : DX8SoundManager) :
    extendsTrace (fun e => e.commitMode = none) s (UpdateSettings dev source o m set s).2 := by
  cases source with
  | none => exact extendsTrace_refl _ s
  | some b =>
    unfold UpdateSettings
    cases set with
    | true =>
      simp only [if_true]
      refine extendsTrace_trans (t := if o.gain = true then
        bufferSetVolume dev.setVolume b (FloatToDb m.m_Gain) s else s) ?_ ?_
      · split_ifs
        · exact bufferSetVolume_extends _ _ _ _ _ rfl
        · exact extendsTrace_refl _ _
      · generalize (if o.gain = true then
          bufferSetVolume dev.setVolume b (FloatToDb m.m_Gain) s else s) = s1
        refine extendsTrace_trans (t := if o.pitch = true then
          (if SUCCEEDED dev.getFormat = true then
            bufferSetFrequency dev.setFrequency b
              (truncToDword (((deviceBuffer s1 b).format.nSamplesPerSec : ℝ) * m.m_Pitch))
              (emit (Event.getFormat b sizeofWAVEFORMATEX dev.getFormat) s1)
           else emit (Event.getFormat b sizeofWAVEFORMATEX dev.getFormat) s1) else s1) ?_ ?_
        · split_ifs
          · exact extendsTrace_trans (extendsTrace_emit _ _ (by rfl))
              (bufferSetFrequency_extends _ _ _ _ _ rfl)
          · exact extendsTrace_emit _ _ (by rfl)
          · exact extendsTrace_refl _ _
        · generalize (if o.pitch = true then
            (if SUCCEEDED dev.getFormat = true then
              bufferSetFrequency dev.setFrequency b
                (truncToDword (((deviceBuffer s1 b).format.nSamplesPerSec : ℝ) * m.m_Pitch))
                (emit (Event.getFormat b sizeofWAVEFORMATEX dev.getFormat) s1)
             else emit (Event.getFormat b sizeofWAVEFORMATEX dev.getFormat) s1) else s1) = s2
          split_ifs
          · exact extendsTrace_trans (GetType_extends _ _ _ _ (fun _ => rfl))
              (bufferSetPan_extends _ _ _ _ _ rfl)
          · exact GetType_extends _ _ _ _ (fun _ => rfl)
          · exact extendsTrace_refl _ _
    | false =>
      simp only [Bool.false_eq_true, if_false]
      split_ifs <;>
        first
        | exact extendsTrace_refl _ _
        | exact extendsTrace_emit _ _ (by rfl)
        | exact extendsTrace_trans (extendsTrace_emit _ _ (by rfl)) (extendsTrace_emit _ _ (by rfl))
        | exact extendsTrace_trans (extendsTrace_emit _ _ (by rfl))
            (extendsTrace_trans (extendsTrace_emit _ _ (by rfl)) (extendsTrace_emit _ _ (by rfl)))
        | exact extendsTrace_trans (extendsTrace_emit _ _ (by rfl))
            (extendsTrace_trans (extendsTrace_emit _ _ (by rfl))
              (extendsTrace_trans (extendsTrace_emit _ _ (by rfl)) (extendsTrace_emit _ _ (by rfl))))

/-! ## The claim on the commit modes -/

/-- Claim C22, counterexample.  On an initialised manager (listener 102),
`UpdateListenerSettings` in set mode with the three factors selected makes the calls
`SetDistanceFactor`, `SetDopplerFactor` and `SetRolloffFactor`, each with
`DS3D_IMMEDIATE` (recorded as `false`), not with `DS3D_DEFERRED`. -/
theorem listener_factors_written_immediate :
    initialisedManager.m_Listener = some 102 ∧
    (UpdateListenerSettings listenerOk factorOptions sampleSettings true
        initialisedManager).2.trace =
      initialisedManager.trace ++
        [Event.listenerSetDistanceFactor 102 1 false,
         Event.listenerSetDopplerFactor 102 1 false,
         Event.listenerSetRolloffFactor 102 1 false] := by
  refine ⟨rfl, ?_⟩
  rw [UpdateListenerSettings_set_trace listenerOk factorOptions sampleSettings
    initialisedManager 102 rfl]
  rfl

/-- Claim C22, amended.  `UpdateListenerSettings` in set mode writes each selected factor
of the listener (distance, Doppler, roll-off) with `DS3D_IMMEDIATE`, and none of its calls
is deferred.  No call of `UpdateSettings` takes a commit mode.  `Update3DSettings` in set
mode, on a buffer that answers `QueryInterface`, makes between that call and the
`Release` of the interface one write for each selected setting (two for the cone, two for
the distances), every one with `DS3D_IMMEDIATE`. -/
theorem settings_use_immediate_commit (s : DX8SoundManager) :
    (∀ dev o m l, s.m_Listener = some l →
      ∃ tr, (UpdateListenerSettings dev o m true s).2.trace = s.trace ++ tr ∧
        (∀ e ∈ tr, e.commitMode ≠ some true) ∧
        (o.distance = true → Event.listenerSetDistanceFactor l m.m_DistanceFactor false ∈ tr) ∧
        (o.doppler = true → Event.listenerSetDopplerFactor l m.m_DopplerFactor false ∈ tr) ∧
        (o.rolloff = true → Event.listenerSetRolloffFactor l m.m_RollOff false ∈ tr)) ∧
    (∀ dev source o m set,
      extendsTrace (fun e => e.commitMode = none) s (UpdateSettings dev source o m set s).2) ∧
    (∀ dev b o m, FAILED dev.query3D = false →
      ∃ tr, (Update3DSettings dev (some b) o m true s).2.trace =
          s.trace ++ Event.queryInterface3DBuffer b dev.query3D :: tr ++
            [Event.release3DBuffer b] ∧
        (∀ e ∈ tr, e.commitMode = some false) ∧
        (o.cone = true →
          Event.setConeAngles b (truncToDword m.m_InAngle) (truncToDword m.m_OutAngle) false
            ∈ tr ∧
          Event.setConeOutsideVolume b (FloatToDb m.m_OutsideGain) false ∈ tr) ∧
        (o.minMaxDistance = true →
          Event.setMinDistance b m.m_MinDistance false ∈ tr ∧
          Event.setMaxDistance b m.m_MaxDistance false ∈ tr) ∧
        (o.position = true → Event.setPosition b m.m_Position false ∈ tr) ∧
        (o.velocity = true → Event.setVelocity b m.m_Velocity false ∈ tr) ∧
        (o.orientation = true → Event.setConeOrientation b m.m_OrientationDir false ∈ tr) ∧
        (o.headRelative = true →
          Event.setMode b
            (if m.m_HeadRelative != 0 then DS3DMODE_HEADRELATIVE else DS3DMODE_NORMAL) false
            ∈ tr)) := by
  refine ⟨?_, fun dev source o m set => UpdateSettings_extends dev source o m set s, ?_⟩
  · intro dev o m l hl
    refine ⟨_, UpdateListenerSettings_set_trace dev o m s l hl, ?_, ?_, ?_, ?_⟩
    · intro e he
      simp only [List.mem_append] at he
      rcases he with ((he | he) | he) | he
      · split_ifs at he <;> simp at he
        subst he
        simp [Event.commitMode]
      · split_ifs at he <;> simp at he
        subst he
        simp [Event.commitMode]
      · split_ifs at he <;> simp at he
        subst he
        simp [Event.commitMode]
      · split_ifs at he
        · cases hp : s.m_Primary with
          | none => rw [hp] at he; simp at he
          | some p =>
            rw [hp] at he
            simp at he
            subst he
            simp [Event.commitMode]
        · simp at he
    · intro h; simp [h]
    · intro h; simp [h]
    · intro h; simp [h]
  · intro dev b o m hq
    obtain ⟨tr, htr, hmode, hmem⟩ := set3DSettings_writes b o m
      (emit (Event.queryInterface3DBuffer b dev.query3D) s)
    refine ⟨tr, ?_, hmode, hmem⟩
    simp only [Update3DSettings, hq, Bool.false_eq_true, if_false, if_true, emit_trace, htr,
      List.append_assoc, List.singleton_append, List.cons_append, List.nil_append]

/-- Witness of C22: on an initialised manager the selected distance factor of the listener
is written with `DS3D_IMMEDIATE`, the calls of `UpdateSettings` on the source 200 take no
commit mode, and the position of the source 200 is written with `DS3D_IMMEDIATE`. -/
theorem settings_use_immediate_commit_witness :
    initialisedManager.m_Listener = some 102 ∧
    FAILED settings3DOk.query3D = false ∧
    (∃ tr, (UpdateListenerSettings listenerOk factorOptions sampleSettings true
        initialisedManager).2.trace = initialisedManager.trace ++ tr ∧
      Event.listenerSetDistanceFactor 102 sampleSettings.m_DistanceFactor false ∈ tr) ∧
    extendsTrace (fun e => e.commitMode = none) initialisedManager
      (UpdateSettings settingsOk (some 200) allSoundOptions sampleSoundSettings true
        initialisedManager).2 ∧
    (∃ tr, (Update3DSettings settings3DOk (some 200) all3DOptions sample3DSettings true
        initialisedManager).2.trace =
          initialisedManager.trace ++
            Event.queryInterface3DBuffer 200 settings3DOk.query3D :: tr ++
              [Event.release3DBuffer 200] ∧
      (∀ e ∈ tr, e.commitMode = some false) ∧
      Event.setPosition 200 sample3DSettings.m_Position false ∈ tr) :=
  ⟨rfl, rfl,
    match (settings_use_immediate_commit initialisedManager).1 listenerOk factorOptions
      sampleSettings 102 rfl with
    | ⟨tr, h1, _, h3, _, _⟩ => ⟨tr, h1, h3 rfl⟩,
    (settings_use_immediate_commit initialisedManager).2.1 settingsOk (some 200)
      allSoundOptions sampleSoundSettings true,
    match (settings_use_immediate_commit initialisedManager).2.2 settings3DOk 200
      all3DOptions sample3DSettings rfl with
    | ⟨tr, h1, h2, _, _, h5, _⟩ => ⟨tr, h1, h2, h5 rfl⟩⟩

/-! ## The stored flag and the device objects: auxiliary facts -/

/-- A clear `m_bInitialized` goes with three null pointers, and the pointers are all
null or all non-null: this holds after every lifecycle callback when it held before. -/
theorem LifecycleCall_run_flag (c : LifecycleCall) (s : DX8SoundManager)
    (h : (s.m_bInitialized = false →
        s.m_Root = none ∧ s.m_Primary = none ∧ s.m_Listener = none) ∧ handlesConsistent s) :
    ((c.run s).2.m_bInitialized = false →
      (c.run s).2.m_Root = none ∧ (c.run s).2.m_Primary = none ∧
        (c.run s).2.m_Listener = none) ∧ handlesConsistent (c.run s).2 := by
  obtain ⟨hf, hc⟩ := h
  cases c with
  | onCKInit ctx dev =>
    by_cases hd : ctx.disabledSound = true
    · rw [LifecycleCall.run, OnCKInit_disabled ctx dev s hd]
      exact ⟨hf, hc⟩
    · rcases OnCKInit_cases ctx dev s (by simpa using hd) with h | h
      · obtain ⟨-, -, h1, h2, h3, h4⟩ := h
        refine ⟨fun hx => ?_, Or.inr ?_⟩
        · rw [LifecycleCall.run, h4] at hx
          cases hx
        · simp [LifecycleCall.run, h1, h2, h3]
      · obtain ⟨-, -, h1, h2, h3, -⟩ := h
        exact ⟨fun _ => ⟨h1, h2, h3⟩, Or.inl ⟨h1, h2, h3⟩⟩
  | onCKEnd ctx =>
    by_cases hd : ctx.disabledSound = true
    · rw [LifecycleCall.run, OnCKEnd_disabled ctx s hd]
      exact ⟨hf, hc⟩
    · obtain ⟨-, h1, h2, h3, -, -⟩ := OnCKEnd_enabled ctx s (by simpa using hd)
      exact ⟨fun _ => ⟨h1, h2, h3⟩, Or.inl ⟨h1, h2, h3⟩⟩
  | onCKReset ctx dev =>
    have hr := OnCKReset_fields ctx dev s
    simp only [LifecycleCall.run, handlesConsistent, hr.1, hr.2.1, hr.2.2.1, hr.2.2.2.1]
    exact ⟨hf, hc⟩

/-- In every state the lifecycle callbacks reach from a constructed manager, a clear
`m_bInitialized` goes with three null pointers, the pointers are all null or all
non-null, and a true `IsInitialized()` goes with three non-null pointers. -/
theorem runLifecycle_flag_clear (v : VxVector) (calls : List LifecycleCall) :
    ((runLifecycle (DX8SoundManager.construct v) calls).m_bInitialized = false →
      (runLifecycle (DX8SoundManager.construct v) calls).m_Root = none ∧
      (runLifecycle (DX8SoundManager.construct v) calls).m_Primary = none ∧
      (runLifecycle (DX8SoundManager.construct v) calls).m_Listener = none) ∧
    handlesConsistent (runLifecycle (DX8SoundManager.construct v) calls) ∧
    ((IsInitialized (runLifecycle (DX8SoundManager.construct v) calls)).1 = true →
      (runLifecycle (DX8SoundManager.construct v) calls).m_Root ≠ none ∧
      (runLifecycle (DX8SoundManager.construct v) calls).m_Primary ≠ none ∧
      (runLifecycle (DX8SoundManager.construct v) calls).m_Listener ≠ none) := by
  have key : ∀ (calls : List LifecycleCall) (s : DX8SoundManager),
      ((s.m_bInitialized = false →
        s.m_Root = none ∧ s.m_Primary = none ∧ s.m_Listener = none) ∧ handlesConsistent s) →
      (((runLifecycle s calls).m_bInitialized = false →
        (runLifecycle s calls).m_Root = none ∧ (runLifecycle s calls).m_Primary = none ∧
          (runLifecycle s calls).m_Listener = none) ∧
        handlesConsistent (runLifecycle s calls)) := by
    intro calls
    induction calls with
    | nil => exact fun s h => h
    | cons c rest ih =>
      intro s h
      rw [runLifecycle_cons]
      exact ih _ (LifecycleCall_run_flag c s h)
  obtain ⟨h1, h2⟩ := key calls (DX8SoundManager.construct v)
    ⟨fun _ => ⟨rfl, rfl, rfl⟩, Or.inl ⟨rfl, rfl, rfl⟩⟩
  refine ⟨h1, h2, fun hi => ?_⟩
  rw [IsInitialized_value] at hi
  rcases h2 with ⟨e1, -, -⟩ | h
  · rw [e1] at hi
    simp at hi
  · exact h

/-- When every `OnCKInit` of the sequence is called with `m_bInitialized` clear, the flag
tells whether the three pointers are set: flag set, all non-null; flag clear, all null. -/
theorem runLifecycle_flag_exact (calls : List LifecycleCall) (s : DX8SoundManager)
    (h : (s.m_bInitialized = true →
        s.m_Root ≠ none ∧ s.m_Primary ≠ none ∧ s.m_Listener ≠ none) ∧
      (s.m_bInitialized = false →
        s.m_Root = none ∧ s.m_Primary = none ∧ s.m_Listener = none))
    (hp : initOnlyWhenClear s calls) :
    ((runLifecycle s calls).m_bInitialized = true →
      (runLifecycle s calls).m_Root ≠ none ∧ (runLifecycle s calls).m_Primary ≠ none ∧
        (runLifecycle s calls).m_Listener ≠ none) ∧
    ((runLifecycle s calls).m_bInitialized = false →
      (runLifecycle s calls).m_Root = none ∧ (runLifecycle s calls).m_Primary = none ∧
        (runLifecycle s calls).m_Listener = none) := by
  induction calls generalizing s with
  | nil => exact h
  | cons c rest ih =>
    rw [runLifecycle_cons]
    cases c with
    | onCKInit ctx dev =>
      obtain ⟨hclear, hrest⟩ := hp
      refine ih _ ?_ hrest
      by_cases hd : ctx.disabledSound = true
      · rw [LifecycleCall.run, OnCKInit_disabled ctx dev s hd]
        exact h
      · rcases OnCKInit_cases ctx dev s (by simpa using hd) with hc | hc
        · obtain ⟨-, -, h1, h2, h3, h4⟩ := hc
          simp [LifecycleCall.run, h1, h2, h3, h4]
        · obtain ⟨-, -, h1, h2, h3, h4⟩ := hc
          simp [LifecycleCall.run, h1, h2, h3, h4, hclear]
    | onCKEnd ctx =>
      refine ih _ ?_ hp
      by_cases hd : ctx.disabledSound = true
      · rw [LifecycleCall.run, OnCKEnd_disabled ctx s hd]
        exact h
      · obtain ⟨-, h1, h2, h3, h4, -⟩ := OnCKEnd_enabled ctx s (by simpa using hd)
        simp [LifecycleCall.run, h1, h2, h3, h4]
    | onCKReset ctx dev =>
      refine ih _ ?_ hp
      have hr := OnCKReset_fields ctx dev s
      simp only [LifecycleCall.run, hr.1, hr.2.1, hr.2.2.1, hr.2.2.2.1]
      exact h

/-! ## The claim on the stored flag -/

/-- Claim C23, failing input.  A constructed manager, an `OnCKInit` that succeeds, then
an `OnCKInit` whose `DirectSoundCreate` fails: the second call returns an error, and
afterwards `m_bInitialized` is still set while `m_Root`, `m_Primary` and `m_Listener` are
null.  The failure block cleans up and returns without clearing the flag. -/
theorem failed_reinit_leaves_flag_set :
    (OnCKInit sampleContext deviceNoRoot initialisedManager).1 = CKERR_INVALIDOPERATION ∧
    (runLifecycle freshManager [LifecycleCall.onCKInit sampleContext deviceOk,
      LifecycleCall.onCKInit sampleContext deviceNoRoot]).m_bInitialized = true ∧
    (runLifecycle freshManager [LifecycleCall.onCKInit sampleContext deviceOk,
      LifecycleCall.onCKInit sampleContext deviceNoRoot]).m_Root = none ∧
    (runLifecycle freshManager [LifecycleCall.onCKInit sampleContext deviceOk,
      LifecycleCall.onCKInit sampleContext deviceNoRoot]).m_Primary = none ∧
    (runLifecycle freshManager [LifecycleCall.onCKInit sampleContext deviceOk,
      LifecycleCall.onCKInit sampleContext deviceNoRoot]).m_Listener = none := by
  refine ⟨by decide, rfl, rfl, rfl, rfl⟩

/-! ## Releases of the device objects: auxiliary facts -/

/-- The calls of `CleanupDirectSoundResources`, in order: release the listener, stop and
release the primary buffer, release the root, each only when its pointer is set. -/
theorem CleanupDirectSoundResources_trace (s : DX8SoundManager) :
    (CleanupDirectSoundResources s).trace =
      s.trace ++
        ((match s.m_Listener with
          | some l => [Event.release l]
          | none => []) ++
        (match s.m_Primary with
          | some p => [Event.stop p, Event.release p]
          | none => []) ++
        (match s.m_Root with
          | some r => [Event.release r]
          | none => [])) := by
  rcases s with ⟨r, p, l, i, v, c, sp, ms, g, gc, bufs, tr⟩
  cases r <;> cases p <;> cases l <;>
    simp [CleanupDirectSoundResources, emit, dropBuffer]

/-- A second `CleanupDirectSoundResources` changes nothing: it makes no call. -/
theorem CleanupDirectSoundResources_idem (s : DX8SoundManager) :
    CleanupDirectSoundResources (CleanupDirectSoundResources s) =
      CleanupDirectSoundResources s := by
  rcases s with ⟨r, p, l, i, v, c, sp, ms, g, gc, bufs, tr⟩
  cases r <;> cases p <;> cases l <;> rfl

theorem releaseCount_append (h : Handle) (a b : List Event) :
    releaseCount h (a ++ b) = releaseCount h a + releaseCount h b := by
  induction a with
  | nil => simp [releaseCount]
  | cons e rest ih =>
    cases e <;> simp only [List.cons_append, releaseCount, List.append_eq, ih]
    split_ifs
    · omega
    · rfl

theorem releaseCount_eq_zero (h : Handle) (tr : List Event)
    (hno : ∀ e ∈ tr, e ≠ Event.release h) : releaseCount h tr = 0 := by
  induction tr with
  | nil => rfl
  | cons e rest ih =>
    have hr := ih (fun x hx => hno x (List.mem_cons_of_mem _ hx))
    cases e <;> simp only [releaseCount, hr]
    rename_i object
    have := hno (Event.release object) (List.mem_cons_self _ _)
    split_ifs with ho
    · subst ho
      exact absurd rfl this
    · rfl

theorem releaseCount_emit (h : Handle) (e : Event) (s : DX8SoundManager) :
    releaseCount h (emit e s).trace = releaseCount h s.trace + releaseCount h [e] := by
  simp [emit, releaseCount_append]

theorem releaseCount_Enter (h : Handle) (s : DX8SoundManager) :
    releaseCount h (EnterCriticalSection s).trace = releaseCount h s.trace := by
  unfold EnterCriticalSection
  split_ifs
  · rw [releaseCount_emit]; rfl
  · rfl

theorem releaseCount_Leave (h : Handle) (s : DX8SoundManager) :
    releaseCount h (LeaveCriticalSection s).trace = releaseCount h s.trace := by
  unfold LeaveCriticalSection
  split_ifs
  · rw [releaseCount_emit]; rfl
  · rfl

theorem releaseCount_forEachWaveSound (h : Handle) (ctx : CKContext) (act : CK_ID → Event)
    (hact : ∀ id, releaseCount h [act id] = 0) (ids : List CK_ID) (s : DX8SoundManager) :
    releaseCount h (forEachWaveSound ctx act ids s).trace = releaseCount h s.trace := by
  induction ids generalizing s with
  | nil => rfl
  | cons id rest ih =>
    unfold forEachWaveSound
    cases ctx.getObject id with
    | none => exact ih s
    | some o =>
      simp only []
      rw [ih, releaseCount_emit, hact]
      rfl

theorem releaseCount_HandleDirectSoundError (h : Handle) (ctx : CKContext) (hr : HRESULT)
    (op : String) (s : DX8SoundManager) :
    releaseCount h (HandleDirectSoundError ctx hr op s).2.trace = releaseCount h s.trace := by
  unfold HandleDirectSoundError
  split_ifs <;> first | rfl | (rw [releaseCount_emit]; rfl)

/-- What `CleanupDirectSoundResources` adds to the releases of the object `h`: one for
each of the three pointers that holds it. -/
theorem releaseCount_Cleanup (h : Handle) (s : DX8SoundManager) :
    releaseCount h (CleanupDirectSoundResources s).trace =
      releaseCount h s.trace +
        ((if s.m_Listener = some h then 1 else 0) + (if s.m_Primary = some h then 1 else 0) +
          (if s.m_Root = some h then 1 else 0)) := by
  rw [CleanupDirectSoundResources_trace, releaseCount_append]
  rcases s with ⟨r, p, l, i, v, c, sp, ms, g, gc, bufs, tr⟩
  cases r <;> cases p <;> cases l <;> simp [releaseCount, releaseCount_append] <;>
    split_ifs <;> simp_all

theorem releaseCount_initFailure (h : Handle) (ctx : CKContext) (hr : HRESULT)
    (warning op : String) (s : DX8SoundManager) :
    releaseCount h (initFailure ctx hr warning op s).2.trace =
      releaseCount h s.trace +
        ((if s.m_Listener = some h then 1 else 0) + (if s.m_Primary = some h then 1 else 0) +
          (if s.m_Root = some h then 1 else 0)) := by
  unfold initFailure
  simp only []
  rw [releaseCount_HandleDirectSoundError, releaseCount_Leave]
  by_cases hw : ctx.doWarn = true <;>
    simp [hw, releaseCount_append, releaseCount_Cleanup, releaseCount]

theorem releaseCount_OnCKEnd (h : Handle) (ctx : CKContext) (s : DX8SoundManager)
    (hen : ctx.disabledSound = false) :
    releaseCount h (OnCKEnd ctx s).2.trace =
      releaseCount h s.trace +
        ((if s.m_Listener = some h then 1 else 0) + (if s.m_Primary = some h then 1 else 0) +
          (if s.m_Root = some h then 1 else 0)) := by
  unfold OnCKEnd StopAllPlayingSounds
  simp only [hen, Bool.false_eq_true, if_false]
  rw [releaseCount_Leave]
  simp [releaseCount_Cleanup, releaseCount_forEachWaveSound, releaseCount, releaseCount_Enter,
    releaseCount_append]

/-- One `OnCKInit` on a manager that holds no device object, followed by `OnCKEnd`, both
with sound enabled: every object the `OnCKInit` created is released exactly once between
the start of the first call and the return of the second.  A creation call that fails
leaves a null pointer, and the device hands out three different objects. -/
theorem init_end_releases_once (ctx ctx2 : CKContext) (dev : InitDevice)
    (s : DX8SoundManager) (hen : ctx.disabledSound = false) (hen2 : ctx2.disabledSound = false)
    (hnull : s.m_Root = none ∧ s.m_Primary = none ∧ s.m_Listener = none)
    (hfail : dev.create.onFail = none ∧ dev.primary.onFail = none ∧
      dev.listener.onFail = none)
    (hdist : dev.create.obj ≠ dev.primary.obj ∧ dev.create.obj ≠ dev.listener.obj ∧
      dev.primary.obj ≠ dev.listener.obj) :
    (FAILED dev.create.hr = false →
      releaseCount dev.create.obj (OnCKEnd ctx2 (OnCKInit ctx dev s).2).2.trace =
        releaseCount dev.create.obj s.trace + 1) ∧
    (FAILED dev.create.hr = false → FAILED dev.cooperativeLevel = false →
      FAILED dev.primary.hr = false →
      releaseCount dev.primary.obj (OnCKEnd ctx2 (OnCKInit ctx dev s).2).2.trace =
        releaseCount dev.primary.obj s.trace + 1) ∧
    (FAILED dev.create.hr = false → FAILED dev.cooperativeLevel = false →
      FAILED dev.primary.hr = false → FAILED dev.listener.hr = false →
      releaseCount dev.listener.obj (OnCKEnd ctx2 (OnCKInit ctx dev s).2).2.trace =
        releaseCount dev.listener.obj s.trace + 1) := by
  obtain ⟨hn1, hn2, hn3⟩ := hnull
  obtain ⟨hf1, hf2, hf3⟩ := hfail
  obtain ⟨hd1, hd2, hd3⟩ := hdist
  have key : ∀ h : Handle,
      releaseCount h (OnCKEnd ctx2 (OnCKInit ctx dev s).2).2.trace =
        releaseCount h s.trace +
          ((if FAILED dev.create.hr = false ∧ FAILED dev.cooperativeLevel = false ∧
              FAILED dev.primary.hr = false ∧ FAILED dev.listener.hr = false ∧
              dev.listener.obj = h then 1 else 0) +
            (if FAILED dev.create.hr = false ∧ FAILED dev.cooperativeLevel = false ∧
              FAILED dev.primary.hr = false ∧ dev.primary.obj = h then 1 else 0) +
            (if FAILED dev.create.hr = false ∧ dev.create.obj = h then 1 else 0)) := by
    intro h
    have sf : ∀ hr : HRESULT, FAILED hr = true → SUCCEEDED hr = false := by
      intro hr hx
      simp [SUCCEEDED, FAILED] at hx ⊢
      exact hx
    have fs : ∀ hr : HRESULT, ¬ FAILED hr = true → SUCCEEDED hr = true := by
      intro hr hx
      simp [SUCCEEDED, FAILED] at hx ⊢
      exact hx
    rw [releaseCount_OnCKEnd h ctx2 _ hen2]
    unfold OnCKInit
    simp only [hen, Bool.false_eq_true, if_false]
    by_cases h1 : FAILED dev.create.hr = true
    · simp [h1, releaseCount_initFailure, releaseCount_append, releaseCount, releaseCount_Enter,
        OutParam.written, sf _ h1, hf1, hn1, hn2, hn3]
    · by_cases h2 : FAILED dev.cooperativeLevel = true
      · simp [h1, h2, releaseCount_initFailure, releaseCount_append, releaseCount,
          releaseCount_Enter, OutParam.written, fs _ h1, hn1, hn2, hn3]
      · by_cases h3 : FAILED dev.primary.hr = true
        · simp [h1, h2, h3, releaseCount_initFailure, releaseCount_append, releaseCount,
            releaseCount_Enter, OutParam.written, fs _ h1, sf _ h3, hf2, hn1, hn2, hn3]
        · by_cases h4 : FAILED dev.listener.hr = true
          · simp [h1, h2, h3, h4, releaseCount_initFailure, releaseCount_append, releaseCount,
              releaseCount_Enter, OutParam.written, fs _ h1, fs _ h3, sf _ h4, hf3, hn1, hn2,
              hn3]
          · by_cases h5 : FAILED dev.setFormat = true <;>
              by_cases h6 : ctx.interfaceMode = true <;>
              simp [h1, h2, h3, h4, h5, h6, releaseCount_append, releaseCount,
                releaseCount_Enter, releaseCount_Leave, releaseCount_forEachWaveSound,
                OutParam.written, fs _ h1, fs _ h3, fs _ h4, hn1, hn2, hn3]
  refine ⟨fun g1 => ?_, fun g1 g2 g3 => ?_, fun g1 g2 g3 g4 => ?_⟩
  · rw [key]
    simp [g1, Ne.symm hd1, Ne.symm hd2]
  · rw [key]
    simp [g1, g2, g3, hd1, Ne.symm hd3]
  · rw [key]
    simp [g1, g2, g3, g4, hd2, hd3]

/-! ## The claim on the release of the device objects -/

/-- Claim C28, failing input.  With sound enabled: an `OnCKInit` that creates the objects
100, 101 and 102, a second `OnCKInit` that creates 110, 111 and 112, then `OnCKEnd`.  When
`OnCKEnd` returns, the objects of the second call have been released once each and the
objects of the first call not at all: the second call stored its objects over the
pointers to them. -/
theorem reinit_never_releases_first_objects :
    sampleContext.disabledSound = false ∧
    releaseCount 100 (runLifecycle freshManager
      [LifecycleCall.onCKInit sampleContext deviceOk,
       LifecycleCall.onCKInit sampleContext deviceOkAgain,
       LifecycleCall.onCKEnd sampleContext]).trace = 0 ∧
    releaseCount 101 (runLifecycle freshManager
      [LifecycleCall.onCKInit sampleContext deviceOk,
       LifecycleCall.onCKInit sampleContext deviceOkAgain,
       LifecycleCall.onCKEnd sampleContext]).trace = 0 ∧
    releaseCount 102 (runLifecycle freshManager
      [LifecycleCall.onCKInit sampleContext deviceOk,
       LifecycleCall.onCKInit sampleContext deviceOkAgain,
       LifecycleCall.onCKEnd sampleContext]).trace = 0 ∧
    releaseCount 110 (runLifecycle freshManager
      [LifecycleCall.onCKInit sampleContext deviceOk,
       LifecycleCall.onCKInit sampleContext deviceOkAgain,
       LifecycleCall.onCKEnd sampleContext]).trace = 1 ∧
    releaseCount 111 (runLifecycle freshManager
      [LifecycleCall.onCKInit sampleContext deviceOk,
       LifecycleCall.onCKInit sampleContext deviceOkAgain,
       LifecycleCall.onCKEnd sampleContext]).trace = 1 ∧
    releaseCount 112 (runLifecycle freshManager
      [LifecycleCall.onCKInit sampleContext deviceOk,
       LifecycleCall.onCKInit sampleContext deviceOkAgain,
       LifecycleCall.onCKEnd sampleContext]).trace = 1 := by
  refine ⟨rfl, ?_, ?_, ?_, ?_, ?_, ?_⟩ <;> decide

/-! ## The playing registry: auxiliary facts -/

theorem AddIfNotHere_nodup (id : CK_ID) (ids : List CK_ID) (h : ids.Nodup) :
    (AddIfNotHere id ids).Nodup := by
  unfold AddIfNotHere
  split_ifs with hm
  · exact h
  · exact List.Nodup.append h (List.nodup_singleton id) (by simpa using hm)

theorem Play_registry (ws : Option CK_ID) (source minionSource : Option Handle) (loop : Bool)
    (s : DX8SoundManager) :
    (Play ws source minionSource loop s).m_SoundsPlaying =
      match ws, source with
      | some id, some _ => AddIfNotHere id s.m_SoundsPlaying
      | _, _ => s.m_SoundsPlaying := by
  cases source <;> cases ws <;> cases minionSource <;> rfl

theorem Pause_registry (ws : Option CK_ID) (source : Option Handle) (s : DX8SoundManager) :
    (Pause ws source s).m_SoundsPlaying = s.m_SoundsPlaying := by
  cases source <;> rfl

theorem PostClearAll_registry (baseResult : CKERROR) (s : DX8SoundManager) :
    (PostClearAll baseResult s).2.m_SoundsPlaying = [] := by
  simp [PostClearAll]

theorem OnCKReset_registry (ctx : CKContext) (dev : ResetDevice) (s : DX8SoundManager) :
    (OnCKReset ctx dev s).2.m_SoundsPlaying =
      (if ValidateDirectSound s then [] else s.m_SoundsPlaying) := by
  unfold OnCKReset
  by_cases hv : ValidateDirectSound s = true
  · simp only [hv, Bool.not_true, Bool.false_eq_true, if_false, if_true]
    split <;> split <;> (try split_ifs) <;> simp_all
  · simp [hv]

theorem PreLaunchScene_registry (ctx : CKContext) (oldScene newScene : Option CK_ID)
    (s : DX8SoundManager) :
    (PreLaunchScene ctx oldScene newScene s).2.m_SoundsPlaying = s.m_SoundsPlaying := by
  cases newScene with
  | none => rfl
  | some scene =>
    have hP := stopMinionsOutsideScene_extends (fun _ => True)
      (fun _ => trivial) (fun _ => trivial) (fun _ _ => trivial)
      ctx scene (pauseOutsideScene ctx scene s.m_SoundsPlaying s).m_Minions
      (pauseOutsideScene ctx scene s.m_SoundsPlaying s)
    simp only [PreLaunchScene]
    rw [hP.2, pauseOutsideScene_eq]

theorem SequenceToBeDeleted_registry (ctx : CKContext) (baseResult : CKERROR)
    (objids : Option (List CK_ID)) (count : Int) (s : DX8SoundManager) :
    (SequenceToBeDeleted ctx baseResult objids count s).2.m_SoundsPlaying =
      s.m_SoundsPlaying ∨
    (SequenceToBeDeleted ctx baseResult objids count s).2.m_SoundsPlaying =
      s.m_SoundsPlaying.filter ctx.alive := by
  cases objids with
  | none => exact Or.inl rfl
  | some ids =>
    by_cases hc : count ≤ 0
    · left
      simp [SequenceToBeDeleted, hc]
    · right
      simp only [SequenceToBeDeleted, hc, if_false]
      rw [purgePlaying_kept]
      rfl

/-- A call on the registry that completes leaves a registry without repetition as one
without repetition. -/
theorem RegistryCall_run_nodup (c : RegistryCall) (s t : DX8SoundManager)
    (h : s.m_SoundsPlaying.Nodup) (ht : c.run s = some t) : t.m_SoundsPlaying.Nodup := by
  cases c with
  | play ws source minionSource loop =>
    simp only [RegistryCall.run, Option.some.injEq] at ht
    subst ht
    rw [Play_registry]
    cases ws <;> cases source <;> first | exact h | exact AddIfNotHere_nodup _ _ h
  | pause ws source =>
    simp only [RegistryCall.run, Option.some.injEq] at ht
    subst ht
    rw [Pause_registry]
    exact h
  | postProcess ctx dev =>
    simp only [RegistryCall.run, Option.map_eq_some'] at ht
    obtain ⟨r, hr, rfl⟩ := ht
    by_cases hv : ValidateDirectSound s = true
    · rw [PostProcess_registry ctx dev s r hv hr]
      exact h.filter _
    · have : PostProcess ctx dev s = some (CK_OK, s) := by simp [PostProcess, hv]
      rw [this] at hr
      cases hr
      exact h
  | onCKReset ctx dev =>
    simp only [RegistryCall.run, Option.some.injEq] at ht
    subst ht
    rw [OnCKReset_registry]
    split_ifs
    · exact List.nodup_nil
    · exact h
  | postClearAll baseResult =>
    simp only [RegistryCall.run, Option.some.injEq] at ht
    subst ht
    rw [PostClearAll_registry]
    exact List.nodup_nil
  | preLaunchScene ctx oldScene newScene =>
    simp only [RegistryCall.run, Option.some.injEq] at ht
    subst ht
    rw [PreLaunchScene_registry]
    exact h
  | sequenceToBeDeleted ctx baseResult objids count =>
    simp only [RegistryCall.run, Option.some.injEq] at ht
    subst ht
    rcases SequenceToBeDeleted_registry ctx baseResult objids count s with e | e
    · rw [e]; exact h
    · rw [e]; exact h.filter _

theorem runRegistry_nodup (calls : List RegistryCall) (s t : DX8SoundManager)
    (h : s.m_SoundsPlaying.Nodup) (ht : runRegistry s calls = some t) :
    t.m_SoundsPlaying.Nodup := by
  induction calls generalizing s with
  | nil =>
    simp only [runRegistry, Option.some.injEq] at ht
    subst ht
    exact h
  | cons c rest ih =>
    simp only [runRegistry] at ht
    cases hc : c.run s with
    | none => rw [hc] at ht; cases ht
    | some u =>
      rw [hc] at ht
      exact ih u (RegistryCall_run_nodup c s u h hc) ht

/-! ## The claim on the playing registry -/

/-- Claim C27.  From a manager with an empty registry, after every sequence of `Play`,
`Pause`, `PostProcess`, `OnCKReset`, `PostClearAll`, `PreLaunchScene` and
`SequenceToBeDeleted` calls that completes, no id occurs twice in the registry.  On a
registry without repetition, `Play` with a non-null sound and source leaves the registry
as it is when the id is in it and appends the id otherwise, so that the id then occurs
exactly once; `Play` with a null sound and `Pause` leave the registry as it is.
`AddIfNotHere` is modelled from the spec. -/
theorem registry_is_ordered_set (s : DX8SoundManager) (hs : s.m_SoundsPlaying = []) :
    (∀ calls t, runRegistry s calls = some t →
      t.m_SoundsPlaying.Nodup ∧
      ∀ id b minionSource loop,
        (Play (some id) (some b) minionSource loop t).m_SoundsPlaying.count id = 1) ∧
    (∀ (t : DX8SoundManager) id b minionSource loop,
      (Play (some id) (some b) minionSource loop t).m_SoundsPlaying =
        (if id ∈ t.m_SoundsPlaying then t.m_SoundsPlaying else t.m_SoundsPlaying ++ [id])) ∧
    (∀ (t : DX8SoundManager) source minionSource loop,
      (Play none source minionSource loop t).m_SoundsPlaying = t.m_SoundsPlaying) ∧
    (∀ (t : DX8SoundManager) ws source,
      (Pause ws source t).m_SoundsPlaying = t.m_SoundsPlaying) := by
  have h0 : s.m_SoundsPlaying.Nodup := by rw [hs]; exact List.nodup_nil
  refine ⟨fun calls t ht => ?_, fun t id b minionSource loop => ?_,
    fun t source minionSource loop => ?_, fun t ws source => Pause_registry ws source t⟩
  · have hn := runRegistry_nodup calls s t h0 ht
    refine ⟨hn, fun id b minionSource loop => ?_⟩
    have hp : (Play (some id) (some b) minionSource loop t).m_SoundsPlaying =
        AddIfNotHere id t.m_SoundsPlaying := Play_registry _ _ _ _ _
    rw [hp]
    apply List.count_eq_one_of_mem (AddIfNotHere_nodup id _ hn)
    unfold AddIfNotHere
    split_ifs with hm
    · exact hm
    · simp
  · exact (Play_registry _ _ _ _ _).trans rfl
  · cases source <;> cases minionSource <;> rfl

/-- Witness of C27: on a constructed manager the sound 3 is played, the sound 4 is played,
and the sound 3 is played again; the registry is then `[3, 4]`. -/
theorem registry_is_ordered_set_witness :
    freshManager.m_SoundsPlaying = [] ∧
    runRegistry freshManager
      [RegistryCall.play (some 3) (some 200) none false,
       RegistryCall.play (some 4) (some 201) none false,
       RegistryCall.play (some 3) (some 200) none true] =
      some (Play (some 3) (some 200) none true (Play (some 4) (some 201) none false
        (Play (some 3) (some 200) none false freshManager))) ∧
    (Play (some 3) (some 200) none true (Play (some 4) (some 201) none false
      (Play (some 3) (some 200) none false freshManager))).m_SoundsPlaying = [3, 4] ∧
    (Play (some 3) (some 200) none true (Play (some 4) (some 201) none false
      (Play (some 3) (some 200) none false freshManager))).m_SoundsPlaying.Nodup :=
  ⟨rfl, rfl, rfl,
    ((registry_is_ordered_set freshManager rfl).1
      [RegistryCall.play (some 3) (some 200) none false,
       RegistryCall.play (some 4) (some 201) none false,
       RegistryCall.play (some 3) (some 200) none true] _ rfl).1⟩

/-! ## The calls between entering and leaving the critical section: auxiliary facts -/

theorem extendsTrace_mono {P Q : Event → Prop} {s t : DX8SoundManager}
    (hPQ : ∀ e, P e → Q e) (h : extendsTrace P s t) : extendsTrace Q s t := by
  obtain ⟨tr, htr, hP⟩ := h
  exact ⟨tr, htr, fun e he => hPQ e (hP e he)⟩

theorem forEachWaveSound_extends (P : Event → Prop) (ctx : CKContext) (act : CK_ID → Event)
    (hact : ∀ id, P (act id)) (ids : List CK_ID) (s : DX8SoundManager) :
    extendsTrace P s (forEachWaveSound ctx act ids s) := by
  induction ids generalizing s with
  | nil => exact extendsTrace_refl P s
  | cons id rest ih =>
    unfold forEachWaveSound
    cases ctx.getObject id with
    | none => exact ih s
    | some o => exact extendsTrace_trans (extendsTrace_emit _ s (hact id)) (ih _)

theorem CleanupDirectSoundResources_extends (P : Event → Prop) (hstop : ∀ b, P (Event.stop b))
    (hrel : ∀ b, P (Event.release b)) (s : DX8SoundManager) :
    extendsTrace P s (CleanupDirectSoundResources s) := by
  refine ⟨_, CleanupDirectSoundResources_trace s, ?_⟩
  intro e he
  simp only [List.mem_append] at he
  rcases he with (he | he) | he
  · cases hl : s.m_Listener with
    | none => rw [hl] at he; simp at he
    | some l => rw [hl] at he; simp at he; subst he; exact hrel l
  · cases hp : s.m_Primary with
    | none => rw [hp] at he; simp at he
    | some p =>
      rw [hp] at he
      simp at he
      rcases he with rfl | rfl
      · exact hstop p
      · exact hrel p
  · cases hr : s.m_Root with
    | none => rw [hr] at he; simp at he
    | some r => rw [hr] at he; simp at he; subst he; exact hrel r

theorem HandleDirectSoundError_extends (P : Event → Prop)
    (hP : ∀ msg, P (Event.outputToConsole msg)) (ctx : CKContext) (hr : HRESULT)
    (op : String) (s : DX8SoundManager) :
    extendsTrace P s (HandleDirectSoundError ctx hr op s).2 := by
  unfold HandleDirectSoundError
  split_ifs <;> first | exact extendsTrace_refl P s | exact extendsTrace_emit _ s (hP _)

theorem releaseAll_extends (P : Event → Prop) (hstop : ∀ b, P (Event.stop b))
    (hrel : ∀ b, P (Event.release b)) (ms : List (Option SoundMinion)) (s : DX8SoundManager) :
    extendsTrace P s (ms.foldl
      (fun acc entry =>
        match entry with
        | some m => ReleaseSource m.m_Source acc
        | none => acc) s) := by
  induction ms generalizing s with
  | nil => exact extendsTrace_refl P s
  | cons e rest ih =>
    simp only [List.foldl_cons]
    cases e with
    | none => exact ih s
    | some m => exact extendsTrace_trans (ReleaseSource_extends P hstop hrel _ s) (ih _)

theorem ReleaseMinions_extends (P : Event → Prop) (hstop : ∀ b, P (Event.stop b))
    (hrel : ∀ b, P (Event.release b)) (s : DX8SoundManager) :
    extendsTrace P s (ReleaseMinions s) :=
  extendsTrace_of_trace_eq (releaseAll_extends P hstop hrel s.m_Minions s) rfl

theorem internalStops_extends (P : Event → Prop) (hP : ∀ id, P (Event.wsInternalStop id))
    (ctx : CKContext) (ids : List CK_ID) (s : DX8SoundManager) :
    extendsTrace P s (ids.foldl
      (fun acc id =>
        match ctx.getObject id with
        | some ws => if ws.hasSource then emit (Event.wsInternalStop id) acc else acc
        | none => acc) s) := by
  induction ids generalizing s with
  | nil => exact extendsTrace_refl P s
  | cons id rest ih =>
    simp only [List.foldl_cons]
    cases ctx.getObject id with
    | none => exact ih s
    | some ws =>
      simp only []
      split_ifs
      · exact extendsTrace_trans (extendsTrace_emit _ s (hP id)) (ih _)
      · exact ih s

theorem sweepPlaying_extends (ctx : CKContext) (ids : List CK_ID) (s : DX8SoundManager) :
    extendsTrace (fun e => e.isPlain = true) s (sweepPlaying ctx ids s).2.2 := by
  induction ids generalizing s with
  | nil => exact extendsTrace_refl _ s
  | cons id rest ih =>
    unfold sweepPlaying
    cases ctx.getObject id with
    | none => exact ih s
    | some ws =>
      simp only []
      split_ifs
      · exact extendsTrace_trans (extendsTrace_trans (extendsTrace_trans
          (extendsTrace_emit _ s (by rfl)) (extendsTrace_emit _ _ (by rfl)))
          (extendsTrace_emit _ _ (by rfl))) (ih _)
      · exact extendsTrace_trans (extendsTrace_trans
          (extendsTrace_emit _ s (by rfl)) (extendsTrace_emit _ _ (by rfl))) (ih _)
      · exact extendsTrace_trans (extendsTrace_trans
          (extendsTrace_emit _ s (by rfl)) (extendsTrace_emit _ _ (by rfl))) (ih _)
      · exact extendsTrace_trans (extendsTrace_emit _ s (by rfl)) (ih _)
      · exact ih s

theorem IsPlaying_extends (dev : FrameDevice) (source : Option Handle) (s : DX8SoundManager) :
    extendsTrace (fun e => e.isPlain = true) s (IsPlaying dev source s).2 := by
  cases source with
  | none => exact extendsTrace_refl _ s
  | some b =>
    unfold IsPlaying
    simp only []
    split_ifs <;> exact extendsTrace_emit _ s (by rfl)

theorem PositionSource_extends (dev : FrameDevice) (psource : Option Handle)
    (ent : Option CKObject) (position direction oldpos : VxVector) (s : DX8SoundManager) :
    extendsTrace (fun e => e.isPlain = true) s
      (PositionSource dev psource ent position direction oldpos s).2 := by
  cases psource with
  | none => exact extendsTrace_refl _ s
  | some b =>
    unfold PositionSource
    simp only []
    split_ifs
    · exact extendsTrace_emit _ s (by rfl)
    · exact extendsTrace_trans (extendsTrace_trans (extendsTrace_trans (extendsTrace_trans
        (extendsTrace_emit _ s (by rfl)) (extendsTrace_emit _ _ (by rfl)))
        (extendsTrace_emit _ _ (by rfl))) (extendsTrace_emit _ _ (by rfl)))
        (extendsTrace_emit _ _ (by rfl))

theorem repositionMinion_extends (ctx : CKContext) (dev : FrameDevice) (m : SoundMinion)
    (s : DX8SoundManager) :
    extendsTrace (fun e => e.isPlain = true) s (repositionMinion ctx dev m s).2 := by
  unfold repositionMinion
  split_ifs
  · cases ctx.getObject m.m_Entity with
    | none => exact extendsTrace_refl _ s
    | some ent => exact PositionSource_extends _ _ _ _ _ _ _
  · exact extendsTrace_refl _ s

theorem sweepMinions_extends (ctx : CKContext) (dev : FrameDevice)
    (ms : List (Option SoundMinion)) (s : DX8SoundManager)
    (r : List (Option SoundMinion) × Bool × DX8SoundManager)
    (h : sweepMinions ctx dev ms s = some r) :
    extendsTrace (fun e => e.isPlain = true) s r.2.2 := by
  induction ms generalizing s r with
  | nil =>
    simp only [sweepMinions, Option.some.injEq] at h
    subst h
    exact extendsTrace_refl _ s
  | cons e rest ih =>
    cases e with
    | none => simp [sweepMinions] at h
    | some m =>
      simp only [sweepMinions] at h
      split_ifs at h
      · simp only [Option.map_eq_some'] at h
        obtain ⟨q, hq, rfl⟩ := h
        exact extendsTrace_trans (extendsTrace_trans (IsPlaying_extends _ _ _)
          (repositionMinion_extends _ _ _ _)) (ih _ q hq)
      · simp only [Option.map_eq_some'] at h
        obtain ⟨q, hq, rfl⟩ := h
        exact extendsTrace_trans (IsPlaying_extends _ _ _) (ih _ q hq)

theorem reapMinions_extends (dev : FrameDevice) (ms : List (Option SoundMinion))
    (s : DX8SoundManager) :
    extendsTrace (fun e => e.isPlain = true) s (reapMinions dev ms s).2 := by
  induction ms generalizing s with
  | nil => exact extendsTrace_refl _ s
  | cons e rest ih =>
    cases e with
    | none => exact ih s
    | some m =>
      simp only [reapMinions]
      split_ifs
      · exact extendsTrace_trans (IsPlaying_extends _ _ _) (ih _)
      · exact extendsTrace_trans (extendsTrace_trans (IsPlaying_extends _ _ _)
          (ReleaseSource_extends _ (fun _ => by rfl) (fun _ => by rfl) _ _)) (ih _)

theorem ProcessMinions_extends (dev : FrameDevice) (s : DX8SoundManager) :
    extendsTrace (fun e => e.isPlain = true) s (ProcessMinions dev s) :=
  extendsTrace_of_trace_eq (reapMinions_extends dev s.m_Minions s) rfl

theorem purgePlaying_extends (P : Event → Prop) (hP : ∀ id, P (Event.wsStop id))
    (ctx : CKContext) (ids : List CK_ID) (s : DX8SoundManager) :
    extendsTrace P s (purgePlaying ctx ids s).2 := by
  induction ids generalizing s with
  | nil => exact extendsTrace_refl P s
  | cons id rest ih =>
    unfold purgePlaying
    cases ctx.getObject id with
    | none => exact ih s
    | some ws =>
      simp only []
      split_ifs
      · exact extendsTrace_trans (extendsTrace_emit _ s (hP id)) (ih _)
      · exact ih s

/-! ## The depth of the critical section: auxiliary facts -/

theorem lockDepth_append (a b : List Event) : lockDepth (a ++ b) = lockDepth a + lockDepth b := by
  simp [lockDepth]

theorem lockDepth_eq_zero (tr : List Event) (h : ∀ e ∈ tr, e.isLockCall = false) :
    lockDepth tr = 0 := by
  induction tr with
  | nil => rfl
  | cons e rest ih =>
    have hr := ih (fun x hx => h x (List.mem_cons_of_mem _ hx))
    have he := h e (List.mem_cons_self _ _)
    have hstep : e.lockStep = 0 := by
      cases e <;> first | rfl | cases he
    simp only [lockDepth, List.map_cons, List.sum_cons, hstep, zero_add]
    exact hr

theorem lockDepth_console (tr : List Event) (h : ∀ e ∈ tr, ∃ msg, e = Event.outputToConsole msg) :
    lockDepth tr = 0 := by
  apply lockDepth_eq_zero
  intro e he
  obtain ⟨msg, rfl⟩ := h e he
  rfl

theorem lockDepth_unlockedCall {s t : DX8SoundManager} (h : unlockedCall s t) :
    lockDepth t.trace = lockDepth s.trace := by
  obtain ⟨tr, htr, hno⟩ := h
  rw [htr, lockDepth_append, lockDepth_eq_zero tr hno, add_zero]

theorem lockDepth_lockedCall {s t : DX8SoundManager} (h : lockedCall s t) :
    lockDepth t.trace = lockDepth s.trace := by
  obtain ⟨mid, post, htr, hmid, hpost⟩ := h
  have hm := lockDepth_eq_zero mid hmid
  have hp := lockDepth_console post hpost
  unfold lockDepth at hm hp ⊢
  rw [htr]
  simp [List.map_append, List.sum_append, Event.lockStep, hm, hp]

/-- A method that enters the critical section, makes calls that are no lock calls,
leaves, and then only writes to the console. -/
theorem lockedCall_intro {s u t : DX8SoundManager}
    (hcs : s.m_bCriticalSectionInitialized = true)
    (hu : u.m_bCriticalSectionInitialized = true)
    (h1 : extendsTrace (fun e => e.isLockCall = false) (EnterCriticalSection s) u)
    (h2 : extendsTrace (fun e => ∃ msg, e = Event.outputToConsole msg)
      (LeaveCriticalSection u) t) : lockedCall s t := by
  obtain ⟨mid, hmid, hP⟩ := h1
  obtain ⟨post, hpost, hQ⟩ := h2
  refine ⟨mid, post, ?_, hP, hQ⟩
  rw [hpost]
  simp only [LeaveCriticalSection, hu, if_true, emit_trace, hmid, EnterCriticalSection, hcs,
    List.append_assoc, List.singleton_append, List.cons_append, List.nil_append]

theorem plain_noLock (e : Event) (h : e.isPlain = true) : e.isLockCall = false := by
  cases e <;> first | rfl | cases h

theorem initFailure_locked (ctx : CKContext) (hr : HRESULT) (warning op : String)
    (s u : DX8SoundManager) (hcs : s.m_bCriticalSectionInitialized = true)
    (hu : u.m_bCriticalSectionInitialized = true)
    (h : extendsTrace (fun e => e.isLockCall = false) (EnterCriticalSection s) u) :
    lockedCall s (initFailure ctx hr warning op u).2 := by
  unfold initFailure
  simp only []
  refine lockedCall_intro hcs ?_ (extendsTrace_trans h ?_)
    (HandleDirectSoundError_extends _ (fun msg => ⟨msg, rfl⟩) _ _ _ _)
  · split_ifs <;> simpa using hu
  · have hc := CleanupDirectSoundResources_extends (fun e => e.isLockCall = false)
      (fun _ => rfl) (fun _ => rfl) u
    split_ifs
    · exact extendsTrace_trans hc (extendsTrace_emit _ _ (by rfl))
    · exact hc

theorem OnCKInit_locked (ctx : CKContext) (dev : InitDevice) (s : DX8SoundManager)
    (hen : ctx.disabledSound = false) (hcs : s.m_bCriticalSectionInitialized = true) :
    lockedCall s (OnCKInit ctx dev s).2 := by
  unfold OnCKInit
  simp only [hen, Bool.false_eq_true, if_false]
  have e1 : extendsTrace (fun e => e.isLockCall = false) (EnterCriticalSection s)
      { emit (Event.directSoundCreate dev.create.hr) (EnterCriticalSection s) with
        m_Root := dev.create.written } :=
    extendsTrace_of_trace_eq (extendsTrace_emit _ _ (by rfl)) rfl
  by_cases h1 : FAILED dev.create.hr = true
  · simp only [h1, if_true]
    exact initFailure_locked _ _ _ _ s _ hcs (by simpa using hcs) e1
  simp only [h1, Bool.false_eq_true, if_false]
  have e2 := extendsTrace_trans e1 (extendsTrace_emit
    (Event.setCooperativeLevel dev.create.obj dev.cooperativeLevel) _ (by rfl))
  by_cases h2 : FAILED dev.cooperativeLevel = true
  · simp only [h2, if_true]
    exact initFailure_locked _ _ _ _ s _ hcs (by simpa using hcs) e2
  simp only [h2, Bool.false_eq_true, if_false]
  have e3 := extendsTrace_trans e2 (extendsTrace_emit
    (Event.createSoundBuffer dev.create.obj primaryFlags 0 dev.primary.hr) _ (by rfl))
  by_cases h3 : FAILED dev.primary.hr = true
  · simp only [h3, if_true]
    exact initFailure_locked _ _ _ _ s _ hcs (by simpa using hcs)
      (extendsTrace_of_trace_eq e3 rfl)
  simp only [h3, Bool.false_eq_true, if_false]
  have e4 := extendsTrace_trans (extendsTrace_trans e3 (extendsTrace_emit
    (Event.getVolume dev.primary.obj dev.getVolume) _ (by rfl))) (extendsTrace_emit
    (Event.queryInterfaceListener dev.primary.obj dev.listener.hr) _ (by rfl))
  by_cases h4 : FAILED dev.listener.hr = true
  · simp only [h4, if_true]
    exact initFailure_locked _ _ _ _ s _ hcs (by simpa using hcs)
      (extendsTrace_of_trace_eq e4 rfl)
  simp only [h4, Bool.false_eq_true, if_false]
  have e5 := extendsTrace_trans e4 (extendsTrace_emit
    (Event.setFormat dev.primary.obj dev.setFormat) _ (by rfl))
  refine lockedCall_intro hcs ?_ ?_ (extendsTrace_refl _ _)
  · split_ifs <;> simpa using hcs
  · refine extendsTrace_of_trace_eq (extendsTrace_trans (extendsTrace_trans (extendsTrace_trans
      (t := if (FAILED dev.setFormat && ctx.interfaceMode) = true then _ else _) ?_
      (extendsTrace_emit Event.registerAttribute _ (by rfl)))
      (forEachWaveSound_extends _ ctx Event.wsRecreate (fun _ => by rfl) ctx.waveSounds _))
      (extendsTrace_emit (Event.play dev.primary.obj true) _ (by rfl))) rfl
    split_ifs <;>
      first
      | exact extendsTrace_of_trace_eq e5 rfl
      | exact extendsTrace_of_trace_eq
          (extendsTrace_trans e5 (extendsTrace_emit _ _ (by rfl))) rfl

theorem OnCKEnd_locked (ctx : CKContext) (s : DX8SoundManager)
    (hen : ctx.disabledSound = false) (hcs : s.m_bCriticalSectionInitialized = true) :
    lockedCall s (OnCKEnd ctx s).2 := by
  unfold OnCKEnd StopAllPlayingSounds
  simp only [hen, Bool.false_eq_true, if_false]
  refine lockedCall_intro hcs (by simpa using hcs) ?_ (extendsTrace_refl _ _)
  exact extendsTrace_of_trace_eq (extendsTrace_trans
    (forEachWaveSound_extends _ ctx Event.wsRelease (fun _ => by rfl) ctx.waveSounds _)
    (CleanupDirectSoundResources_extends (fun e => e.isLockCall = false)
      (fun _ => rfl) (fun _ => rfl) _)) rfl

theorem PostClearAll_locked (baseResult : CKERROR) (s : DX8SoundManager)
    (hcs : s.m_bCriticalSectionInitialized = true) :
    lockedCall s (PostClearAll baseResult s).2 := by
  unfold PostClearAll
  simp only []
  refine lockedCall_intro hcs (by simpa using hcs) ?_ (extendsTrace_refl _ _)
  exact extendsTrace_trans (extendsTrace_trans
    (t := { emit Event.basePostClearAll (EnterCriticalSection s) with m_SoundsPlaying := [] })
    (extendsTrace_of_trace_eq (extendsTrace_emit Event.basePostClearAll _ (by rfl)) rfl)
    (ReleaseMinions_extends (fun e => e.isLockCall = false) (fun _ => rfl) (fun _ => rfl) _))
    (extendsTrace_emit Event.registerAttribute _ (by rfl))

theorem internalStops_state (ctx : CKContext) (ids : List CK_ID) (s : DX8SoundManager) :
    ∃ tr, ids.foldl
      (fun acc id =>
        match ctx.getObject id with
        | some ws => if ws.hasSource then emit (Event.wsInternalStop id) acc else acc
        | none => acc) s = { s with trace := tr } := by
  induction ids generalizing s with
  | nil => exact ⟨s.trace, rfl⟩
  | cons id rest ih =>
    simp only [List.foldl_cons]
    cases ctx.getObject id with
    | none => exact ih s
    | some ws =>
      simp only []
      split_ifs
      · obtain ⟨tr, h⟩ := ih (emit (Event.wsInternalStop id) s)
        exact ⟨tr, by rw [h]; rfl⟩
      · exact ih s

theorem resetTail_extends (dev : ResetDevice) (s3 : DX8SoundManager) :
    extendsTrace (fun e => e.isLockCall = false) s3
      (match
        (match s3.m_Primary with
          | some p =>
            if s3.g_InitialVolumeChanged then
              if SUCCEEDED dev.setVolume then
                storeVolume p s3.g_InitialVolume
                  (emit (Event.setVolume p s3.g_InitialVolume dev.setVolume) s3)
              else emit (Event.setVolume p s3.g_InitialVolume dev.setVolume) s3
            else s3
          | none => s3).m_Listener with
        | some l =>
          emit (Event.commitDeferredSettings l)
            (match s3.m_Primary with
              | some p =>
                if s3.g_InitialVolumeChanged then
                  if SUCCEEDED dev.setVolume then
                    storeVolume p s3.g_InitialVolume
                      (emit (Event.setVolume p s3.g_InitialVolume dev.setVolume) s3)
                  else emit (Event.setVolume p s3.g_InitialVolume dev.setVolume) s3
                else s3
              | none => s3)
        | none =>
          (match s3.m_Primary with
            | some p =>
              if s3.g_InitialVolumeChanged then
                if SUCCEEDED dev.setVolume then
                  storeVolume p s3.g_InitialVolume
                    (emit (Event.setVolume p s3.g_InitialVolume dev.setVolume) s3)
                else emit (Event.setVolume p s3.g_InitialVolume dev.setVolume) s3
              else s3
            | none => s3)) ∧
    (match
        (match s3.m_Primary with
          | some p =>
            if s3.g_InitialVolumeChanged then
              if SUCCEEDED dev.setVolume then
                storeVolume p s3.g_InitialVolume
                  (emit (Event.setVolume p s3.g_InitialVolume dev.setVolume) s3)
              else emit (Event.setVolume p s3.g_InitialVolume dev.setVolume) s3
            else s3
          | none => s3).m_Listener with
        | some l =>
          emit (Event.commitDeferredSettings l)
            (match s3.m_Primary with
              | some p =>
                if s3.g_InitialVolumeChanged then
                  if SUCCEEDED dev.setVolume then
                    storeVolume p s3.g_InitialVolume
                      (emit (Event.setVolume p s3.g_InitialVolume dev.setVolume) s3)
                  else emit (Event.setVolume p s3.g_InitialVolume dev.setVolume) s3
                else s3
              | none => s3)
        | none =>
          (match s3.m_Primary with
            | some p =>
              if s3.g_InitialVolumeChanged then
                if SUCCEEDED dev.setVolume then
                  storeVolume p s3.g_InitialVolume
                    (emit (Event.setVolume p s3.g_InitialVolume dev.setVolume) s3)
                else emit (Event.setVolume p s3.g_InitialVolume dev.setVolume) s3
              else s3
            | none => s3)).m_bCriticalSectionInitialized =
      s3.m_bCriticalSectionInitialized := by
  rcases s3 with ⟨r, p, l, i, v, c, sp, ms, g, gc, bufs, tr⟩
  cases p <;> cases l <;> cases gc <;> by_cases hs : SUCCEEDED dev.setVolume = true <;>
    simp only [hs, if_true, if_false, Bool.false_eq_true, emit_fields, storeVolume_fields,
      and_true] <;>
    first
    | exact extendsTrace_refl _ _
    | exact extendsTrace_emit _ _ (by rfl)
    | exact extendsTrace_trans (extendsTrace_emit _ _ (by rfl)) (extendsTrace_emit _ _ (by rfl))

theorem OnCKReset_locked (ctx : CKContext) (dev : ResetDevice) (s : DX8SoundManager)
    (hv : ValidateDirectSound s = true) (hcs : s.m_bCriticalSectionInitialized = true) :
    lockedCall s (OnCKReset ctx dev s).2 := by
  have e1 : extendsTrace (fun e => e.isLockCall = false) (EnterCriticalSection s)
      (ReleaseMinions
        { (EnterCriticalSection s).m_SoundsPlaying.foldl
            (fun acc id =>
              match ctx.getObject id with
              | some ws => if ws.hasSource then emit (Event.wsInternalStop id) acc else acc
              | none => acc) (EnterCriticalSection s) with m_SoundsPlaying := [] }) :=
    extendsTrace_trans
      (extendsTrace_of_trace_eq
        (internalStops_extends (fun e => e.isLockCall = false) (fun _ => rfl) ctx
          (EnterCriticalSection s).m_SoundsPlaying (EnterCriticalSection s)) rfl)
      (ReleaseMinions_extends (fun e => e.isLockCall = false) (fun _ => rfl) (fun _ => rfl) _)
  have ht := resetTail_extends dev (ReleaseMinions
        { (EnterCriticalSection s).m_SoundsPlaying.foldl
            (fun acc id =>
              match ctx.getObject id with
              | some ws => if ws.hasSource then emit (Event.wsInternalStop id) acc else acc
              | none => acc) (EnterCriticalSection s) with m_SoundsPlaying := [] })
  unfold OnCKReset
  simp only [hv, Bool.not_true, Bool.false_eq_true, if_false]
  refine lockedCall_intro hcs ?_ (extendsTrace_trans e1 ht.1) (extendsTrace_refl _ _)
  refine ht.2.trans ?_
  obtain ⟨tr, h⟩ := internalStops_state ctx (EnterCriticalSection s).m_SoundsPlaying
    (EnterCriticalSection s)
  simp only [ReleaseMinions_fields]
  rw [h]
  simpa using hcs

theorem updateListener_extends (P : Event → Prop)
    (hpos : ∀ l v d, P (Event.listenerSetPosition l v d))
    (hvel : ∀ l v d, P (Event.listenerSetVelocity l v d))
    (hori : ∀ l f u d, P (Event.listenerSetOrientation l f u d))
    (ctx : CKContext) (b : Bool) (s t : DX8SoundManager)
    (h : updateListener ctx b s = some t) : extendsTrace P s t := by
  unfold updateListener at h
  split_ifs at h
  · cases hl : ctx.listener with
    | none =>
      rw [hl] at h
      simp only [Option.some.injEq] at h
      subst h
      exact extendsTrace_refl P s
    | some ent =>
      rw [hl] at h
      cases hm : s.m_Listener with
      | none => rw [hm] at h; simp at h
      | some l =>
        rw [hm] at h
        simp only [Option.some.injEq] at h
        subst h
        have h0 : extendsTrace P s { s with m_LastListenerPosition := ent.worldPos } :=
          extendsTrace_of_trace_eq (extendsTrace_refl P s) rfl
        exact extendsTrace_trans (extendsTrace_trans (extendsTrace_trans h0
          (extendsTrace_emit _ _ (hpos _ _ _))) (extendsTrace_emit _ _ (hvel _ _ _)))
          (extendsTrace_emit _ _ (hori _ _ _ _))
  · simp only [Option.some.injEq] at h
    subst h
    exact extendsTrace_refl P s

theorem PostProcess_locked (ctx : CKContext) (dev : FrameDevice) (s : DX8SoundManager)
    (r : CKERROR × DX8SoundManager) (hv : ValidateDirectSound s = true)
    (hcs : s.m_bCriticalSectionInitialized = true) (h : PostProcess ctx dev s = some r) :
    lockedCall s r.2 := by
  have hf := PostProcess_fields ctx dev s r h
  unfold PostProcess at h
  simp only [hv, Bool.not_true, Bool.false_eq_true, if_false] at h
  split at h
  · simp at h
  · rename_i q hq
    split at h
    · simp at h
    · rename_i s4 hs4
      simp only [Option.some.injEq] at h
      subst h
      have e1 := sweepPlaying_extends ctx (EnterCriticalSection s).m_SoundsPlaying
        (EnterCriticalSection s)
      have e2 := sweepMinions_extends _ _ _ _ _ hq
      have e3 := updateListener_extends (fun e => e.isLockCall = false)
        (fun _ _ _ => rfl) (fun _ _ _ => rfl) (fun _ _ _ _ => rfl) _ _ _ _ hs4
      have hcs5 := hf.2.2.2.2.2.1
      simp only [LeaveCriticalSection_fields, ProcessMinions_fields] at hcs5
      refine lockedCall_intro hcs ?_ ?_ (extendsTrace_refl _ _)
      · simp only [ProcessMinions_fields]
        rw [hcs5, hcs]
      · refine extendsTrace_trans (extendsTrace_trans (extendsTrace_trans
          (extendsTrace_of_trace_eq (extendsTrace_trans
            (extendsTrace_of_trace_eq (extendsTrace_mono plain_noLock e1) rfl)
            (extendsTrace_mono plain_noLock e2)) rfl) e3) ?_)
          (extendsTrace_mono plain_noLock (ProcessMinions_extends dev _))
        split
        · exact extendsTrace_emit _ _ (by rfl)
        · exact extendsTrace_refl _ _

theorem OnCKPause_unlocked (ctx : CKContext) (s : DX8SoundManager) :
    unlockedCall s (OnCKPause ctx s).2 :=
  extendsTrace_trans
    (forEachWaveSound_extends _ ctx Event.wsPause (fun _ => by rfl) s.m_SoundsPlaying s)
    (extendsTrace_emit Event.pauseMinions _ (by rfl))

theorem OnCKPlay_unlocked (ctx : CKContext) (s : DX8SoundManager) :
    unlockedCall s (OnCKPlay ctx s).2 :=
  extendsTrace_trans
    (forEachWaveSound_extends _ ctx Event.wsResume (fun _ => by rfl) s.m_SoundsPlaying s)
    (extendsTrace_emit Event.resumeMinions _ (by rfl))

theorem PreLaunchScene_unlocked (ctx : CKContext) (oldScene newScene : Option CK_ID)
    (s : DX8SoundManager) : unlockedCall s (PreLaunchScene ctx oldScene newScene s).2 := by
  cases newScene with
  | none => exact extendsTrace_refl _ s
  | some scene =>
    have h1 : extendsTrace (fun e => e.isLockCall = false) s
        (pauseOutsideScene ctx scene s.m_SoundsPlaying s) := by
      rw [pauseOutsideScene_eq]
      refine ⟨_, rfl, ?_⟩
      intro e he
      obtain ⟨id, -, rfl⟩ := List.mem_map.mp he
      rfl
    have h2 := (stopMinionsOutsideScene_extends (fun e => e.isLockCall = false)
      (fun _ => rfl) (fun _ => rfl) (fun _ _ => rfl) ctx scene
      (pauseOutsideScene ctx scene s.m_SoundsPlaying s).m_Minions
      (pauseOutsideScene ctx scene s.m_SoundsPlaying s)).1
    exact extendsTrace_of_trace_eq (extendsTrace_trans h1 h2) rfl

theorem SequenceToBeDeleted_unlocked (ctx : CKContext) (baseResult : CKERROR)
    (objids : Option (List CK_ID)) (count : Int) (s : DX8SoundManager) :
    unlockedCall s (SequenceToBeDeleted ctx baseResult objids count s).2 := by
  cases objids with
  | none => exact extendsTrace_refl _ s
  | some ids =>
    unfold SequenceToBeDeleted
    simp only []
    split_ifs
    · exact extendsTrace_refl _ s
    · exact extendsTrace_of_trace_eq (extendsTrace_trans
        (extendsTrace_emit (Event.baseSequenceToBeDeleted ids count) s (by rfl))
        (purgePlaying_extends (fun e => e.isLockCall = false) (fun _ => rfl) ctx _ _)) rfl

theorem Play_unlocked (ws : Option CK_ID) (source minionSource : Option Handle) (loop : Bool)
    (s : DX8SoundManager) : unlockedCall s (Play ws source minionSource loop s) := by
  cases source with
  | none => exact extendsTrace_refl _ s
  | some b =>
    cases ws with
    | some id =>
      exact extendsTrace_of_trace_eq (extendsTrace_emit (Event.play b loop) s (by rfl)) rfl
    | none =>
      cases minionSource with
      | none => exact extendsTrace_refl _ s
      | some buffer => exact extendsTrace_emit (Event.play buffer loop) s (by rfl)

/-! ## The claim on the critical section -/

/-- Claim C26, counterexample.  On an initialised manager, whose critical section is
initialised, `Play` of the sound 3 on the source 200 puts 3 into the empty registry and
its only outgoing call is `Play` on the buffer; `OnCKPause` walks the registry and its
outgoing calls are the `Pause` of the sound 3 and `PauseMinions`.  Neither enters the
critical section. -/
theorem registry_access_outside_critical_section :
    initialisedManager.m_bCriticalSectionInitialized = true ∧
    initialisedManager.m_SoundsPlaying = [] ∧
    (Play (some 3) (some 200) none false initialisedManager).m_SoundsPlaying = [3] ∧
    (Play (some 3) (some 200) none false initialisedManager).trace =
      initialisedManager.trace ++ [Event.play 200 false] ∧
    (OnCKPause sampleContext playingManager).2.trace =
      playingManager.trace ++ [Event.wsPause 3, Event.pauseMinions] := by
  refine ⟨rfl, rfl, rfl, rfl, rfl⟩

/-- Claim C26, amended.  On a manager whose critical section is initialised: `OnCKInit`
and `OnCKEnd` with sound disabled return the manager as it is, and with sound enabled
they enter the critical section once, make their calls to the device and to the sounds,
leave once, and after that write at most to the console; so does `PostClearAll`;
`OnCKReset` and `PostProcess` first test `m_Root` and `m_Primary` outside the critical
section, return the manager as it is when one is null, and otherwise do the same (for
`PostProcess`, when it completes).  `OnCKPause`, `OnCKPlay`, `PreLaunchScene`,
`SequenceToBeDeleted` and `Play` never enter or leave the critical section.  In every
case the depth of the critical section at return is its depth at entry. -/
theorem critical_section_balanced (s : DX8SoundManager)
    (hcs : s.m_bCriticalSectionInitialized = true) :
    (∀ ctx dev,
      (ctx.disabledSound = true → OnCKInit ctx dev s = (CK_OK, s)) ∧
      (ctx.disabledSound = false → lockedCall s (OnCKInit ctx dev s).2) ∧
      lockDepth (OnCKInit ctx dev s).2.trace = lockDepth s.trace) ∧
    (∀ ctx,
      (ctx.disabledSound = true → OnCKEnd ctx s = (CK_OK, s)) ∧
      (ctx.disabledSound = false → lockedCall s (OnCKEnd ctx s).2) ∧
      lockDepth (OnCKEnd ctx s).2.trace = lockDepth s.trace) ∧
    (∀ ctx dev,
      (ValidateDirectSound s = false → OnCKReset ctx dev s = (CK_OK, s)) ∧
      (ValidateDirectSound s = true → lockedCall s (OnCKReset ctx dev s).2) ∧
      lockDepth (OnCKReset ctx dev s).2.trace = lockDepth s.trace) ∧
    (∀ baseResult,
      lockedCall s (PostClearAll baseResult s).2 ∧
      lockDepth (PostClearAll baseResult s).2.trace = lockDepth s.trace) ∧
    (∀ ctx dev,
      (ValidateDirectSound s = false → PostProcess ctx dev s = some (CK_OK, s)) ∧
      (∀ r, PostProcess ctx dev s = some r →
        (ValidateDirectSound s = true → lockedCall s r.2) ∧
        lockDepth r.2.trace = lockDepth s.trace)) ∧
    (∀ ctx,
      unlockedCall s (OnCKPause ctx s).2 ∧
      lockDepth (OnCKPause ctx s).2.trace = lockDepth s.trace) ∧
    (∀ ctx,
      unlockedCall s (OnCKPlay ctx s).2 ∧
      lockDepth (OnCKPlay ctx s).2.trace = lockDepth s.trace) ∧
    (∀ ctx oldScene newScene,
      unlockedCall s (PreLaunchScene ctx oldScene newScene s).2 ∧
      lockDepth (PreLaunchScene ctx oldScene newScene s).2.trace = lockDepth s.trace) ∧
    (∀ ctx baseResult objids count,
      unlockedCall s (SequenceToBeDeleted ctx baseResult objids count s).2 ∧
      lockDepth (SequenceToBeDeleted ctx baseResult objids count s).2.trace =
        lockDepth s.trace) ∧
    (∀ ws source minionSource loop,
      unlockedCall s (Play ws source minionSource loop s) ∧
      lockDepth (Play ws source minionSource loop s).trace = lockDepth s.trace) := by
  refine ⟨?_, ?_, ?_, ?_, ?_, ?_, ?_, ?_, ?_, ?_⟩
  · intro ctx dev
    refine ⟨OnCKInit_disabled ctx dev s, fun h => OnCKInit_locked ctx dev s h hcs, ?_⟩
    by_cases hd : ctx.disabledSound = true
    · rw [OnCKInit_disabled ctx dev s hd]
    · exact lockDepth_lockedCall (OnCKInit_locked ctx dev s (by simpa using hd) hcs)
  · intro ctx
    refine ⟨OnCKEnd_disabled ctx s, fun h => OnCKEnd_locked ctx s h hcs, ?_⟩
    by_cases hd : ctx.disabledSound = true
    · rw [OnCKEnd_disabled ctx s hd]
    · exact lockDepth_lockedCall (OnCKEnd_locked ctx s (by simpa using hd) hcs)
  · intro ctx dev
    have h0 : ValidateDirectSound s = false → OnCKReset ctx dev s = (CK_OK, s) := by
      intro hv
      simp [OnCKReset, hv]
    refine ⟨h0, fun h => OnCKReset_locked ctx dev s h hcs, ?_⟩
    by_cases hv : ValidateDirectSound s = true
    · exact lockDepth_lockedCall (OnCKReset_locked ctx dev s hv hcs)
    · rw [h0 (by simpa using hv)]
  · intro baseResult
    exact ⟨PostClearAll_locked baseResult s hcs,
      lockDepth_lockedCall (PostClearAll_locked baseResult s hcs)⟩
  · intro ctx dev
    have h0 : ValidateDirectSound s = false → PostProcess ctx dev s = some (CK_OK, s) := by
      intro hv
      simp [PostProcess, hv]
    refine ⟨h0, fun r hr => ⟨fun hv => PostProcess_locked ctx dev s r hv hcs hr, ?_⟩⟩
    by_cases hv : ValidateDirectSound s = true
    · exact lockDepth_lockedCall (PostProcess_locked ctx dev s r hv hcs hr)
    · rw [h0 (by simpa using hv)] at hr
      cases hr
      rfl
  · exact fun ctx => ⟨OnCKPause_unlocked ctx s, lockDepth_unlockedCall (OnCKPause_unlocked ctx s)⟩
  · exact fun ctx => ⟨OnCKPlay_unlocked ctx s, lockDepth_unlockedCall (OnCKPlay_unlocked ctx s)⟩
  · exact fun ctx o n => ⟨PreLaunchScene_unlocked ctx o n s,
      lockDepth_unlockedCall (PreLaunchScene_unlocked ctx o n s)⟩
  · exact fun ctx b ids c => ⟨SequenceToBeDeleted_unlocked ctx b ids c s,
      lockDepth_unlockedCall (SequenceToBeDeleted_unlocked ctx b ids c s)⟩
  · exact fun ws src ms loop => ⟨Play_unlocked ws src ms loop s,
      lockDepth_unlockedCall (Play_unlocked ws src ms loop s)⟩

/-- Witness of C26: on a freshly constructed manager a successful `OnCKInit` enters and
leaves the critical section once and the depth is unchanged. -/
theorem critical_section_balanced_witness :
    freshManager.m_bCriticalSectionInitialized = true ∧
    sampleContext.disabledSound = false ∧
    lockedCall freshManager (OnCKInit sampleContext deviceOk freshManager).2 ∧
    lockDepth (OnCKInit sampleContext deviceOk freshManager).2.trace =
      lockDepth freshManager.trace :=
  ⟨rfl, rfl,
    ((critical_section_balanced freshManager rfl).1 sampleContext deviceOk).2.1 rfl,
    ((critical_section_balanced freshManager rfl).1 sampleContext deviceOk).2.2⟩

/-! ## The listener in the frame loop: auxiliary facts -/

theorem IsPlaying_value (dev : FrameDevice) (source : Option Handle) (s : DX8SoundManager) :
    (IsPlaying dev source s).1 = dev.reportsPlaying source := by
  cases source with
  | none => rfl
  | some b =>
    unfold IsPlaying FrameDevice.reportsPlaying
    simp only []
    split_ifs with h <;> simp [h]

theorem sweepPlaying_flag (ctx : CKContext) (ids : List CK_ID) (s : DX8SoundManager)
    (h : ∃ id ∈ ids, ∃ ws, ctx.getObject id = some ws ∧ ws.isPlaying = true ∧
      ws.soundType &&& CK_WAVESOUND_BACKGROUND = 0) :
    (sweepPlaying ctx ids s).2.1 = true := by
  induction ids generalizing s with
  | nil =>
    obtain ⟨id, hid, -⟩ := h
    cases hid
  | cons a rest ih =>
    obtain ⟨id, hid, ws, hws, hp, ht⟩ := h
    unfold sweepPlaying
    rcases List.mem_cons.mp hid with rfl | hmem
    · simp [hws, hp, ht]
    · have hrest : ∃ id ∈ rest, ∃ ws, ctx.getObject id = some ws ∧ ws.isPlaying = true ∧
          ws.soundType &&& CK_WAVESOUND_BACKGROUND = 0 := ⟨id, hmem, ws, hws, hp, ht⟩
      cases ha : ctx.getObject a with
      | none => simpa using ih s hrest
      | some wa =>
        simp only []
        by_cases hpa : wa.isPlaying = true
        · simp only [hpa, if_true]
          rw [ih _ hrest]
          simp
        · simp only [hpa, Bool.false_eq_true, if_false]
          exact ih s hrest

/-- On a pool without null entry the second loop of `PostProcess` completes; the pool it
leaves has no null entry either, and its flag is set when the source of a minion reports
playing. -/
theorem sweepMinions_complete (ctx : CKContext) (dev : FrameDevice)
    (ms : List (Option SoundMinion)) (s : DX8SoundManager) (h : ∀ e ∈ ms, e ≠ none) :
    ∃ r, sweepMinions ctx dev ms s = some r ∧ (∀ e ∈ r.1, e ≠ none) ∧
      ((∃ m, some m ∈ ms ∧ dev.reportsPlaying m.m_Source = true) → r.2.1 = true) := by
  induction ms generalizing s with
  | nil => exact ⟨_, rfl, by simp, by simp⟩
  | cons e rest ih =>
    cases e with
    | none => exact absurd rfl (h none (List.mem_cons_self _ _))
    | some m =>
      have hrest : ∀ e ∈ rest, e ≠ none := fun e he => h e (List.mem_cons_of_mem _ he)
      simp only [sweepMinions]
      by_cases hp : (IsPlaying dev m.m_Source s).1 = true
      · obtain ⟨r, hr, hnn, -⟩ := ih (repositionMinion ctx dev m (IsPlaying dev m.m_Source s).2).2
          hrest
        refine ⟨_, by simp only [hp, if_true, hr, Option.map_some']; rfl, ?_, fun _ => rfl⟩
        intro e he
        rcases List.mem_cons.mp he with rfl | he
        · simp
        · exact hnn e he
      · obtain ⟨r, hr, hnn, hflag⟩ := ih (IsPlaying dev m.m_Source s).2 hrest
        refine ⟨_, by simp only [hp, Bool.false_eq_true, if_false, hr, Option.map_some']; rfl,
          ?_, ?_⟩
        · intro e he
          rcases List.mem_cons.mp he with rfl | he
          · simp
          · exact hnn e he
        · rintro ⟨m2, hm2, hplay⟩
          rcases List.mem_cons.mp hm2 with heq | hmem
          · cases heq
            rw [IsPlaying_value] at hp
            exact absurd hplay hp
          · exact hflag ⟨m2, hmem, hplay⟩

theorem reapMinions_subset (dev : FrameDevice) (ms : List (Option SoundMinion))
    (s : DX8SoundManager) : ∀ e ∈ (reapMinions dev ms s).1, e ∈ ms := by
  induction ms generalizing s with
  | nil => intro e he; cases he
  | cons a rest ih =>
    cases a with
    | none =>
      intro e he
      simp only [reapMinions] at he
      rcases List.mem_cons.mp he with rfl | he
      · exact List.mem_cons_self _ _
      · exact List.mem_cons_of_mem _ (ih _ e he)
    | some m =>
      intro e he
      simp only [reapMinions] at he
      split_ifs at he
      · rcases List.mem_cons.mp he with rfl | he
        · exact List.mem_cons_self _ _
        · exact List.mem_cons_of_mem _ (ih _ e he)
      · exact List.mem_cons_of_mem _ (ih _ e he)

theorem plain_quiet (e : Event) (h : e.isPlain = true) :
    e.isListenerPoseWrite = false ∧ e.isCommit = false := by
  cases e <;> first | exact ⟨rfl, rfl⟩ | cases h

theorem EnterCriticalSection_extends (P : Event → Prop) (h : P Event.enterCriticalSection)
    (s : DX8SoundManager) : extendsTrace P s (EnterCriticalSection s) := by
  unfold EnterCriticalSection
  split_ifs
  · exact extendsTrace_emit _ s h
  · exact extendsTrace_refl P s

theorem LeaveCriticalSection_extends (P : Event → Prop) (h : P Event.leaveCriticalSection)
    (s : DX8SoundManager) : extendsTrace P s (LeaveCriticalSection s) := by
  unfold LeaveCriticalSection
  split_ifs
  · exact extendsTrace_emit _ s h
  · exact extendsTrace_refl P s

/-- One frame with a listener entity and something playing in 3D: `PostProcess`
completes, and between calls that neither write the pose of the listener nor commit it
makes the three deferred writes and the commit of `listenerFrameWrites`. -/
theorem PostProcess_listener_frame (ctx : CKContext) (dev : FrameDevice)
    (s : DX8SoundManager) (l : Handle) (ent : CKObject)
    (hv : ValidateDirectSound s = true) (hl : s.m_Listener = some l)
    (hpool : ∀ e ∈ s.m_Minions, e ≠ none) (hent : ctx.listener = some ent)
    (hplay : somethingPlayingIn3D ctx dev s) :
    ∃ t pre post, PostProcess ctx dev s = some (CK_OK, t) ∧
      t.trace = s.trace ++ pre ++ listenerFrameWrites l ent s.m_LastListenerPosition ++ post ∧
      (∀ e ∈ pre, e.isListenerPoseWrite = false ∧ e.isCommit = false) ∧
      (∀ e ∈ post, e.isListenerPoseWrite = false ∧ e.isCommit = false) ∧
      t.m_LastListenerPosition = ent.worldPos ∧
      (∀ e ∈ t.m_Minions, e ≠ none) := by
  obtain ⟨q, hq, hnn, hflag⟩ := sweepMinions_complete ctx dev s.m_Minions
    { (sweepPlaying ctx (EnterCriticalSection s).m_SoundsPlaying (EnterCriticalSection s)).2.2
      with m_SoundsPlaying :=
        (sweepPlaying ctx (EnterCriticalSection s).m_SoundsPlaying (EnterCriticalSection s)).1 }
    hpool
  have hq' := sweepMinions_fields _ _ _ _ _ hq
  have hfl : ((sweepPlaying ctx (EnterCriticalSection s).m_SoundsPlaying
      (EnterCriticalSection s)).2.1 || q.2.1) = true := by
    rcases hplay with h | h
    · rw [sweepPlaying_flag ctx _ _ (by simpa using h)]
      rfl
    · rw [hflag h]
      simp
  have hl3 : q.2.2.m_Listener = some l := by
    rw [hq'.2.2.1]
    simpa using hl
  have hlast : q.2.2.m_LastListenerPosition = s.m_LastListenerPosition := by
    rw [hq'.2.2.2.2.1]
    simp
  have e0 : extendsTrace (fun e => e.isListenerPoseWrite = false ∧ e.isCommit = false) s
      { (sweepPlaying ctx (EnterCriticalSection s).m_SoundsPlaying (EnterCriticalSection s)).2.2
        with m_SoundsPlaying :=
          (sweepPlaying ctx (EnterCriticalSection s).m_SoundsPlaying
            (EnterCriticalSection s)).1 } :=
    extendsTrace_of_trace_eq (extendsTrace_trans
      (EnterCriticalSection_extends _ ⟨rfl, rfl⟩ s)
      (extendsTrace_mono plain_quiet
        (sweepPlaying_extends ctx (EnterCriticalSection s).m_SoundsPlaying
          (EnterCriticalSection s)))) rfl
  have e1 : extendsTrace (fun e => e.isListenerPoseWrite = false ∧ e.isCommit = false) s
      q.2.2 :=
    extendsTrace_trans e0 (extendsTrace_mono plain_quiet (sweepMinions_extends _ _ _ _ _ hq))
  obtain ⟨pre, hpre, hQpre⟩ := e1
  have e2 : ∀ u : DX8SoundManager,
      extendsTrace (fun e => e.isListenerPoseWrite = false ∧ e.isCommit = false) u
        (LeaveCriticalSection (ProcessMinions dev u)) := fun u =>
    extendsTrace_trans (extendsTrace_mono plain_quiet (ProcessMinions_extends dev u))
      (LeaveCriticalSection_extends _ ⟨rfl, rfl⟩ _)
  obtain ⟨u, hu⟩ : ∃ u : DX8SoundManager, u =
      emit (Event.commitDeferredSettings l)
        (emit (Event.listenerSetOrientation l ent.worldDir ent.worldUp true)
          (emit (Event.listenerSetVelocity l (ent.worldPos.sub s.m_LastListenerPosition) true)
            (emit (Event.listenerSetPosition l ent.worldPos true)
              { q.2.2 with m_Minions := q.1, m_LastListenerPosition := ent.worldPos }))) :=
    ⟨_, rfl⟩
  obtain ⟨post, hpost, hQpost⟩ := e2 u
  refine ⟨LeaveCriticalSection (ProcessMinions dev u), pre, post, ?_, ?_, hQpre, hQpost, ?_, ?_⟩
  · unfold PostProcess
    simp only [hv, Bool.not_true, Bool.false_eq_true, if_false]
    have hm : (EnterCriticalSection s).m_Minions = s.m_Minions := by simp
    have hq2 := hq
    simp only [sweepPlaying_fields, hm] at hq2
    simp only [sweepPlaying_fields, hm, hq2, hfl, updateListener, if_true, hent, hl3, hlast,
      emit_fields, hu]
  · rw [hpost, hu]
    simp only [emit_trace, hpre, listenerFrameWrites, List.append_assoc, List.singleton_append,
      List.cons_append, List.nil_append]
  · rw [hu]
    simp
  · intro e he
    simp only [LeaveCriticalSection_fields] at he
    have := reapMinions_subset dev _ _ e he
    rw [hu] at this
    simp only [emit_fields] at this
    exact hnn e this

/-! ## The claim on the listener in the frame loop -/

end Dx8
